import Mathlib

/-!
# LehrFEM++ : `LocCompLagrFEPreprocessor`

A shallow embedding of the constructor of `lf::fe::LocCompLagrFEPreprocessor`
(`lib/lf/fe/loc_comp_ellbvp.cc`) and of the accessors of `lf::geometry::Point`
(`lib/lf/geometry/point.h`), together with a model of the element matrix
assembler written from section 4.2 of the specification.

Conventions of the embedding.

* The scalar type `double` is a type parameter `R`: the constructor only moves
  scalars from the evaluation results into the caches and never computes
  with them.
* Sizes and counts (`size_type`, loop counters) are natural numbers.
  The one arithmetic operation of the constructor, `2 * poly_order`, is
  carried out in `unsigned int` (32 bits) and then converted to
  `quadOrder_t`; both reductions are explicit.  The conversion of
  `coord_.rows()` to `dim_t` in `Point::DimGlobal()` is explicit as well; the
  widths of `quadOrder_t` and `dim_t` are parameters.
* A failed `LF_ASSERT_MSG` ends the run with an `Abort` that records the place
  of the assertion and the streamed message.  A read or a block assignment
  that Eigen or `std::vector` does not allow (index out of range, mismatching
  block sizes) ends the run with an `Abort` at `Site.indexRange`.
* The calls to the collaborators (`make_QuadRule`, the two evaluation
  functions of a finite element) are logged, in order, in `Run.calls`.
-/

namespace lf.fe

/-! ## Collaborators that are not part of the translation unit -/

/-- Modelled from the spec: the reference shapes `lf::base::RefEl`
(`ref_el.h` is only included, not shown): an enumerated value
point, segment, triangle, quadrilateral. -/
inductive RefEl where
  | kPoint
  | kSegment
  | kTria
  | kQuad
  deriving DecidableEq, Repr

/-- Dense matrix with run-time dimensions (`Eigen::Matrix<double, ., .>`):
dimensions and a coefficient function; only coefficients at `(i, j)` with
`i < rows` and `j < cols` are meaningful. -/
structure Mat (R : Type) where
  rows : Nat
  cols : Nat
  coeff : Nat → Nat → R

/-- Modelled from the spec: `lf::quad::QuadRule`, an ordered sequence of
(point, weight) pairs (`quad_rule.h` is not shown). -/
structure QuadRule (R : Type) where
  nodes : List (List R × R)

/-- Modelled from the spec: `NumPoints()` is the length of the sequence. -/
def QuadRule.NumPoints {R : Type} (qr : QuadRule R) : Nat :=
  qr.nodes.length

/-- Modelled from the spec: `Points()`, the quadrature points in order. -/
def QuadRule.Points {R : Type} (qr : QuadRule R) : List (List R) :=
  qr.nodes.map Prod.fst

/-- Modelled from the spec: `Weights()`, the weights in order. -/
def QuadRule.Weights {R : Type} (qr : QuadRule R) : List R :=
  qr.nodes.map Prod.snd

/-- Modelled from the spec: the capability `ScalarReferenceFiniteElement<double>`
(an abstract class declared in a header that is not shown), given by the
results of its member functions.  `NumRefShapeFunctionsAt codim subidx` stands
for the two-argument overload `NumRefShapeFunctions(codim, subidx)`. -/
structure ScalarReferenceFiniteElement (R : Type) where
  Dimension : Nat
  RefEl : RefEl
  order : Nat
  NumRefShapeFunctions : Nat
  NumRefShapeFunctionsAt : Nat → Nat → Nat
  EvalReferenceShapeFunctions : List (List R) → List (List R)
  GradientsReferenceShapeFunctions : List (List R) → List (Mat R)

/-- What the constructor takes from its surroundings: the quadrature
provider `lf::quad::make_QuadRule`, the width in bits of the unsigned type
`lf::quad::quadOrder_t`, and the unspecified coefficients of freshly resized
Eigen storage. -/
structure Externals (R : Type) where
  make_QuadRule : RefEl → Nat → QuadRule R
  quadOrderBits : Nat
  uninit : Nat → Nat → R

/-! ## Failures and the call log -/

/-- The two preprocessing blocks of the constructor. -/
inductive Block where
  | tria
  | quad
  deriving DecidableEq, Repr

/-- One item streamed into the message of `LF_ASSERT_MSG`. -/
inductive MsgItem where
  | text (s : String)
  | num (n : Nat)
  deriving DecidableEq, Repr

/-- The places at which a run of the constructor can end abnormally. -/
inductive Site where
  | dimension
  | refEl
  | vertexCount
  | edgeCount
  | valueLength (b : Block)
  | rowLength (b : Block)
  | gradLength (b : Block)
  | indexRange (b : Block)
  deriving DecidableEq, Repr

/-- A fatal failure: where it happened and the diagnostic that is printed. -/
structure Abort where
  site : Site
  msg : List MsgItem
  deriving DecidableEq, Repr

/-- A call to a collaborator. -/
inductive Call where
  | make_QuadRule (shape : RefEl) (order : Nat)
  | EvalReferenceShapeFunctions (b : Block)
  | GradientsReferenceShapeFunctions (b : Block)
  deriving DecidableEq, Repr

/-- Outcome of a run: the collaborator calls made, in order, and either the
failure that ended the run or the value produced. -/
structure Run (α : Type) where
  calls : List Call
  result : Except Abort α

/-- Modelled from the spec: `LF_ASSERT_MSG(cond, msg)` is a fatal check, the
run ends with the diagnostic when the condition is violated (the definition of
`LF_ASSERT_MSG` is not shown). -/
def LF_ASSERT_MSG (cond : Bool) (site : Site) (msg : List MsgItem) : Except Abort Unit :=
  if cond then Except.ok () else Except.error ⟨site, msg⟩

/-! ## Eigen and `std::vector` operations used by the constructor -/

/-- Dimensions of a matrix. -/
def Mat.dims {R : Type} (m : Mat R) : Nat × Nat :=
  (m.rows, m.cols)

/-- Coefficients of storage after `resize(rows, cols)`: unspecified. -/
def Mat.resize {R : Type} (uninit : Nat → Nat → R) (rows cols : Nat) : Mat R :=
  ⟨rows, cols, uninit⟩

/-- Write `m(i, j) = v`. -/
def Mat.set {R : Type} (m : Mat R) (i j : Nat) (v : R) : Mat R :=
  { m with coeff := fun a b => if a = i ∧ b = j then v else m.coeff a b }

/-- Read `m.col(i)`: defined when `i < m.cols()`, a vector of height `m.rows()`. -/
def Mat.col {R : Type} (m : Mat R) (i : Nat) : Option (List R) :=
  if i < m.cols then some ((List.range m.rows).map (fun r => m.coeff r i)) else none

/-- Assign `m.col(j) = v`: defined when `j < m.cols()` and `v` has height
`m.rows()` (a column block cannot be resized). -/
def Mat.assignCol {R : Type} (m : Mat R) (j : Nat) (v : List R) : Option (Mat R) :=
  if j < m.cols ∧ v.length = m.rows then
    some { m with coeff := fun a b =>
      if b = j then (match v[a]? with | some x => x | none => m.coeff a b) else m.coeff a b }
  else none

/-- Run `body i` for `i = start, start + 1, ...`, `count` times, stopping at
the first failure. -/
def forFrom {σ ε : Type} (body : Nat → σ → Except ε σ) : Nat → Nat → σ → Except ε σ
  | 0, _, s => Except.ok s
  | count + 1, start, s =>
    match body start s with
    | Except.error e => Except.error e
    | Except.ok s' => forFrom body count (start + 1) s'

/-- The loop `for (int i = 0; i < n; ++i) body`. -/
def forLoop {σ ε : Type} (n : Nat) (body : Nat → σ → Except ε σ) (s : σ) : Except ε σ :=
  forFrom body n 0 s

/-- Read element `i` of a `std::vector` (or coefficient `i` of a row vector);
a read out of range ends the run. -/
def readAt {α : Type} (b : Block) (xs : List α) (i : Nat) : Except Abort α :=
  match xs[i]? with
  | some x => Except.ok x
  | none => Except.error ⟨Site.indexRange b, []⟩

/-- Lift an Eigen operation that is defined only on valid indices and sizes. -/
def checked {α : Type} (b : Block) (r : Option α) : Except Abort α :=
  match r with
  | some x => Except.ok x
  | none => Except.error ⟨Site.indexRange b, []⟩

/-! ## The constructor of `LocCompLagrFEPreprocessor` -/

/-- The data one preprocessing block stores in the object: `Nrsf_X_`, `qr_X_`,
`Nqp_X_`, `rsf_quadpoints_X_` and `grad_quadpoint_X_`. -/
structure ShapeFunctionCache (R : Type) where
  Nrsf : Nat
  qr : QuadRule R
  Nqp : Nat
  rsf_quadpoints : Mat R
  grad_quadpoint : List (Mat R)

/-- The object after construction, with the member names of the source. -/
structure LocCompLagrFEPreprocessor (R : Type) where
  fe_tria_ : ScalarReferenceFiniteElement R
  fe_quad_ : ScalarReferenceFiniteElement R
  Nrsf_tria_ : Nat
  qr_tria_ : QuadRule R
  Nqp_tria_ : Nat
  rsf_quadpoints_tria_ : Mat R
  grad_quadpoint_tria_ : List (Mat R)
  Nrsf_quad_ : Nat
  qr_quad_ : QuadRule R
  Nqp_quad_ : Nat
  rsf_quadpoints_quad_ : Mat R
  grad_quadpoint_quad_ : List (Mat R)

/-- The inner loop of lines 81-83 (135-137): `rsf_quadpoints(i, j) = rsf_val[i][j]`
for every quadrature point `j`, where `row` is `rsf_val[i]`. -/
def storeRow {R : Type} (b : Block) (row : List R) (i Nqp : Nat) (rsf_quadpoints : Mat R) :
    Except Abort (Mat R) :=
  forLoop Nqp (fun j m => do
    let v ← readAt b row j
    pure (m.set i j v)) rsf_quadpoints

/-- The loop nest that stores the values (lines 77-84 and 131-138):
for each shape function `i`, assert that row `i` has `Nqp` entries, then copy
`rsf_val[i][j]` to `rsf_quadpoints(i, j)` for every `j`. -/
def storeValues {R : Type} (b : Block) (rsf_val : List (List R)) (Nrsf Nqp : Nat)
    (rsf_quadpoints : Mat R) : Except Abort (Mat R) :=
  forLoop Nrsf (fun i m => do
    let row ← readAt b rsf_val i
    LF_ASSERT_MSG (row.length == Nqp) (Site.rowLength b)
      [MsgItem.text "Length mismatch ", MsgItem.num row.length, MsgItem.text " <-> ",
        MsgItem.num Nqp]
    storeRow b row i Nqp m) rsf_quadpoints

/-- The inner loop of lines 100-102 (154-156) for quadrature point `i`:
`grad_quadpoint[i].col(j) = rsf_grad[j].col(i)` for every shape function `j`. -/
def storeGradientsAt {R : Type} (b : Block) (rsf_grad : List (Mat R)) (Nrsf i : Nat)
    (grad_quadpoint : List (Mat R)) : Except Abort (List (Mat R)) :=
  forLoop Nrsf (fun j g => do
    let src ← readAt b rsf_grad j
    let v ← checked b (src.col i)
    let dst ← readAt b g i
    let dst' ← checked b (dst.assignCol j v)
    pure (g.set i dst')) grad_quadpoint

/-- The loop nest that stores the gradients (lines 99-103 and 153-157). -/
def storeGradients {R : Type} (b : Block) (rsf_grad : List (Mat R)) (Nrsf Nqp : Nat)
    (grad_quadpoint : List (Mat R)) : Except Abort (List (Mat R)) :=
  forLoop Nqp (fun i g => storeGradientsAt b rsf_grad Nrsf i g) grad_quadpoint

/-- Preprocessing for triangles (lines 58-110). -/
def preprocessTria {R : Type} (ext : Externals R) (fe_tria_ : ScalarReferenceFiniteElement R)
    (quad_order : Nat) : Run (ShapeFunctionCache R) :=
  let Nrsf_tria_ := fe_tria_.NumRefShapeFunctions
  let qr_tria_ := ext.make_QuadRule RefEl.kTria quad_order
  let Nqp_tria_ := qr_tria_.NumPoints
  let rsf_val := fe_tria_.EvalReferenceShapeFunctions qr_tria_.Points
  let calls := [Call.make_QuadRule RefEl.kTria quad_order,
    Call.EvalReferenceShapeFunctions Block.tria]
  match (do
      LF_ASSERT_MSG (Nrsf_tria_ == rsf_val.length) (Site.valueLength Block.tria)
        [MsgItem.text "Mismatch in length of value vector ", MsgItem.num Nrsf_tria_,
          MsgItem.text " <-> ", MsgItem.num rsf_val.length]
      storeValues Block.tria rsf_val Nrsf_tria_ Nqp_tria_
        (Mat.resize ext.uninit Nrsf_tria_ Nqp_tria_)) with
  | Except.error e => ⟨calls, Except.error e⟩
  | Except.ok rsf_quadpoints_tria_ =>
    let rsf_grad := fe_tria_.GradientsReferenceShapeFunctions qr_tria_.Points
    let calls := calls ++ [Call.GradientsReferenceShapeFunctions Block.tria]
    match (do
        LF_ASSERT_MSG (Nrsf_tria_ == rsf_grad.length) (Site.gradLength Block.tria)
          [MsgItem.text "Mismatch in length of gradient vector", MsgItem.num Nrsf_tria_,
            MsgItem.text " <-> ", MsgItem.num rsf_grad.length]
        storeGradients Block.tria rsf_grad Nrsf_tria_ Nqp_tria_
          (List.replicate Nqp_tria_ (Mat.resize ext.uninit 2 Nrsf_tria_))) with
    | Except.error e => ⟨calls, Except.error e⟩
    | Except.ok grad_quadpoint_tria_ =>
      ⟨calls, Except.ok ⟨Nrsf_tria_, qr_tria_, Nqp_tria_, rsf_quadpoints_tria_,
        grad_quadpoint_tria_⟩⟩

/-- Preprocessing for quadrilaterals (lines 112-164). -/
def preprocessQuad {R : Type} (ext : Externals R) (fe_quad_ : ScalarReferenceFiniteElement R)
    (quad_order : Nat) : Run (ShapeFunctionCache R) :=
  let Nrsf_quad_ := fe_quad_.NumRefShapeFunctions
  let qr_quad_ := ext.make_QuadRule RefEl.kQuad quad_order
  let Nqp_quad_ := qr_quad_.NumPoints
  let rsf_val := fe_quad_.EvalReferenceShapeFunctions qr_quad_.Points
  let calls := [Call.make_QuadRule RefEl.kQuad quad_order,
    Call.EvalReferenceShapeFunctions Block.quad]
  match (do
      LF_ASSERT_MSG (Nrsf_quad_ == rsf_val.length) (Site.valueLength Block.quad)
        [MsgItem.text "Mismatch in length of value vector ", MsgItem.num Nrsf_quad_,
          MsgItem.text " <-> ", MsgItem.num rsf_val.length]
      storeValues Block.quad rsf_val Nrsf_quad_ Nqp_quad_
        (Mat.resize ext.uninit Nrsf_quad_ Nqp_quad_)) with
  | Except.error e => ⟨calls, Except.error e⟩
  | Except.ok rsf_quadpoints_quad_ =>
    let rsf_grad := fe_quad_.GradientsReferenceShapeFunctions qr_quad_.Points
    let calls := calls ++ [Call.GradientsReferenceShapeFunctions Block.quad]
    match (do
        LF_ASSERT_MSG (Nrsf_quad_ == rsf_grad.length) (Site.gradLength Block.quad)
          [MsgItem.text "Mismatch in length of gradient vector", MsgItem.num Nrsf_quad_,
            MsgItem.text " <-> ", MsgItem.num rsf_grad.length]
        storeGradients Block.quad rsf_grad Nrsf_quad_ Nqp_quad_
          (List.replicate Nqp_quad_ (Mat.resize ext.uninit 2 Nrsf_quad_))) with
    | Except.error e => ⟨calls, Except.error e⟩
    | Except.ok grad_quadpoint_quad_ =>
      ⟨calls, Except.ok ⟨Nrsf_quad_, qr_quad_, Nqp_quad_, rsf_quadpoints_quad_,
        grad_quadpoint_quad_⟩⟩

/-- The four compatibility assertions at the head of the constructor
(lines 30-43), in source order. -/
def compatibilityChecks {R : Type} (fe_tria_ fe_quad_ : ScalarReferenceFiniteElement R) :
    Except Abort Unit := do
  LF_ASSERT_MSG ((fe_tria_.Dimension == 2) && (fe_quad_.Dimension == 2)) Site.dimension
    [MsgItem.text "Implemented only in 2D!"]
  LF_ASSERT_MSG ((fe_tria_.RefEl == RefEl.kTria) || (fe_quad_.RefEl == RefEl.kQuad)) Site.refEl
    [MsgItem.text "Unexpected type of reference cell"]
  LF_ASSERT_MSG ((fe_tria_.NumRefShapeFunctionsAt 2 0 == 1) &&
      (fe_quad_.NumRefShapeFunctionsAt 2 0 == 1)) Site.vertexCount
    [MsgItem.text "Exactly one shape function must be assigned to each vertex"]
  LF_ASSERT_MSG (fe_tria_.NumRefShapeFunctionsAt 1 0 == fe_quad_.NumRefShapeFunctionsAt 1 0)
    Site.edgeCount
    [MsgItem.text "#RSF mismatch on edges ", MsgItem.num (fe_tria_.NumRefShapeFunctionsAt 1 0),
      MsgItem.text " <-> ", MsgItem.num (fe_quad_.NumRefShapeFunctionsAt 1 0)]

/-- The quadrature order the constructor selects (lines 45-56): the argument
when it is not zero, otherwise `2 * poly_order`, computed in `unsigned int`
and converted to `quadOrder_t`. -/
def selectQuadOrder {R : Type} (ext : Externals R)
    (fe_tria_ fe_quad_ : ScalarReferenceFiniteElement R) (loc_quad_order : Nat) : Nat :=
  let poly_order := max fe_tria_.order fe_quad_.order
  let quad_order := loc_quad_order
  if quad_order == 0 then (2 * poly_order) % 2 ^ 32 % 2 ^ ext.quadOrderBits else quad_order

/-- The constructor `LocCompLagrFEPreprocessor::LocCompLagrFEPreprocessor`
(lines 25-165). -/
def LocCompLagrFEPreprocessor.ctor {R : Type} (ext : Externals R)
    (fe_tria fe_quad : ScalarReferenceFiniteElement R) (loc_quad_order : Nat) :
    Run (LocCompLagrFEPreprocessor R) :=
  let fe_tria_ := fe_tria
  let fe_quad_ := fe_quad
  match compatibilityChecks fe_tria_ fe_quad_ with
  | Except.error e => ⟨[], Except.error e⟩
  | Except.ok _ =>
    let quad_order := selectQuadOrder ext fe_tria_ fe_quad_ loc_quad_order
    match preprocessTria ext fe_tria_ quad_order with
    | ⟨calls, Except.error e⟩ => ⟨calls, Except.error e⟩
    | ⟨calls, Except.ok t⟩ =>
      match preprocessQuad ext fe_quad_ quad_order with
      | ⟨calls', Except.error e⟩ => ⟨calls ++ calls', Except.error e⟩
      | ⟨calls', Except.ok q⟩ =>
        ⟨calls ++ calls', Except.ok
          { fe_tria_ := fe_tria_, fe_quad_ := fe_quad_,
            Nrsf_tria_ := t.Nrsf, qr_tria_ := t.qr, Nqp_tria_ := t.Nqp,
            rsf_quadpoints_tria_ := t.rsf_quadpoints, grad_quadpoint_tria_ := t.grad_quadpoint,
            Nrsf_quad_ := q.Nrsf, qr_quad_ := q.qr, Nqp_quad_ := q.Nqp,
            rsf_quadpoints_quad_ := q.rsf_quadpoints, grad_quadpoint_quad_ := q.grad_quadpoint }⟩

/-! ## The geometry of a point (`lib/lf/geometry/point.h`) -/

/-- The class `lf::geometry::Point`: its only data member is the coordinate
vector `coord_`; the constructor `Point(Eigen::VectorXd coord)` moves its
argument into `coord_`. -/
structure Point (R : Type) where
  coord_ : List R

/-- The member function `DimLocal()`. -/
def Point.DimLocal {R : Type} (_p : Point R) : Nat :=
  0

/-- The member function `DimGlobal()`: it returns `coord_.rows()`, the number of
entries of the coordinate vector, converted to the unsigned return type
`dim_t`; `dimBits` is the width in bits of `dim_t` (its declaration is not
shown). -/
def Point.DimGlobal {R : Type} (p : Point R) (dimBits : Nat) : Nat :=
  p.coord_.length % 2 ^ dimBits

/-- The member function `RefEl()`. -/
def Point.RefEl {R : Type} (_p : Point R) : RefEl :=
  RefEl.kPoint

/-! ## The generic caching routine of the design notes -/

/-- The reference shape a shape tag stands for. -/
def Block.refEl : Block → RefEl
  | Block.tria => RefEl.kTria
  | Block.quad => RefEl.kQuad

/-- The single parameterized routine "cache reference data for shape X" of the
design notes, written from the caching procedure of the specification: fetch
the quadrature rule for (shape, order); evaluate all reference shape functions
at every quadrature point and store them as the value matrix; evaluate all
reference gradients at every quadrature point and store them as one gradient
matrix per quadrature point; a result whose length disagrees with the reported
shape-function count is a fatal failure. -/
def cacheFor {R : Type} (ext : Externals R) (fe : ScalarReferenceFiniteElement R)
    (shape : Block) (order : Nat) : Run (ShapeFunctionCache R) :=
  let rule := ext.make_QuadRule shape.refEl order
  let fetched := [Call.make_QuadRule shape.refEl order]
  let values := fe.EvalReferenceShapeFunctions rule.Points
  let evaluated := fetched ++ [Call.EvalReferenceShapeFunctions shape]
  let valueMatrix : Except Abort (Mat R) := do
    LF_ASSERT_MSG (fe.NumRefShapeFunctions == values.length) (Site.valueLength shape)
      [MsgItem.text "Mismatch in length of value vector ", MsgItem.num fe.NumRefShapeFunctions,
        MsgItem.text " <-> ", MsgItem.num values.length]
    storeValues shape values fe.NumRefShapeFunctions rule.NumPoints
      (Mat.resize ext.uninit fe.NumRefShapeFunctions rule.NumPoints)
  match valueMatrix with
  | Except.error failure => { calls := evaluated, result := Except.error failure }
  | Except.ok valuesAtQuadPoints =>
    let gradients := fe.GradientsReferenceShapeFunctions rule.Points
    let differentiated := evaluated ++ [Call.GradientsReferenceShapeFunctions shape]
    let gradientMatrices : Except Abort (List (Mat R)) := do
      LF_ASSERT_MSG (fe.NumRefShapeFunctions == gradients.length) (Site.gradLength shape)
        [MsgItem.text "Mismatch in length of gradient vector",
          MsgItem.num fe.NumRefShapeFunctions, MsgItem.text " <-> ",
          MsgItem.num gradients.length]
      storeGradients shape gradients fe.NumRefShapeFunctions rule.NumPoints
        (List.replicate rule.NumPoints (Mat.resize ext.uninit 2 fe.NumRefShapeFunctions))
    match gradientMatrices with
    | Except.error failure => { calls := differentiated, result := Except.error failure }
    | Except.ok gradientsAtQuadPoints =>
      { calls := differentiated,
        result := Except.ok
          { Nrsf := fe.NumRefShapeFunctions, qr := rule, Nqp := rule.NumPoints,
            rsf_quadpoints := valuesAtQuadPoints, grad_quadpoint := gradientsAtQuadPoints } }

/-! ## The element matrix assembler (specification, section 4.2) -/

/-- Modelled from the spec: the Geometry capability of one mesh cell
(section 6; `geometry.h` is not shown): dimensions, reference shape, and, for a
list of reference points, the global points, the Jacobians, the inverse
Gramians of the Jacobians and the integration elements, one per point. -/
structure Geometry (R : Type) where
  DimLocal : Nat
  DimGlobal : Nat
  RefEl : RefEl
  Global : List (List R) → List (List R)
  Jacobian : List (List R) → List (Mat R)
  JacobianInverseGramian : List (List R) → List (Mat R)
  IntegrationElement : List (List R) → List R

/-- Modelled from the spec: the outputs of the per-cell computation, the local
stiffness matrix `S`, the local mass matrix `M` and the local load vector `b`. -/
structure ElementMatrices (R : Type) where
  S : Mat R
  M : Mat R
  b : List R

/-- Modelled from the spec: the failure of the per-cell computation. -/
inductive AssemblyFailure where
  | degenerateGeometry
  deriving DecidableEq, Repr

/-- Sum of `f 0, ..., f (n - 1)`, accumulated in ascending index order. -/
def sumBelow {R : Type} [AddCommMonoid R] (n : Nat) (f : Nat → R) : R :=
  ((List.range n).map f).sum

/-- Matrix product. -/
def Mat.mul {R : Type} [Semiring R] (A B : Mat R) : Mat R :=
  ⟨A.rows, B.cols, fun i j => sumBelow A.cols (fun k => A.coeff i k * B.coeff k j)⟩

/-- Matrix transpose. -/
def Mat.transpose {R : Type} (A : Mat R) : Mat R :=
  ⟨A.cols, A.rows, fun i j => A.coeff j i⟩

/-- The matrix with no rows and no columns. -/
def Mat.empty {R : Type} [Zero R] : Mat R :=
  ⟨0, 0, fun _ _ => 0⟩

/-- Modelled from the spec: the stiffness integrand `Gᵗ α G` at one quadrature
point, for the matrix `G` of global gradients and the diffusion tensor `α`. -/
def stiffnessIntegrand {R : Type} [Semiring R] (G alpha : Mat R) : Mat R :=
  (G.transpose.mul alpha).mul G

/-- Modelled from the spec: the cached reference data for the shape of the cell. -/
def LocCompLagrFEPreprocessor.cacheOf {R : Type} (P : LocCompLagrFEPreprocessor R) :
    Block → ShapeFunctionCache R
  | Block.tria => ⟨P.Nrsf_tria_, P.qr_tria_, P.Nqp_tria_, P.rsf_quadpoints_tria_,
      P.grad_quadpoint_tria_⟩
  | Block.quad => ⟨P.Nrsf_quad_, P.qr_quad_, P.Nqp_quad_, P.rsf_quadpoints_quad_,
      P.grad_quadpoint_quad_⟩

/-- Modelled from the spec: the per-cell computation of the Element Matrix
Assembler (its code is not shown), section 4.2.  Select the cached reference
data for the shape of the cell; map the quadrature points to global
coordinates; take the inverse Gramian and the integration element at each
quadrature point; a zero or negative integration element at a quadrature
point is a degenerate-geometry failure; otherwise, with the global gradients
`G(q) = JacobianInverseGramian(q) * referenceGradients(q)`, accumulate
`w_q * ie(q) * G(q)ᵗ α(x_q) G(q)` into `S`,
`w_q * ie(q) * γ(x_q) * v(:,q) v(:,q)ᵗ` into `M` and
`w_q * ie(q) * f(x_q) * v(:,q)` into `b`. -/
def assembleElementMatrices {R : Type} [LinearOrderedCommRing R]
    (P : LocCompLagrFEPreprocessor R) (shape : Block) (geo : Geometry R)
    (alpha : List R → Mat R) (gamma f : List R → R) :
    Except AssemblyFailure (ElementMatrices R) :=
  let cache := P.cacheOf shape
  let points := cache.qr.Points
  let weights := cache.qr.Weights
  let x := geo.Global points
  let jig := geo.JacobianInverseGramian points
  let ie := geo.IntegrationElement points
  if ie.any (fun d => decide (d ≤ 0)) then
    Except.error AssemblyFailure.degenerateGeometry
  else
    let factor : Nat → R := fun q => weights.getD q 0 * ie.getD q 0
    let globalGradients : Nat → Mat R := fun q =>
      (jig.getD q Mat.empty).mul (cache.grad_quadpoint.getD q Mat.empty)
    let value : Nat → Nat → R := fun i q => cache.rsf_quadpoints.coeff i q
    Except.ok
      { S := ⟨cache.Nrsf, cache.Nrsf, fun i j => sumBelow cache.Nqp (fun q =>
          factor q * (stiffnessIntegrand (globalGradients q) (alpha (x.getD q []))).coeff i j)⟩,
        M := ⟨cache.Nrsf, cache.Nrsf, fun i j => sumBelow cache.Nqp (fun q =>
          factor q * gamma (x.getD q []) * (value i q * value j q))⟩,
        b := (List.range cache.Nrsf).map (fun i => sumBelow cache.Nqp (fun q =>
          factor q * f (x.getD q []) * value i q)) }

/-! ## Notions used to state the properties -/

/-- The run produced a value. -/
def Run.succeeded {α : Type} (r : Run α) : Bool :=
  match r.result with
  | Except.ok _ => true
  | Except.error _ => false

/-- The failure that ended the run, if any. -/
def Run.failure? {α : Type} (r : Run α) : Option Abort :=
  match r.result with
  | Except.ok _ => none
  | Except.error e => some e

/-- The incompatible-space failures: a failure of one of the four
compatibility assertions at the head of the constructor (dimension,
reference shape, per-vertex count, per-edge count). -/
def IncompatibleSpaceError (e : Abort) : Prop :=
  e.site = Site.dimension ∨ e.site = Site.refEl ∨ e.site = Site.vertexCount ∨
    e.site = Site.edgeCount

instance (e : Abort) : Decidable (IncompatibleSpaceError e) := by
  unfold IncompatibleSpaceError
  infer_instance

/-- The internal-consistency failures: a failure inside one of the two
preprocessing blocks (an assertion on the length of an evaluation result, or a
read that is out of range). -/
def BlockFailure (e : Abort) : Prop :=
  ∃ b, e.site = Site.valueLength b ∨ e.site = Site.rowLength b ∨ e.site = Site.gradLength b ∨
    e.site = Site.indexRange b

/-- The diagnostic of the failure contains the number `n`. -/
def Abort.mentions (e : Abort) (n : Nat) : Prop :=
  MsgItem.num n ∈ e.msg

instance (e : Abort) (n : Nat) : Decidable (e.mentions n) := by
  unfold Abort.mentions
  infer_instance

/-- Two outcomes agree: both are failures with the same place and diagnostic,
or both are values related by `Rel`. -/
def ExceptRel {ε α β : Type} (Rel : α → β → Prop) : Except ε α → Except ε β → Prop
  | Except.ok a, Except.ok b => Rel a b
  | Except.error e, Except.error e' => e = e'
  | _, _ => False

/-- Two matrices are identical as matrices: same dimensions and the same
coefficient at every position inside them. -/
def Mat.agrees {R : Type} (m m' : Mat R) : Prop :=
  m.rows = m'.rows ∧ m.cols = m'.cols ∧
    ∀ i j, i < m.rows → j < m.cols → m.coeff i j = m'.coeff i j

/-- Two sequences of matrices are identical: same length, identical entries. -/
def sameMatrices {R : Type} (g g' : List (Mat R)) : Prop :=
  g.length = g'.length ∧
    ∀ (i : Nat) (d d' : Mat R), g[i]? = some d → g'[i]? = some d' → d.agrees d'

/-- Two block results are identical: same count, rule and number of points,
identical value matrix and gradient matrices. -/
def ShapeFunctionCache.same {R : Type} (c c' : ShapeFunctionCache R) : Prop :=
  c.Nrsf = c'.Nrsf ∧ c.qr = c'.qr ∧ c.Nqp = c'.Nqp ∧
    c.rsf_quadpoints.agrees c'.rsf_quadpoints ∧ sameMatrices c.grad_quadpoint c'.grad_quadpoint

/-- Two constructed objects hold identical caches for both shapes. -/
def SameCaches {R : Type} (P P' : LocCompLagrFEPreprocessor R) : Prop :=
  (P.Nrsf_tria_ = P'.Nrsf_tria_ ∧ P.qr_tria_ = P'.qr_tria_ ∧ P.Nqp_tria_ = P'.Nqp_tria_ ∧
    P.rsf_quadpoints_tria_.agrees P'.rsf_quadpoints_tria_ ∧
    sameMatrices P.grad_quadpoint_tria_ P'.grad_quadpoint_tria_) ∧
  (P.Nrsf_quad_ = P'.Nrsf_quad_ ∧ P.qr_quad_ = P'.qr_quad_ ∧ P.Nqp_quad_ = P'.Nqp_quad_ ∧
    P.rsf_quadpoints_quad_.agrees P'.rsf_quadpoints_quad_ ∧
    sameMatrices P.grad_quadpoint_quad_ P'.grad_quadpoint_quad_)

/-- Two finite elements return the same results to the queries the constructor
makes: dimension, reference shape, polynomial order, number of shape
functions, numbers of shape functions on vertex 0 and on edge 0, and values
and gradients at the points `pts`. -/
def AgreeOn {R : Type} (fe fe' : ScalarReferenceFiniteElement R) (pts : List (List R)) : Prop :=
  fe'.Dimension = fe.Dimension ∧ fe'.RefEl = fe.RefEl ∧ fe'.order = fe.order ∧
    fe'.NumRefShapeFunctions = fe.NumRefShapeFunctions ∧
    fe'.NumRefShapeFunctionsAt 2 0 = fe.NumRefShapeFunctionsAt 2 0 ∧
    fe'.NumRefShapeFunctionsAt 1 0 = fe.NumRefShapeFunctionsAt 1 0 ∧
    fe'.EvalReferenceShapeFunctions pts = fe.EvalReferenceShapeFunctions pts ∧
    fe'.GradientsReferenceShapeFunctions pts = fe.GradientsReferenceShapeFunctions pts

/-- The first stage of a preprocessing block: the assertion on the length of
the value vector followed by the loop nest that stores the values. -/
def valueStage {R : Type} (b : Block) (uninit : Nat → Nat → R)
    (fe : ScalarReferenceFiniteElement R) (qr : QuadRule R) : Except Abort (Mat R) := do
  LF_ASSERT_MSG (fe.NumRefShapeFunctions == (fe.EvalReferenceShapeFunctions qr.Points).length)
    (Site.valueLength b)
    [MsgItem.text "Mismatch in length of value vector ", MsgItem.num fe.NumRefShapeFunctions,
      MsgItem.text " <-> ", MsgItem.num (fe.EvalReferenceShapeFunctions qr.Points).length]
  storeValues b (fe.EvalReferenceShapeFunctions qr.Points) fe.NumRefShapeFunctions
    qr.NumPoints (Mat.resize uninit fe.NumRefShapeFunctions qr.NumPoints)

/-- The second stage of a preprocessing block: the assertion on the length of
the gradient vector followed by the loop nest that stores the gradients. -/
def gradientStage {R : Type} (b : Block) (uninit : Nat → Nat → R)
    (fe : ScalarReferenceFiniteElement R) (qr : QuadRule R) : Except Abort (List (Mat R)) := do
  LF_ASSERT_MSG
    (fe.NumRefShapeFunctions == (fe.GradientsReferenceShapeFunctions qr.Points).length)
    (Site.gradLength b)
    [MsgItem.text "Mismatch in length of gradient vector", MsgItem.num fe.NumRefShapeFunctions,
      MsgItem.text " <-> ", MsgItem.num (fe.GradientsReferenceShapeFunctions qr.Points).length]
  storeGradients b (fe.GradientsReferenceShapeFunctions qr.Points) fe.NumRefShapeFunctions
    qr.NumPoints (List.replicate qr.NumPoints (Mat.resize uninit 2 fe.NumRefShapeFunctions))

/-- The compatibility invariant of a (triangle, quadrilateral) pair: both of
dimension 2, reference shapes triangle and quadrilateral, one shape function
per vertex, equal shape-function counts per edge. -/
def CompatibilityInvariant {R : Type} (fe_tria fe_quad : ScalarReferenceFiniteElement R) : Prop :=
  fe_tria.Dimension = 2 ∧ fe_quad.Dimension = 2 ∧
    fe_tria.RefEl = RefEl.kTria ∧ fe_quad.RefEl = RefEl.kQuad ∧
    fe_tria.NumRefShapeFunctionsAt 2 0 = 1 ∧ fe_quad.NumRefShapeFunctionsAt 2 0 = 1 ∧
    fe_tria.NumRefShapeFunctionsAt 1 0 = fe_quad.NumRefShapeFunctionsAt 1 0

instance {R : Type} (fe_tria fe_quad : ScalarReferenceFiniteElement R) :
    Decidable (CompatibilityInvariant fe_tria fe_quad) := by
  unfold CompatibilityInvariant
  infer_instance

/-- The evaluation results of `fe` at the points of the rule `qr` have the
sizes the preprocessing relies on: one row of values and one gradient matrix
per reported shape function, every row with one entry per quadrature point,
every gradient matrix with 2 rows and a column for every quadrature point. -/
def ConsistentEvaluation {R : Type} (fe : ScalarReferenceFiniteElement R) (qr : QuadRule R) :
    Prop :=
  (fe.EvalReferenceShapeFunctions qr.Points).length = fe.NumRefShapeFunctions ∧
    (∀ row ∈ fe.EvalReferenceShapeFunctions qr.Points, row.length = qr.NumPoints) ∧
    (fe.GradientsReferenceShapeFunctions qr.Points).length = fe.NumRefShapeFunctions ∧
    (∀ m ∈ fe.GradientsReferenceShapeFunctions qr.Points, m.rows = 2 ∧ qr.NumPoints ≤ m.cols)

instance {R : Type} (fe : ScalarReferenceFiniteElement R) (qr : QuadRule R) :
    Decidable (ConsistentEvaluation fe qr) := by
  unfold ConsistentEvaluation
  infer_instance

/-! ## Concrete collaborators used to evaluate the constructor -/

/-- Coordinate `k` of a reference point (0 when the point has fewer entries). -/
def coord (p : List Int) (k : Nat) : Int :=
  match p[k]? with
  | some x => x
  | none => 0

/-- The matrix with the given dimensions and coefficient function. -/
def Mat.ofFn {R : Type} (rows cols : Nat) (f : Nat → Nat → R) : Mat R :=
  ⟨rows, cols, f⟩

/-- Linear Lagrangian finite element on the reference triangle, shape
functions `1 - x - y`, `x`, `y` (integer scalars). -/
def triaLinear : ScalarReferenceFiniteElement Int where
  Dimension := 2
  RefEl := RefEl.kTria
  order := 1
  NumRefShapeFunctions := 3
  NumRefShapeFunctionsAt := fun codim _ => if codim = 2 then 1 else 0
  EvalReferenceShapeFunctions := fun pts =>
    [pts.map (fun p => 1 - coord p 0 - coord p 1), pts.map (fun p => coord p 0),
      pts.map (fun p => coord p 1)]
  GradientsReferenceShapeFunctions := fun pts =>
    [Mat.ofFn 2 pts.length (fun _ _ => -1),
      Mat.ofFn 2 pts.length (fun r _ => if r = 0 then 1 else 0),
      Mat.ofFn 2 pts.length (fun r _ => if r = 0 then 0 else 1)]

/-- Bilinear Lagrangian finite element on the reference square, shape
functions `(1-x)(1-y)`, `x(1-y)`, `xy`, `(1-x)y` (integer scalars). -/
def quadBilinear : ScalarReferenceFiniteElement Int where
  Dimension := 2
  RefEl := RefEl.kQuad
  order := 1
  NumRefShapeFunctions := 4
  NumRefShapeFunctionsAt := fun codim _ => if codim = 2 then 1 else 0
  EvalReferenceShapeFunctions := fun pts =>
    [pts.map (fun p => (1 - coord p 0) * (1 - coord p 1)),
      pts.map (fun p => coord p 0 * (1 - coord p 1)),
      pts.map (fun p => coord p 0 * coord p 1),
      pts.map (fun p => (1 - coord p 0) * coord p 1)]
  GradientsReferenceShapeFunctions := fun pts =>
    [Mat.ofFn 2 pts.length
        (fun r c => if r = 0 then coord (pts.getD c []) 1 - 1 else coord (pts.getD c []) 0 - 1),
      Mat.ofFn 2 pts.length
        (fun r c => if r = 0 then 1 - coord (pts.getD c []) 1 else -coord (pts.getD c []) 0),
      Mat.ofFn 2 pts.length
        (fun r c => if r = 0 then coord (pts.getD c []) 1 else coord (pts.getD c []) 0),
      Mat.ofFn 2 pts.length
        (fun r c => if r = 0 then -coord (pts.getD c []) 1 else 1 - coord (pts.getD c []) 0)]

/-- A quadrature provider with integer data: the vertices of the reference
cell as points, unit weights, for every order; `quadOrder_t` has 8 bits. -/
def vertexRules : Externals Int where
  make_QuadRule := fun shape _ =>
    match shape with
    | RefEl.kPoint => ⟨[([], 1)]⟩
    | RefEl.kSegment => ⟨[([0], 1), ([1], 1)]⟩
    | RefEl.kTria => ⟨[([0, 0], 1), ([1, 0], 1), ([0, 1], 1)]⟩
    | RefEl.kQuad => ⟨[([0, 0], 1), ([1, 0], 1), ([1, 1], 1), ([0, 1], 1)]⟩
  quadOrderBits := 8
  uninit := fun _ _ => 0

/-- Quadratic Lagrangian finite element on the reference triangle: with
`l = 1 - x - y` the shape functions are `l(2l-1)`, `x(2x-1)`, `y(2y-1)`,
`4lx`, `4xy`, `4yl`; one shape function per vertex and one per edge. -/
def triaQuadratic : ScalarReferenceFiniteElement Int where
  Dimension := 2
  RefEl := RefEl.kTria
  order := 2
  NumRefShapeFunctions := 6
  NumRefShapeFunctionsAt := fun codim _ => if codim = 2 then 1 else if codim = 1 then 1 else 0
  EvalReferenceShapeFunctions := fun pts =>
    [pts.map (fun p => (1 - coord p 0 - coord p 1) * (2 * (1 - coord p 0 - coord p 1) - 1)),
      pts.map (fun p => coord p 0 * (2 * coord p 0 - 1)),
      pts.map (fun p => coord p 1 * (2 * coord p 1 - 1)),
      pts.map (fun p => 4 * (1 - coord p 0 - coord p 1) * coord p 0),
      pts.map (fun p => 4 * coord p 0 * coord p 1),
      pts.map (fun p => 4 * coord p 1 * (1 - coord p 0 - coord p 1))]
  GradientsReferenceShapeFunctions := fun pts =>
    [Mat.ofFn 2 pts.length
        (fun _ c => 4 * coord (pts.getD c []) 0 + 4 * coord (pts.getD c []) 1 - 3),
      Mat.ofFn 2 pts.length (fun r c => if r = 0 then 4 * coord (pts.getD c []) 0 - 1 else 0),
      Mat.ofFn 2 pts.length (fun r c => if r = 0 then 0 else 4 * coord (pts.getD c []) 1 - 1),
      Mat.ofFn 2 pts.length
        (fun r c => if r = 0 then 4 - 8 * coord (pts.getD c []) 0 - 4 * coord (pts.getD c []) 1
          else -4 * coord (pts.getD c []) 0),
      Mat.ofFn 2 pts.length
        (fun r c => if r = 0 then 4 * coord (pts.getD c []) 1 else 4 * coord (pts.getD c []) 0),
      Mat.ofFn 2 pts.length
        (fun r c => if r = 0 then -4 * coord (pts.getD c []) 1
          else 4 - 4 * coord (pts.getD c []) 0 - 8 * coord (pts.getD c []) 1)]

/-- Linear Lagrangian finite element on the reference segment, shape
functions `1 - x`, `x`; its dimension is 1. -/
def segmentLinear : ScalarReferenceFiniteElement Int where
  Dimension := 1
  RefEl := RefEl.kSegment
  order := 1
  NumRefShapeFunctions := 2
  NumRefShapeFunctionsAt := fun codim _ => if codim = 1 then 1 else 0
  EvalReferenceShapeFunctions := fun pts =>
    [pts.map (fun p => 1 - coord p 0), pts.map (fun p => coord p 0)]
  GradientsReferenceShapeFunctions := fun pts =>
    [Mat.ofFn 1 pts.length (fun _ _ => -1), Mat.ofFn 1 pts.length (fun _ _ => 1)]

/-- A discontinuous linear element on the triangle: the three shape functions
of `triaLinear`, all assigned to the interior of the cell, none to a vertex. -/
def triaDiscontinuous : ScalarReferenceFiniteElement Int :=
  { triaLinear with NumRefShapeFunctionsAt := fun codim _ => if codim = 0 then 3 else 0 }

/-- A broken implementation of the capability: it reports 4 shape functions
but evaluates the 3 of `triaLinear`. -/
def triaMiscounted : ScalarReferenceFiniteElement Int :=
  { triaLinear with NumRefShapeFunctions := 4 }

/-- The element `triaLinear`, reporting polynomial order `2 ^ 31`. -/
def triaHugeOrder : ScalarReferenceFiniteElement Int :=
  { triaLinear with order := 2147483648 }

/-- The provider `vertexRules` on a platform where `quadOrder_t` has 32 bits. -/
def vertexRules32 : Externals Int :=
  { vertexRules with quadOrderBits := 32 }

/-- The object built from the linear triangle and the bilinear quadrilateral
element with the vertex rules and no preselected order. -/
def demoPreprocessor : LocCompLagrFEPreprocessor Int :=
  match (LocCompLagrFEPreprocessor.ctor vertexRules triaLinear quadBilinear 0).result with
  | Except.ok P => P
  | Except.error _ =>
    { fe_tria_ := triaLinear, fe_quad_ := quadBilinear,
      Nrsf_tria_ := 0, qr_tria_ := ⟨[]⟩, Nqp_tria_ := 0,
      rsf_quadpoints_tria_ := Mat.ofFn 0 0 (fun _ _ => 0), grad_quadpoint_tria_ := [],
      Nrsf_quad_ := 0, qr_quad_ := ⟨[]⟩, Nqp_quad_ := 0,
      rsf_quadpoints_quad_ := Mat.ofFn 0 0 (fun _ _ => 0), grad_quadpoint_quad_ := [] }

/-- The provider `vertexRules` with other contents of freshly resized storage. -/
def vertexRulesJunk : Externals Int :=
  { vertexRules with uninit := fun i j => 7 + i + 2 * j }

/-- The element `triaLinear`, reporting other counts on the vertices and edges
of index 1 and 2: three shape functions per such vertex, five per such edge. -/
def triaUnevenCounts : ScalarReferenceFiniteElement Int :=
  { triaLinear with
    NumRefShapeFunctionsAt := fun codim i =>
      if codim = 2 then (if i = 0 then 1 else 3)
      else if codim = 1 then (if i = 0 then 0 else 5) else 0 }

/-- A broken implementation of the capability: the element `triaLinear` whose
gradient matrices have 2 rows and a single column, whatever the number of
points. -/
def triaNarrowGradients : ScalarReferenceFiniteElement Int :=
  { triaLinear with
    GradientsReferenceShapeFunctions := fun _ =>
      [Mat.ofFn 2 1 (fun _ _ => -1), Mat.ofFn 2 1 (fun r _ => if r = 0 then 1 else 0),
        Mat.ofFn 2 1 (fun r _ => if r = 0 then 0 else 1)] }

/-- Coordinate `k` of a reference point with rational coordinates. -/
def coordRat (p : List ℚ) (k : Nat) : ℚ :=
  match p[k]? with
  | some x => x
  | none => 0

/-- Modelled from the spec: the linear (order-1) Lagrange element on the
reference triangle over the rationals, shape functions `1 - x - y`, `x`, `y`
with the constant gradients `(-1,-1)`, `(1,0)`, `(0,1)`. -/
def triaLinearRat : ScalarReferenceFiniteElement ℚ where
  Dimension := 2
  RefEl := RefEl.kTria
  order := 1
  NumRefShapeFunctions := 3
  NumRefShapeFunctionsAt := fun codim _ => if codim = 2 then 1 else 0
  EvalReferenceShapeFunctions := fun pts =>
    [pts.map (fun p => 1 - coordRat p 0 - coordRat p 1), pts.map (fun p => coordRat p 0),
      pts.map (fun p => coordRat p 1)]
  GradientsReferenceShapeFunctions := fun pts =>
    [Mat.ofFn 2 pts.length (fun _ _ => -1),
      Mat.ofFn 2 pts.length (fun r _ => if r = 0 then 1 else 0),
      Mat.ofFn 2 pts.length (fun r _ => if r = 0 then 0 else 1)]

/-- Modelled from the spec: the bilinear (order-1) Lagrange element on the
reference square over the rationals, shape functions `(1-x)(1-y)`, `x(1-y)`,
`xy`, `(1-x)y`. -/
def quadBilinearRat : ScalarReferenceFiniteElement ℚ where
  Dimension := 2
  RefEl := RefEl.kQuad
  order := 1
  NumRefShapeFunctions := 4
  NumRefShapeFunctionsAt := fun codim _ => if codim = 2 then 1 else 0
  EvalReferenceShapeFunctions := fun pts =>
    [pts.map (fun p => (1 - coordRat p 0) * (1 - coordRat p 1)),
      pts.map (fun p => coordRat p 0 * (1 - coordRat p 1)),
      pts.map (fun p => coordRat p 0 * coordRat p 1),
      pts.map (fun p => (1 - coordRat p 0) * coordRat p 1)]
  GradientsReferenceShapeFunctions := fun pts =>
    [Mat.ofFn 2 pts.length
        (fun r c => if r = 0 then coordRat (pts.getD c []) 1 - 1
          else coordRat (pts.getD c []) 0 - 1),
      Mat.ofFn 2 pts.length
        (fun r c => if r = 0 then 1 - coordRat (pts.getD c []) 1
          else -coordRat (pts.getD c []) 0),
      Mat.ofFn 2 pts.length
        (fun r c => if r = 0 then coordRat (pts.getD c []) 1 else coordRat (pts.getD c []) 0),
      Mat.ofFn 2 pts.length
        (fun r c => if r = 0 then -coordRat (pts.getD c []) 1
          else 1 - coordRat (pts.getD c []) 0)]

/-- The 2 x 2 identity matrix. -/
def identity2 {R : Type} [Zero R] [One R] : Mat R :=
  Mat.ofFn 2 2 (fun i j => if i = j then 1 else 0)

/-- The unit reference triangle with the identity geometry: global points are
the reference points, Jacobian and inverse Gramian are the identity, the
integration element is 1. -/
def referenceTriangle : Geometry ℚ where
  DimLocal := 2
  DimGlobal := 2
  RefEl := RefEl.kTria
  Global := fun pts => pts
  Jacobian := fun pts => pts.map (fun _ => identity2)
  JacobianInverseGramian := fun pts => pts.map (fun _ => identity2)
  IntegrationElement := fun pts => pts.map (fun _ => 1)

/-- A cell with reversed orientation (integer scalars): the geometry reports
the integration element -1 at every point. -/
def invertedCell : Geometry Int where
  DimLocal := 2
  DimGlobal := 2
  RefEl := RefEl.kTria
  Global := fun pts => pts
  Jacobian := fun pts => pts.map (fun _ => identity2)
  JacobianInverseGramian := fun pts => pts.map (fun _ => identity2)
  IntegrationElement := fun pts => pts.map (fun _ => -1)

/-- Component `r` of the constant reference gradient of shape function `j` of
the linear triangle element: `(-1,-1)`, `(1,0)`, `(0,1)`. -/
def p1Gradient (r j : Nat) : ℚ :=
  if j = 0 then -1 else if j = 1 then (if r = 0 then 1 else 0) else (if r = 0 then 0 else 1)

/-- The standard stiffness matrix of the linear element on the reference
triangle, `[[1,-1/2,-1/2],[-1/2,1/2,0],[-1/2,0,1/2]]`. -/
def p1Stiffness (i j : Nat) : ℚ :=
  (([[1, -1/2, -1/2], [-1/2, 1/2, 0], [-1/2, 0, 1/2]] : List (List ℚ)).getD i []).getD j 0

/-- A quadrature provider over the rationals: on the triangle the edge-midpoint
rule (weights 1/6, exact for degree 2), on the square the vertex rule (weights
1/4), for every order; `quadOrder_t` has 8 bits. -/
def midpointRules : Externals ℚ where
  make_QuadRule := fun shape _ =>
    match shape with
    | RefEl.kPoint => ⟨[([], 1)]⟩
    | RefEl.kSegment => ⟨[([0], 1/2), ([1], 1/2)]⟩
    | RefEl.kTria => ⟨[([1/2, 0], 1/6), ([1/2, 1/2], 1/6), ([0, 1/2], 1/6)]⟩
    | RefEl.kQuad => ⟨[([0, 0], 1/4), ([1, 0], 1/4), ([1, 1], 1/4), ([0, 1], 1/4)]⟩
  quadOrderBits := 8
  uninit := fun _ _ => 0

/-- A coordinate vector with 300 entries, all zero. -/
def longCoordinates : List Int :=
  List.replicate 300 0

/-! ## Loops -/

theorem forFrom_invariant {σ ε : Type} (body : Nat → σ → Except ε σ) (Inv : Nat → σ → Prop) :
    ∀ (count start : Nat) (s s' : σ), Inv start s →
      (∀ k t t', start ≤ k → k < start + count → Inv k t → body k t = Except.ok t' →
        Inv (k + 1) t') →
      forFrom body count start s = Except.ok s' → Inv (start + count) s' := by
  intro count
  induction count with
  | zero =>
    intro start s s' h0 _ hrun
    simp only [forFrom, Except.ok.injEq] at hrun
    subst hrun
    simpa using h0
  | succ n ih =>
    intro start s s' h0 hstep hrun
    simp only [forFrom] at hrun
    cases hb : body start s with
    | error e => rw [hb] at hrun; cases hrun
    | ok t =>
      rw [hb] at hrun
      have h1 : Inv (start + 1) t := hstep start s t (Nat.le_refl _) (by omega) h0 hb
      have h2 := ih (start + 1) t s' h1
        (fun k u u' hk hk' => hstep k u u' (by omega) (by omega)) hrun
      have e : start + 1 + n = start + (n + 1) := by omega
      rw [e] at h2
      exact h2

theorem forFrom_succeeds {σ ε : Type} (body : Nat → σ → Except ε σ) (Inv : Nat → σ → Prop) :
    ∀ (count start : Nat) (s : σ), Inv start s →
      (∀ k t, start ≤ k → k < start + count → Inv k t →
        ∃ t', body k t = Except.ok t' ∧ Inv (k + 1) t') →
      ∃ s', forFrom body count start s = Except.ok s' ∧ Inv (start + count) s' := by
  intro count
  induction count with
  | zero =>
    intro start s h0 _
    exact ⟨s, rfl, by simpa using h0⟩
  | succ n ih =>
    intro start s h0 hstep
    obtain ⟨t, hb, h1⟩ := hstep start s (Nat.le_refl _) (by omega) h0
    obtain ⟨s', hrun, h2⟩ := ih (start + 1) t h1
      (fun k u hk hk' => hstep k u (by omega) (by omega))
    refine ⟨s', ?_, ?_⟩
    · simp only [forFrom, hb]
      exact hrun
    · have e : start + 1 + n = start + (n + 1) := by omega
      rw [e] at h2
      exact h2

theorem forLoop_invariant {σ ε : Type} (n : Nat) (body : Nat → σ → Except ε σ)
    (Inv : Nat → σ → Prop) (s s' : σ) (h0 : Inv 0 s)
    (hstep : ∀ k t t', k < n → Inv k t → body k t = Except.ok t' → Inv (k + 1) t')
    (hrun : forLoop n body s = Except.ok s') : Inv n s' := by
  have h := forFrom_invariant body Inv n 0 s s' h0
    (fun k t t' _ hk => hstep k t t' (by omega)) hrun
  simpa using h

theorem forLoop_succeeds {σ ε : Type} (n : Nat) (body : Nat → σ → Except ε σ)
    (Inv : Nat → σ → Prop) (s : σ) (h0 : Inv 0 s)
    (hstep : ∀ k t, k < n → Inv k t → ∃ t', body k t = Except.ok t' ∧ Inv (k + 1) t') :
    ∃ s', forLoop n body s = Except.ok s' ∧ Inv n s' := by
  have h := forFrom_succeeds body Inv n 0 s h0 (fun k t _ hk => hstep k t (by omega))
  simpa [forLoop] using h

/-! ## Elementary facts about the checked operations -/

theorem readAt_ok_iff {α : Type} (b : Block) (xs : List α) (i : Nat) (x : α) :
    readAt b xs i = Except.ok x ↔ xs[i]? = some x := by
  unfold readAt
  cases h : xs[i]? <;> simp

theorem checked_ok_iff {α : Type} (b : Block) (r : Option α) (x : α) :
    checked b r = Except.ok x ↔ r = some x := by
  unfold checked
  cases r <;> simp

theorem LF_ASSERT_MSG_ok_iff (cond : Bool) (site : Site) (msg : List MsgItem) (u : Unit) :
    LF_ASSERT_MSG cond site msg = Except.ok u ↔ cond = true := by
  unfold LF_ASSERT_MSG
  cases cond <;> simp

theorem LF_ASSERT_MSG_error_iff (cond : Bool) (site : Site) (msg : List MsgItem) (e : Abort) :
    LF_ASSERT_MSG cond site msg = Except.error e ↔ cond = false ∧ e = ⟨site, msg⟩ := by
  unfold LF_ASSERT_MSG
  cases cond <;> simp [eq_comm]

theorem bind_ok_iff {ε α β : Type} (x : Except ε α) (f : α → Except ε β) (y : β) :
    (x >>= f) = Except.ok y ↔ ∃ a, x = Except.ok a ∧ f a = Except.ok y := by
  cases x <;> simp [bind, Except.bind]

/-! ## The value cache -/

theorem storeRow_spec {R : Type} (b : Block) (row : List R) (i Nqp : Nat) (m m' : Mat R)
    (h : storeRow b row i Nqp m = Except.ok m') :
    m'.rows = m.rows ∧ m'.cols = m.cols ∧
      (∀ a c, a ≠ i → m'.coeff a c = m.coeff a c) ∧
      (∀ j, j < Nqp → row[j]? = some (m'.coeff i j)) := by
  refine forLoop_invariant Nqp _
    (fun k x => x.rows = m.rows ∧ x.cols = m.cols ∧
      (∀ a c, a ≠ i → x.coeff a c = m.coeff a c) ∧
      (∀ j, j < k → row[j]? = some (x.coeff i j))) m m' ?_ ?_ h
  · exact ⟨rfl, rfl, fun _ _ _ => rfl, fun j hj => absurd hj (Nat.not_lt_zero j)⟩
  · intro k t t' _ hinv hb
    obtain ⟨hr, hc, hframe, hdone⟩ := hinv
    rw [bind_ok_iff] at hb
    obtain ⟨v, hv, hset⟩ := hb
    rw [readAt_ok_iff] at hv
    simp only [pure, Except.pure, Except.ok.injEq] at hset
    subst hset
    refine ⟨hr, hc, ?_, ?_⟩
    · intro a c ha
      simp [Mat.set, ha, hframe a c ha]
    · intro j hj
      by_cases e : j = k
      · subst e
        simp [Mat.set, hv]
      · have hlt : j < k := by omega
        simp [Mat.set, e, hdone j hlt]

theorem storeRow_succeeds {R : Type} (b : Block) (row : List R) (i Nqp : Nat) (m : Mat R)
    (hlen : Nqp ≤ row.length) : ∃ m', storeRow b row i Nqp m = Except.ok m' := by
  obtain ⟨m', h, _⟩ := forLoop_succeeds Nqp
    (fun j x => do
      let v ← readAt b row j
      pure (x.set i j v)) (fun _ _ => True) m trivial (by
      intro k t hk _
      have hk' : k < row.length := by omega
      refine ⟨t.set i k row[k], ?_, trivial⟩
      rw [bind_ok_iff]
      exact ⟨row[k], by rw [readAt_ok_iff]; exact List.getElem?_eq_getElem hk', rfl⟩)
  exact ⟨m', h⟩

theorem storeValues_spec {R : Type} (b : Block) (rsf_val : List (List R)) (Nrsf Nqp : Nat)
    (m m' : Mat R) (h : storeValues b rsf_val Nrsf Nqp m = Except.ok m') :
    m'.rows = m.rows ∧ m'.cols = m.cols ∧
      ∀ i j, i < Nrsf → j < Nqp →
        ∃ row, rsf_val[i]? = some row ∧ row.length = Nqp ∧ row[j]? = some (m'.coeff i j) := by
  refine forLoop_invariant Nrsf _
    (fun k x => x.rows = m.rows ∧ x.cols = m.cols ∧
      ∀ i j, i < k → j < Nqp →
        ∃ row, rsf_val[i]? = some row ∧ row.length = Nqp ∧ row[j]? = some (x.coeff i j))
    m m' ?_ ?_ h
  · exact ⟨rfl, rfl, fun i _ hi => absurd hi (Nat.not_lt_zero i)⟩
  · intro k t t' _ hinv hb
    obtain ⟨hr, hc, hdone⟩ := hinv
    rw [bind_ok_iff] at hb
    obtain ⟨row, hrow, hb⟩ := hb
    rw [readAt_ok_iff] at hrow
    rw [bind_ok_iff] at hb
    obtain ⟨u, hassert, hb⟩ := hb
    rw [LF_ASSERT_MSG_ok_iff] at hassert
    have hlen : row.length = Nqp := by simpa using hassert
    obtain ⟨hr', hc', hframe, hnew⟩ := storeRow_spec b row k Nqp t t' hb
    refine ⟨hr'.trans hr, hc'.trans hc, ?_⟩
    intro i j hi hj
    by_cases e : i = k
    · subst e
      exact ⟨row, hrow, hlen, hnew j hj⟩
    · have hlt : i < k := by omega
      obtain ⟨row', h1, h2, h3⟩ := hdone i j hlt hj
      exact ⟨row', h1, h2, by rw [hframe i j e]; exact h3⟩

theorem storeValues_succeeds {R : Type} (b : Block) (rsf_val : List (List R)) (Nrsf Nqp : Nat)
    (m : Mat R)
    (hrows : ∀ i, i < Nrsf → ∃ row, rsf_val[i]? = some row ∧ row.length = Nqp) :
    ∃ m', storeValues b rsf_val Nrsf Nqp m = Except.ok m' := by
  obtain ⟨m', h, _⟩ := forLoop_succeeds Nrsf
    (fun i x => do
      let row ← readAt b rsf_val i
      LF_ASSERT_MSG (row.length == Nqp) (Site.rowLength b)
        [MsgItem.text "Length mismatch ", MsgItem.num row.length, MsgItem.text " <-> ",
          MsgItem.num Nqp]
      storeRow b row i Nqp x) (fun _ _ => True) m trivial (by
      intro k t hk _
      obtain ⟨row, hrow, hlen⟩ := hrows k hk
      obtain ⟨t', ht'⟩ := storeRow_succeeds b row k Nqp t (by omega)
      refine ⟨t', ?_, trivial⟩
      rw [bind_ok_iff]
      refine ⟨row, by rw [readAt_ok_iff]; exact hrow, ?_⟩
      rw [bind_ok_iff]
      exact ⟨(), by rw [LF_ASSERT_MSG_ok_iff]; simpa using hlen, ht'⟩)
  exact ⟨m', h⟩

/-! ## The gradient cache -/

theorem assignCol_dims {R : Type} (m m' : Mat R) (j : Nat) (v : List R)
    (h : m.assignCol j v = some m') : m'.dims = m.dims := by
  unfold Mat.assignCol at h
  split at h
  · simp only [Option.some.injEq] at h
    subst h
    rfl
  · cases h

theorem assignCol_col_self {R : Type} (m m' : Mat R) (j : Nat) (v : List R)
    (h : m.assignCol j v = some m') : m'.col j = some v := by
  unfold Mat.assignCol at h
  split at h
  · rename_i hc
    simp only [Option.some.injEq] at h
    subst h
    simp only [Mat.col, hc.1, if_true, Option.some.injEq]
    apply List.ext_getElem
    · simp [hc.2]
    · intro n h1 h2
      simp [List.getElem?_eq_getElem h2]
  · cases h

theorem assignCol_col_ne {R : Type} (m m' : Mat R) (j c : Nat) (v : List R)
    (h : m.assignCol j v = some m') (hne : c ≠ j) : m'.col c = m.col c := by
  unfold Mat.assignCol at h
  split at h
  · simp only [Option.some.injEq] at h
    subst h
    simp [Mat.col, hne]
  · cases h

theorem col_length {R : Type} (m : Mat R) (i : Nat) (v : List R) (h : m.col i = some v) :
    v.length = m.rows ∧ i < m.cols := by
  unfold Mat.col at h
  split at h
  · rename_i hi
    simp only [Option.some.injEq] at h
    subst h
    simp [hi]
  · cases h

theorem dims_at {R : Type} {x g : List (Mat R)} (h : x.map Mat.dims = g.map Mat.dims)
    (i : Nat) (d : Mat R) (hd : g[i]? = some d) :
    ∃ d', x[i]? = some d' ∧ d'.rows = d.rows ∧ d'.cols = d.cols := by
  have h1 : (x.map Mat.dims)[i]? = (g.map Mat.dims)[i]? := by rw [h]
  rw [List.getElem?_map, List.getElem?_map, hd] at h1
  cases hx : x[i]? with
  | none => rw [hx] at h1; cases h1
  | some d' =>
    rw [hx] at h1
    simp only [Option.map_some', Option.some.injEq, Mat.dims, Prod.mk.injEq] at h1
    exact ⟨d', rfl, h1.1, h1.2⟩

theorem map_dims_set {R : Type} (g : List (Mat R)) (i : Nat) (d d' : Mat R)
    (hd : g[i]? = some d) (hdims : d'.dims = d.dims) :
    (g.set i d').map Mat.dims = g.map Mat.dims := by
  apply List.ext_getElem?
  intro n
  rw [List.getElem?_map, List.getElem?_map]
  by_cases e : i = n
  · subst e
    have hi : i < g.length := by
      rcases Nat.lt_or_ge i g.length with hlt | hge
      · exact hlt
      · rw [List.getElem?_eq_none hge] at hd; cases hd
    rw [List.getElem?_set_self hi, hd]
    simp [hdims]
  · rw [List.getElem?_set_ne e]

theorem storeGradientsAt_spec {R : Type} (b : Block) (rsf_grad : List (Mat R)) (Nrsf i : Nat)
    (g g' : List (Mat R)) (h : storeGradientsAt b rsf_grad Nrsf i g = Except.ok g') :
    g'.map Mat.dims = g.map Mat.dims ∧
      (∀ n, n ≠ i → g'[n]? = g[n]?) ∧
      (∀ j, j < Nrsf → ∃ src dst v, rsf_grad[j]? = some src ∧ g'[i]? = some dst ∧
        src.col i = some v ∧ dst.col j = some v) := by
  refine forLoop_invariant Nrsf _
    (fun k x => x.map Mat.dims = g.map Mat.dims ∧
      (∀ n, n ≠ i → x[n]? = g[n]?) ∧
      (∀ j, j < k → ∃ src dst v, rsf_grad[j]? = some src ∧ x[i]? = some dst ∧
        src.col i = some v ∧ dst.col j = some v)) g g' ?_ ?_ h
  · exact ⟨rfl, fun _ _ => rfl, fun j hj => absurd hj (Nat.not_lt_zero j)⟩
  · intro k t t' _ hinv hb
    obtain ⟨hdims, hframe, hdone⟩ := hinv
    rw [bind_ok_iff] at hb
    obtain ⟨src, hsrc, hb⟩ := hb
    rw [readAt_ok_iff] at hsrc
    rw [bind_ok_iff] at hb
    obtain ⟨v, hv, hb⟩ := hb
    rw [checked_ok_iff] at hv
    rw [bind_ok_iff] at hb
    obtain ⟨dst, hdst, hb⟩ := hb
    rw [readAt_ok_iff] at hdst
    rw [bind_ok_iff] at hb
    obtain ⟨dst', hdst', hb⟩ := hb
    rw [checked_ok_iff] at hdst'
    simp only [pure, Except.pure, Except.ok.injEq] at hb
    subst hb
    have hi : i < t.length := by
      rcases Nat.lt_or_ge i t.length with hlt | hge
      · exact hlt
      · rw [List.getElem?_eq_none hge] at hdst; cases hdst
    refine ⟨?_, ?_, ?_⟩
    · rw [map_dims_set t i dst dst' hdst (assignCol_dims dst dst' k v hdst')]
      exact hdims
    · intro n hn
      rw [List.getElem?_set_ne (Ne.symm hn)]
      exact hframe n hn
    · intro j hj
      by_cases e : j = k
      · subst e
        exact ⟨src, dst', v, hsrc, List.getElem?_set_self hi, hv,
          assignCol_col_self dst dst' j v hdst'⟩
      · have hlt : j < k := by omega
        obtain ⟨src0, dst0, v0, h1, h2, h3, h4⟩ := hdone j hlt
        rw [hdst] at h2
        simp only [Option.some.injEq] at h2
        subst h2
        exact ⟨src0, dst', v0, h1, List.getElem?_set_self hi, h3,
          by rw [assignCol_col_ne dst dst' k j v hdst' e]; exact h4⟩

theorem storeGradients_spec {R : Type} (b : Block) (rsf_grad : List (Mat R)) (Nrsf Nqp : Nat)
    (g g' : List (Mat R)) (h : storeGradients b rsf_grad Nrsf Nqp g = Except.ok g') :
    g'.map Mat.dims = g.map Mat.dims ∧
      (∀ i j, i < Nqp → j < Nrsf → ∃ src dst v, rsf_grad[j]? = some src ∧
        g'[i]? = some dst ∧ src.col i = some v ∧ dst.col j = some v) := by
  refine forLoop_invariant Nqp _
    (fun k x => x.map Mat.dims = g.map Mat.dims ∧
      (∀ i j, i < k → j < Nrsf → ∃ src dst v, rsf_grad[j]? = some src ∧
        x[i]? = some dst ∧ src.col i = some v ∧ dst.col j = some v)) g g' ?_ ?_ h
  · exact ⟨rfl, fun i _ hi => absurd hi (Nat.not_lt_zero i)⟩
  · intro k t t' _ hinv hb
    obtain ⟨hdims, hdone⟩ := hinv
    obtain ⟨hd', hframe, hnew⟩ := storeGradientsAt_spec b rsf_grad Nrsf k t t' hb
    refine ⟨hd'.trans hdims, ?_⟩
    intro i j hi hj
    by_cases e : i = k
    · subst e
      exact hnew j hj
    · have hlt : i < k := by omega
      obtain ⟨src, dst, v, h1, h2, h3, h4⟩ := hdone i j hlt hj
      exact ⟨src, dst, v, h1, by rw [hframe i e]; exact h2, h3, h4⟩

theorem storeGradientsAt_succeeds {R : Type} (b : Block) (rsf_grad : List (Mat R))
    (Nrsf i : Nat) (g : List (Mat R)) (rows : Nat)
    (hdst : ∃ d, g[i]? = some d ∧ d.rows = rows ∧ d.cols = Nrsf)
    (hsrc : ∀ j, j < Nrsf → ∃ src, rsf_grad[j]? = some src ∧ src.rows = rows ∧ i < src.cols) :
    ∃ g', storeGradientsAt b rsf_grad Nrsf i g = Except.ok g' := by
  obtain ⟨d, hd, hdr, hdc⟩ := hdst
  obtain ⟨g', h, _⟩ := forLoop_succeeds Nrsf
    (fun j x => do
      let src ← readAt b rsf_grad j
      let v ← checked b (src.col i)
      let dst ← readAt b x i
      let dst' ← checked b (dst.assignCol j v)
      pure (x.set i dst')) (fun _ x => x.map Mat.dims = g.map Mat.dims) g rfl (by
      intro k t hk hinv
      obtain ⟨src, hsrc1, hsrc2, hsrc3⟩ := hsrc k hk
      obtain ⟨dst, hdst1, hdst2, hdst3⟩ := dims_at hinv i d hd
      have hcol : src.col i = some ((List.range src.rows).map (fun r => src.coeff r i)) := by
        simp [Mat.col, hsrc3]
      have hassign : ∃ dst', dst.assignCol k
          ((List.range src.rows).map (fun r => src.coeff r i)) = some dst' := by
        have hc : k < dst.cols ∧
            ((List.range src.rows).map (fun r => src.coeff r i)).length = dst.rows := by
          refine ⟨by omega, ?_⟩
          simp only [List.length_map, List.length_range]
          omega
        simp only [Mat.assignCol, hc, and_self, if_true]
        exact ⟨_, rfl⟩
      obtain ⟨dst', hdst'⟩ := hassign
      refine ⟨t.set i dst', ?_, ?_⟩
      · rw [bind_ok_iff]
        refine ⟨src, by rw [readAt_ok_iff]; exact hsrc1, ?_⟩
        rw [bind_ok_iff]
        refine ⟨_, by rw [checked_ok_iff]; exact hcol, ?_⟩
        rw [bind_ok_iff]
        refine ⟨dst, by rw [readAt_ok_iff]; exact hdst1, ?_⟩
        rw [bind_ok_iff]
        exact ⟨dst', by rw [checked_ok_iff]; exact hdst', rfl⟩
      · exact (map_dims_set t i dst dst' hdst1 (assignCol_dims dst dst' k _ hdst')).trans hinv)
  exact ⟨g', h⟩

theorem storeGradients_succeeds {R : Type} (b : Block) (rsf_grad : List (Mat R))
    (Nrsf Nqp : Nat) (g : List (Mat R)) (rows : Nat)
    (hdst : ∀ i, i < Nqp → ∃ d, g[i]? = some d ∧ d.rows = rows ∧ d.cols = Nrsf)
    (hsrc : ∀ j, j < Nrsf → ∃ src, rsf_grad[j]? = some src ∧ src.rows = rows ∧ Nqp ≤ src.cols) :
    ∃ g', storeGradients b rsf_grad Nrsf Nqp g = Except.ok g' := by
  obtain ⟨g', h, _⟩ := forLoop_succeeds Nqp
    (fun i x => storeGradientsAt b rsf_grad Nrsf i x)
    (fun _ x => x.map Mat.dims = g.map Mat.dims) g rfl (by
      intro k t hk hinv
      obtain ⟨d, hd1, hd2, hd3⟩ := hdst k hk
      obtain ⟨d', hd1', hd2', hd3'⟩ := dims_at hinv k d hd1
      obtain ⟨t', ht'⟩ := storeGradientsAt_succeeds b rsf_grad Nrsf k t rows
        ⟨d', hd1', by omega, by omega⟩
        (fun j hj => by
          obtain ⟨src, h1, h2, h3⟩ := hsrc j hj
          exact ⟨src, h1, h2, by omega⟩)
      exact ⟨t', ht', (storeGradientsAt_spec b rsf_grad Nrsf k t t' ht').1.trans hinv⟩)
  exact ⟨g', h⟩

/-! ## The two preprocessing blocks -/

theorem preprocessTria_result_ok {R : Type} (ext : Externals R)
    (fe : ScalarReferenceFiniteElement R) (q : Nat) (c : ShapeFunctionCache R)
    (h : (preprocessTria ext fe q).result = Except.ok c) :
    (preprocessTria ext fe q).calls = [Call.make_QuadRule RefEl.kTria q,
        Call.EvalReferenceShapeFunctions Block.tria,
        Call.GradientsReferenceShapeFunctions Block.tria] ∧
      c.Nrsf = fe.NumRefShapeFunctions ∧
      c.qr = ext.make_QuadRule RefEl.kTria q ∧
      c.Nqp = (ext.make_QuadRule RefEl.kTria q).NumPoints ∧
      (fe.EvalReferenceShapeFunctions (ext.make_QuadRule RefEl.kTria q).Points).length
        = fe.NumRefShapeFunctions ∧
      (fe.GradientsReferenceShapeFunctions (ext.make_QuadRule RefEl.kTria q).Points).length
        = fe.NumRefShapeFunctions ∧
      storeValues Block.tria
        (fe.EvalReferenceShapeFunctions (ext.make_QuadRule RefEl.kTria q).Points)
        fe.NumRefShapeFunctions (ext.make_QuadRule RefEl.kTria q).NumPoints
        (Mat.resize ext.uninit fe.NumRefShapeFunctions
          (ext.make_QuadRule RefEl.kTria q).NumPoints) = Except.ok c.rsf_quadpoints ∧
      storeGradients Block.tria
        (fe.GradientsReferenceShapeFunctions (ext.make_QuadRule RefEl.kTria q).Points)
        fe.NumRefShapeFunctions (ext.make_QuadRule RefEl.kTria q).NumPoints
        (List.replicate (ext.make_QuadRule RefEl.kTria q).NumPoints
          (Mat.resize ext.uninit 2 fe.NumRefShapeFunctions)) = Except.ok c.grad_quadpoint := by
  unfold preprocessTria at h ⊢
  simp only at h ⊢
  split at h
  · cases h
  · rename_i m hm
    split at h
    · cases h
    · rename_i g hg
      simp only [Except.ok.injEq] at h
      subst h
      rw [bind_ok_iff] at hm hg
      obtain ⟨_, hm1, hm2⟩ := hm
      obtain ⟨_, hg1, hg2⟩ := hg
      rw [LF_ASSERT_MSG_ok_iff] at hm1 hg1
      simp only [beq_iff_eq] at hm1 hg1
      exact ⟨rfl, rfl, rfl, rfl, hm1.symm, hg1.symm, hm2, hg2⟩

theorem consistent_values {R : Type} (b : Block) (uninit : Nat → Nat → R)
    (fe : ScalarReferenceFiniteElement R) (qr : QuadRule R) (h : ConsistentEvaluation fe qr) :
    ∃ m, (do
      LF_ASSERT_MSG (fe.NumRefShapeFunctions == (fe.EvalReferenceShapeFunctions qr.Points).length)
        (Site.valueLength b)
        [MsgItem.text "Mismatch in length of value vector ", MsgItem.num fe.NumRefShapeFunctions,
          MsgItem.text " <-> ", MsgItem.num (fe.EvalReferenceShapeFunctions qr.Points).length]
      storeValues b (fe.EvalReferenceShapeFunctions qr.Points) fe.NumRefShapeFunctions
        qr.NumPoints (Mat.resize uninit fe.NumRefShapeFunctions qr.NumPoints)) = Except.ok m := by
  obtain ⟨h1, h2, _, _⟩ := h
  obtain ⟨m, hm⟩ := storeValues_succeeds b (fe.EvalReferenceShapeFunctions qr.Points)
    fe.NumRefShapeFunctions qr.NumPoints (Mat.resize uninit fe.NumRefShapeFunctions qr.NumPoints)
    (fun i hi => by
      have hi' : i < (fe.EvalReferenceShapeFunctions qr.Points).length := by omega
      exact ⟨_, List.getElem?_eq_getElem hi', h2 _ (List.getElem_mem hi')⟩)
  refine ⟨m, ?_⟩
  rw [bind_ok_iff]
  exact ⟨(), by rw [LF_ASSERT_MSG_ok_iff]; simpa using h1.symm, hm⟩

theorem consistent_gradients {R : Type} (b : Block) (uninit : Nat → Nat → R)
    (fe : ScalarReferenceFiniteElement R) (qr : QuadRule R) (h : ConsistentEvaluation fe qr) :
    ∃ g, (do
      LF_ASSERT_MSG
        (fe.NumRefShapeFunctions == (fe.GradientsReferenceShapeFunctions qr.Points).length)
        (Site.gradLength b)
        [MsgItem.text "Mismatch in length of gradient vector", MsgItem.num fe.NumRefShapeFunctions,
          MsgItem.text " <-> ", MsgItem.num (fe.GradientsReferenceShapeFunctions qr.Points).length]
      storeGradients b (fe.GradientsReferenceShapeFunctions qr.Points) fe.NumRefShapeFunctions
        qr.NumPoints (List.replicate qr.NumPoints (Mat.resize uninit 2 fe.NumRefShapeFunctions)))
      = Except.ok g := by
  obtain ⟨_, _, h3, h4⟩ := h
  obtain ⟨g, hg⟩ := storeGradients_succeeds b (fe.GradientsReferenceShapeFunctions qr.Points)
    fe.NumRefShapeFunctions qr.NumPoints
    (List.replicate qr.NumPoints (Mat.resize uninit 2 fe.NumRefShapeFunctions)) 2
    (fun i hi => ⟨Mat.resize uninit 2 fe.NumRefShapeFunctions, by
      simp [List.getElem?_replicate, hi], rfl, rfl⟩)
    (fun j hj => by
      have hj' : j < (fe.GradientsReferenceShapeFunctions qr.Points).length := by omega
      exact ⟨_, List.getElem?_eq_getElem hj', h4 _ (List.getElem_mem hj')⟩)
  refine ⟨g, ?_⟩
  rw [bind_ok_iff]
  exact ⟨(), by rw [LF_ASSERT_MSG_ok_iff]; simpa using h3.symm, hg⟩

theorem preprocessTria_succeeds {R : Type} (ext : Externals R)
    (fe : ScalarReferenceFiniteElement R) (q : Nat)
    (h : ConsistentEvaluation fe (ext.make_QuadRule RefEl.kTria q)) :
    ∃ c, (preprocessTria ext fe q).result = Except.ok c := by
  obtain ⟨m, hm⟩ := consistent_values Block.tria ext.uninit fe _ h
  obtain ⟨g, hg⟩ := consistent_gradients Block.tria ext.uninit fe _ h
  unfold preprocessTria
  simp only [hm, hg]
  exact ⟨_, rfl⟩

theorem preprocessQuad_result_ok {R : Type} (ext : Externals R)
    (fe : ScalarReferenceFiniteElement R) (q : Nat) (c : ShapeFunctionCache R)
    (h : (preprocessQuad ext fe q).result = Except.ok c) :
    (preprocessQuad ext fe q).calls = [Call.make_QuadRule RefEl.kQuad q,
        Call.EvalReferenceShapeFunctions Block.quad,
        Call.GradientsReferenceShapeFunctions Block.quad] ∧
      c.Nrsf = fe.NumRefShapeFunctions ∧
      c.qr = ext.make_QuadRule RefEl.kQuad q ∧
      c.Nqp = (ext.make_QuadRule RefEl.kQuad q).NumPoints ∧
      (fe.EvalReferenceShapeFunctions (ext.make_QuadRule RefEl.kQuad q).Points).length
        = fe.NumRefShapeFunctions ∧
      (fe.GradientsReferenceShapeFunctions (ext.make_QuadRule RefEl.kQuad q).Points).length
        = fe.NumRefShapeFunctions ∧
      storeValues Block.quad
        (fe.EvalReferenceShapeFunctions (ext.make_QuadRule RefEl.kQuad q).Points)
        fe.NumRefShapeFunctions (ext.make_QuadRule RefEl.kQuad q).NumPoints
        (Mat.resize ext.uninit fe.NumRefShapeFunctions
          (ext.make_QuadRule RefEl.kQuad q).NumPoints) = Except.ok c.rsf_quadpoints ∧
      storeGradients Block.quad
        (fe.GradientsReferenceShapeFunctions (ext.make_QuadRule RefEl.kQuad q).Points)
        fe.NumRefShapeFunctions (ext.make_QuadRule RefEl.kQuad q).NumPoints
        (List.replicate (ext.make_QuadRule RefEl.kQuad q).NumPoints
          (Mat.resize ext.uninit 2 fe.NumRefShapeFunctions)) = Except.ok c.grad_quadpoint := by
  unfold preprocessQuad at h ⊢
  simp only at h ⊢
  split at h
  · cases h
  · rename_i m hm
    split at h
    · cases h
    · rename_i g hg
      simp only [Except.ok.injEq] at h
      subst h
      rw [bind_ok_iff] at hm hg
      obtain ⟨_, hm1, hm2⟩ := hm
      obtain ⟨_, hg1, hg2⟩ := hg
      rw [LF_ASSERT_MSG_ok_iff] at hm1 hg1
      simp only [beq_iff_eq] at hm1 hg1
      exact ⟨rfl, rfl, rfl, rfl, hm1.symm, hg1.symm, hm2, hg2⟩

theorem preprocessQuad_succeeds {R : Type} (ext : Externals R)
    (fe : ScalarReferenceFiniteElement R) (q : Nat)
    (h : ConsistentEvaluation fe (ext.make_QuadRule RefEl.kQuad q)) :
    ∃ c, (preprocessQuad ext fe q).result = Except.ok c := by
  obtain ⟨m, hm⟩ := consistent_values Block.quad ext.uninit fe _ h
  obtain ⟨g, hg⟩ := consistent_gradients Block.quad ext.uninit fe _ h
  unfold preprocessQuad
  simp only [hm, hg]
  exact ⟨_, rfl⟩

/-! ## The compatibility assertions -/

theorem compatibilityChecks_ok_iff {R : Type} (ft fq : ScalarReferenceFiniteElement R) :
    compatibilityChecks ft fq = Except.ok () ↔
      (ft.Dimension = 2 ∧ fq.Dimension = 2) ∧
      (ft.RefEl = RefEl.kTria ∨ fq.RefEl = RefEl.kQuad) ∧
      (ft.NumRefShapeFunctionsAt 2 0 = 1 ∧ fq.NumRefShapeFunctionsAt 2 0 = 1) ∧
      ft.NumRefShapeFunctionsAt 1 0 = fq.NumRefShapeFunctionsAt 1 0 := by
  unfold compatibilityChecks
  simp only [bind_ok_iff, LF_ASSERT_MSG_ok_iff, exists_const, Bool.and_eq_true, Bool.or_eq_true,
    beq_iff_eq]

theorem compatibilityChecks_error {R : Type} (ft fq : ScalarReferenceFiniteElement R)
    (e : Abort) (h : compatibilityChecks ft fq = Except.error e) : IncompatibleSpaceError e := by
  unfold compatibilityChecks at h
  unfold IncompatibleSpaceError
  cases c1 : ((ft.Dimension == 2) && (fq.Dimension == 2)) <;>
    cases c2 : ((ft.RefEl == RefEl.kTria) || (fq.RefEl == RefEl.kQuad)) <;>
    cases c3 : ((ft.NumRefShapeFunctionsAt 2 0 == 1) && (fq.NumRefShapeFunctionsAt 2 0 == 1)) <;>
    cases c4 : (ft.NumRefShapeFunctionsAt 1 0 == fq.NumRefShapeFunctionsAt 1 0) <;>
    simp only [LF_ASSERT_MSG, bind, Except.bind, c1, c2, c3, c4, if_true, if_false,
      Bool.false_eq_true, Except.error.injEq] at h <;>
    first
      | (subst h; simp)
      | cases h

/-! ## The constructor as a whole -/

theorem ctor_of_checks_error {R : Type} (ext : Externals R)
    (ft fq : ScalarReferenceFiniteElement R) (loc : Nat) (e : Abort)
    (h : compatibilityChecks ft fq = Except.error e) :
    LocCompLagrFEPreprocessor.ctor ext ft fq loc = ⟨[], Except.error e⟩ := by
  unfold LocCompLagrFEPreprocessor.ctor
  simp only [h]

theorem ctor_of_tria_error {R : Type} (ext : Externals R)
    (ft fq : ScalarReferenceFiniteElement R) (loc : Nat) (calls : List Call) (e : Abort)
    (hc : compatibilityChecks ft fq = Except.ok ())
    (ht : preprocessTria ext ft (selectQuadOrder ext ft fq loc) = ⟨calls, Except.error e⟩) :
    LocCompLagrFEPreprocessor.ctor ext ft fq loc = ⟨calls, Except.error e⟩ := by
  unfold LocCompLagrFEPreprocessor.ctor
  simp only [hc, ht]

theorem ctor_of_quad_error {R : Type} (ext : Externals R)
    (ft fq : ScalarReferenceFiniteElement R) (loc : Nat) (calls calls' : List Call)
    (t : ShapeFunctionCache R) (e : Abort)
    (hc : compatibilityChecks ft fq = Except.ok ())
    (ht : preprocessTria ext ft (selectQuadOrder ext ft fq loc) = ⟨calls, Except.ok t⟩)
    (hq : preprocessQuad ext fq (selectQuadOrder ext ft fq loc) = ⟨calls', Except.error e⟩) :
    LocCompLagrFEPreprocessor.ctor ext ft fq loc = ⟨calls ++ calls', Except.error e⟩ := by
  unfold LocCompLagrFEPreprocessor.ctor
  simp only [hc, ht, hq]

theorem ctor_of_blocks_ok {R : Type} (ext : Externals R)
    (ft fq : ScalarReferenceFiniteElement R) (loc : Nat) (calls calls' : List Call)
    (t q : ShapeFunctionCache R)
    (hc : compatibilityChecks ft fq = Except.ok ())
    (ht : preprocessTria ext ft (selectQuadOrder ext ft fq loc) = ⟨calls, Except.ok t⟩)
    (hq : preprocessQuad ext fq (selectQuadOrder ext ft fq loc) = ⟨calls', Except.ok q⟩) :
    LocCompLagrFEPreprocessor.ctor ext ft fq loc = ⟨calls ++ calls', Except.ok
      { fe_tria_ := ft, fe_quad_ := fq,
        Nrsf_tria_ := t.Nrsf, qr_tria_ := t.qr, Nqp_tria_ := t.Nqp,
        rsf_quadpoints_tria_ := t.rsf_quadpoints, grad_quadpoint_tria_ := t.grad_quadpoint,
        Nrsf_quad_ := q.Nrsf, qr_quad_ := q.qr, Nqp_quad_ := q.Nqp,
        rsf_quadpoints_quad_ := q.rsf_quadpoints, grad_quadpoint_quad_ := q.grad_quadpoint }⟩ := by
  unfold LocCompLagrFEPreprocessor.ctor
  simp only [hc, ht, hq]

theorem ctor_result_ok {R : Type} (ext : Externals R) (ft fq : ScalarReferenceFiniteElement R)
    (loc : Nat) (P : LocCompLagrFEPreprocessor R)
    (h : (LocCompLagrFEPreprocessor.ctor ext ft fq loc).result = Except.ok P) :
    compatibilityChecks ft fq = Except.ok () ∧
      ∃ t q,
        (preprocessTria ext ft (selectQuadOrder ext ft fq loc)).result = Except.ok t ∧
        (preprocessQuad ext fq (selectQuadOrder ext ft fq loc)).result = Except.ok q ∧
        (LocCompLagrFEPreprocessor.ctor ext ft fq loc).calls =
          (preprocessTria ext ft (selectQuadOrder ext ft fq loc)).calls ++
            (preprocessQuad ext fq (selectQuadOrder ext ft fq loc)).calls ∧
        P.fe_tria_ = ft ∧ P.fe_quad_ = fq ∧
        P.Nrsf_tria_ = t.Nrsf ∧ P.qr_tria_ = t.qr ∧ P.Nqp_tria_ = t.Nqp ∧
        P.rsf_quadpoints_tria_ = t.rsf_quadpoints ∧ P.grad_quadpoint_tria_ = t.grad_quadpoint ∧
        P.Nrsf_quad_ = q.Nrsf ∧ P.qr_quad_ = q.qr ∧ P.Nqp_quad_ = q.Nqp ∧
        P.rsf_quadpoints_quad_ = q.rsf_quadpoints ∧ P.grad_quadpoint_quad_ = q.grad_quadpoint := by
  cases hc : compatibilityChecks ft fq with
  | error e =>
    rw [ctor_of_checks_error ext ft fq loc e hc] at h
    cases h
  | ok u =>
    cases ht : preprocessTria ext ft (selectQuadOrder ext ft fq loc) with
    | mk c1 r1 =>
      cases r1 with
      | error e =>
        rw [ctor_of_tria_error ext ft fq loc c1 e hc ht] at h
        cases h
      | ok t =>
        cases hq : preprocessQuad ext fq (selectQuadOrder ext ft fq loc) with
        | mk c2 r2 =>
          cases r2 with
          | error e =>
            rw [ctor_of_quad_error ext ft fq loc c1 c2 t e hc ht hq] at h
            cases h
          | ok q =>
            rw [ctor_of_blocks_ok ext ft fq loc c1 c2 t q hc ht hq] at h ⊢
            simp only [Except.ok.injEq] at h
            subst h
            exact ⟨rfl, t, q, rfl, rfl, rfl, rfl, rfl, rfl, rfl, rfl, rfl, rfl, rfl, rfl, rfl,
              rfl, rfl⟩

theorem ctor_succeeds {R : Type} (ext : Externals R) (ft fq : ScalarReferenceFiniteElement R)
    (loc : Nat) (t q : ShapeFunctionCache R)
    (hc : compatibilityChecks ft fq = Except.ok ())
    (ht : (preprocessTria ext ft (selectQuadOrder ext ft fq loc)).result = Except.ok t)
    (hq : (preprocessQuad ext fq (selectQuadOrder ext ft fq loc)).result = Except.ok q) :
    ∃ P, (LocCompLagrFEPreprocessor.ctor ext ft fq loc).result = Except.ok P ∧
      P.Nrsf_tria_ = t.Nrsf ∧ P.Nrsf_quad_ = q.Nrsf := by
  cases ht' : preprocessTria ext ft (selectQuadOrder ext ft fq loc) with
  | mk c1 r1 =>
    cases hq' : preprocessQuad ext fq (selectQuadOrder ext ft fq loc) with
    | mk c2 r2 =>
      rw [ht'] at ht
      rw [hq'] at hq
      simp only at ht hq
      subst ht
      subst hq
      rw [ctor_of_blocks_ok ext ft fq loc c1 c2 t q hc ht' hq']
      exact ⟨_, rfl, rfl, rfl⟩

/-! ## What a successful block has stored -/

theorem replicate_dims {R : Type} (g : List (Mat R)) (n : Nat) (m0 : Mat R)
    (h : g.map Mat.dims = (List.replicate n m0).map Mat.dims) :
    g.length = n ∧ ∀ m ∈ g, m.rows = m0.rows ∧ m.cols = m0.cols := by
  constructor
  · have h1 := congrArg List.length h
    simpa using h1
  · intro m hm
    have h2 : m.dims ∈ g.map Mat.dims := List.mem_map_of_mem Mat.dims hm
    rw [h, List.map_replicate] at h2
    have h3 := List.eq_of_mem_replicate h2
    simp only [Mat.dims, Prod.mk.injEq] at h3
    exact h3

theorem cache_facts {R : Type} (b : Block) (uninit : Nat → Nat → R)
    (fe : ScalarReferenceFiniteElement R) (qr : QuadRule R) (m : Mat R) (g : List (Mat R))
    (hm : storeValues b (fe.EvalReferenceShapeFunctions qr.Points) fe.NumRefShapeFunctions
      qr.NumPoints (Mat.resize uninit fe.NumRefShapeFunctions qr.NumPoints) = Except.ok m)
    (hg : storeGradients b (fe.GradientsReferenceShapeFunctions qr.Points)
      fe.NumRefShapeFunctions qr.NumPoints
      (List.replicate qr.NumPoints (Mat.resize uninit 2 fe.NumRefShapeFunctions)) = Except.ok g) :
    (m.rows = fe.NumRefShapeFunctions ∧ m.cols = qr.NumPoints ∧
      ∀ i j, i < fe.NumRefShapeFunctions → j < qr.NumPoints →
        ∃ row, (fe.EvalReferenceShapeFunctions qr.Points)[i]? = some row ∧
          row[j]? = some (m.coeff i j)) ∧
    (g.length = qr.NumPoints ∧ (∀ d ∈ g, d.rows = 2 ∧ d.cols = fe.NumRefShapeFunctions) ∧
      ∀ i j, i < qr.NumPoints → j < fe.NumRefShapeFunctions →
        ∃ src dst v, (fe.GradientsReferenceShapeFunctions qr.Points)[j]? = some src ∧
          g[i]? = some dst ∧ src.col i = some v ∧ dst.col j = some v) := by
  obtain ⟨hr, hc, hv⟩ := storeValues_spec b _ _ _ _ m hm
  obtain ⟨hd, hcol⟩ := storeGradients_spec b _ _ _ _ g hg
  obtain ⟨hlen, hshape⟩ := replicate_dims g _ _ hd
  refine ⟨⟨hr, hc, ?_⟩, ⟨hlen, hshape, hcol⟩⟩
  intro i j hi hj
  obtain ⟨row, h1, _, h3⟩ := hv i j hi hj
  exact ⟨row, h1, h3⟩

theorem block_facts_tria {R : Type} (ext : Externals R) (fe : ScalarReferenceFiniteElement R)
    (q : Nat) (c : ShapeFunctionCache R) (h : (preprocessTria ext fe q).result = Except.ok c) :
    c.Nrsf = fe.NumRefShapeFunctions ∧ c.qr = ext.make_QuadRule RefEl.kTria q ∧
      c.Nqp = c.qr.NumPoints ∧
      (c.rsf_quadpoints.rows = c.Nrsf ∧ c.rsf_quadpoints.cols = c.Nqp ∧
        ∀ i j, i < c.Nrsf → j < c.Nqp →
          ∃ row, (fe.EvalReferenceShapeFunctions c.qr.Points)[i]? = some row ∧
            row[j]? = some (c.rsf_quadpoints.coeff i j)) ∧
      (c.grad_quadpoint.length = c.Nqp ∧
        (∀ d ∈ c.grad_quadpoint, d.rows = 2 ∧ d.cols = c.Nrsf) ∧
        ∀ i j, i < c.Nqp → j < c.Nrsf →
          ∃ src dst v, (fe.GradientsReferenceShapeFunctions c.qr.Points)[j]? = some src ∧
            c.grad_quadpoint[i]? = some dst ∧ src.col i = some v ∧ dst.col j = some v) := by
  obtain ⟨_, h1, h2, h3, _, _, hm, hg⟩ := preprocessTria_result_ok ext fe q c h
  have hf := cache_facts Block.tria ext.uninit fe _ _ _ hm hg
  rw [h1, h2, h3]
  exact ⟨rfl, rfl, rfl, hf⟩

theorem block_facts_quad {R : Type} (ext : Externals R) (fe : ScalarReferenceFiniteElement R)
    (q : Nat) (c : ShapeFunctionCache R) (h : (preprocessQuad ext fe q).result = Except.ok c) :
    c.Nrsf = fe.NumRefShapeFunctions ∧ c.qr = ext.make_QuadRule RefEl.kQuad q ∧
      c.Nqp = c.qr.NumPoints ∧
      (c.rsf_quadpoints.rows = c.Nrsf ∧ c.rsf_quadpoints.cols = c.Nqp ∧
        ∀ i j, i < c.Nrsf → j < c.Nqp →
          ∃ row, (fe.EvalReferenceShapeFunctions c.qr.Points)[i]? = some row ∧
            row[j]? = some (c.rsf_quadpoints.coeff i j)) ∧
      (c.grad_quadpoint.length = c.Nqp ∧
        (∀ d ∈ c.grad_quadpoint, d.rows = 2 ∧ d.cols = c.Nrsf) ∧
        ∀ i j, i < c.Nqp → j < c.Nrsf →
          ∃ src dst v, (fe.GradientsReferenceShapeFunctions c.qr.Points)[j]? = some src ∧
            c.grad_quadpoint[i]? = some dst ∧ src.col i = some v ∧ dst.col j = some v) := by
  obtain ⟨_, h1, h2, h3, _, _, hm, hg⟩ := preprocessQuad_result_ok ext fe q c h
  have hf := cache_facts Block.quad ext.uninit fe _ _ _ hm hg
  rw [h1, h2, h3]
  exact ⟨rfl, rfl, rfl, hf⟩

theorem ctor_result_cases {R : Type} (ext : Externals R) (ft fq : ScalarReferenceFiniteElement R)
    (loc : Nat) :
    (∃ e, (LocCompLagrFEPreprocessor.ctor ext ft fq loc).result = Except.error e) ∨
      ∃ P, (LocCompLagrFEPreprocessor.ctor ext ft fq loc).result = Except.ok P := by
  cases h : (LocCompLagrFEPreprocessor.ctor ext ft fq loc).result with
  | error e => exact Or.inl ⟨e, rfl⟩
  | ok P => exact Or.inr ⟨P, rfl⟩

theorem checks_fail_of_not_ok {R : Type} (ext : Externals R)
    (ft fq : ScalarReferenceFiniteElement R) (loc : Nat)
    (h : compatibilityChecks ft fq ≠ Except.ok ()) :
    ∃ e, LocCompLagrFEPreprocessor.ctor ext ft fq loc = ⟨[], Except.error e⟩ ∧
      IncompatibleSpaceError e := by
  cases hc : compatibilityChecks ft fq with
  | error e =>
    exact ⟨e, ctor_of_checks_error ext ft fq loc e hc, compatibilityChecks_error ft fq e hc⟩
  | ok u => exact absurd hc h

/-! ## The claims -/

/-- Claim C1, the code at the failing inputs: the reference-shape assertion
joins its two tests with "or", so a pair with exactly one wrong reference
shape is accepted.  The linear triangle element passed in both places (the
quadrilateral place holds a triangle element) is constructed successfully,
and so is the bilinear quadrilateral element passed in both places. -/
theorem refEl_check_accepts_one_wrong_shape :
    triaLinear.RefEl = RefEl.kTria ∧ triaLinear.RefEl ≠ RefEl.kQuad ∧
      (LocCompLagrFEPreprocessor.ctor vertexRules triaLinear triaLinear 0).succeeded = true ∧
      quadBilinear.RefEl ≠ RefEl.kTria ∧ quadBilinear.RefEl = RefEl.kQuad ∧
      (LocCompLagrFEPreprocessor.ctor vertexRules quadBilinear quadBilinear 0).succeeded
        = true := by
  decide

/-- Claim C2 as stated fails: the pair (`triaMiscounted`, `quadBilinear`)
satisfies the compatibility invariant, yet construction ends at the assertion
on the length of the value vector, with the diagnostic `4 <-> 3`. -/
theorem compatible_pair_rejected :
    CompatibilityInvariant triaMiscounted quadBilinear ∧
      (LocCompLagrFEPreprocessor.ctor vertexRules triaMiscounted quadBilinear 0).failure? =
        some ⟨Site.valueLength Block.tria,
          [MsgItem.text "Mismatch in length of value vector ", MsgItem.num 4,
            MsgItem.text " <-> ", MsgItem.num 3]⟩ := by
  decide

/-- Claim C2, amended: for every pair satisfying the compatibility invariant
whose evaluation results at the points of the two fetched rules have
consistent sizes, and every quadrature-order argument, construction succeeds,
and afterwards `Nrsf_tria_` and `Nrsf_quad_` are the shape-function counts the
two elements report. -/
theorem ctor_succeeds_of_compatible_consistent {R : Type} (ext : Externals R)
    (fe_tria fe_quad : ScalarReferenceFiniteElement R) (loc_quad_order : Nat)
    (hcompat : CompatibilityInvariant fe_tria fe_quad)
    (htria : ConsistentEvaluation fe_tria
      (ext.make_QuadRule RefEl.kTria (selectQuadOrder ext fe_tria fe_quad loc_quad_order)))
    (hquad : ConsistentEvaluation fe_quad
      (ext.make_QuadRule RefEl.kQuad (selectQuadOrder ext fe_tria fe_quad loc_quad_order))) :
    ∃ P, (LocCompLagrFEPreprocessor.ctor ext fe_tria fe_quad loc_quad_order).result
        = Except.ok P ∧
      P.Nrsf_tria_ = fe_tria.NumRefShapeFunctions ∧
      P.Nrsf_quad_ = fe_quad.NumRefShapeFunctions := by
  obtain ⟨h1, h2, h3, h4, h5, h6, h7⟩ := hcompat
  have hc : compatibilityChecks fe_tria fe_quad = Except.ok () :=
    (compatibilityChecks_ok_iff fe_tria fe_quad).mpr ⟨⟨h1, h2⟩, Or.inl h3, ⟨h5, h6⟩, h7⟩
  obtain ⟨t, ht⟩ := preprocessTria_succeeds ext fe_tria _ htria
  obtain ⟨q, hq⟩ := preprocessQuad_succeeds ext fe_quad _ hquad
  obtain ⟨P, hP, hPt, hPq⟩ := ctor_succeeds ext fe_tria fe_quad loc_quad_order t q hc ht hq
  refine ⟨P, hP, ?_, ?_⟩
  · rw [hPt]
    exact (block_facts_tria ext fe_tria _ t ht).1
  · rw [hPq]
    exact (block_facts_quad ext fe_quad _ q hq).1

theorem ctor_succeeds_of_compatible_consistent_witness :
    CompatibilityInvariant triaLinear quadBilinear ∧
      ConsistentEvaluation triaLinear
        (vertexRules.make_QuadRule RefEl.kTria
          (selectQuadOrder vertexRules triaLinear quadBilinear 0)) ∧
      ConsistentEvaluation quadBilinear
        (vertexRules.make_QuadRule RefEl.kQuad
          (selectQuadOrder vertexRules triaLinear quadBilinear 0)) ∧
      ∃ P, (LocCompLagrFEPreprocessor.ctor vertexRules triaLinear quadBilinear 0).result
          = Except.ok P ∧
        P.Nrsf_tria_ = triaLinear.NumRefShapeFunctions ∧
        P.Nrsf_quad_ = quadBilinear.NumRefShapeFunctions :=
  ⟨by decide, by decide, by decide,
    ctor_succeeds_of_compatible_consistent vertexRules triaLinear quadBilinear 0
      (by decide) (by decide) (by decide)⟩

/-- Claim C3: for every pair whose shape-function counts on an edge differ
(`NumRefShapeFunctions(1,0)` of the triangle element is not that of the
quadrilateral element), construction fails with an incompatible-space error,
before any collaborator is called, whatever the quadrature-order argument. -/
theorem edge_count_mismatch_rejected {R : Type} (ext : Externals R)
    (fe_tria fe_quad : ScalarReferenceFiniteElement R) (loc_quad_order : Nat)
    (h : fe_tria.NumRefShapeFunctionsAt 1 0 ≠ fe_quad.NumRefShapeFunctionsAt 1 0) :
    ∃ e, LocCompLagrFEPreprocessor.ctor ext fe_tria fe_quad loc_quad_order
        = ⟨[], Except.error e⟩ ∧ IncompatibleSpaceError e := by
  apply checks_fail_of_not_ok
  intro hc
  exact h ((compatibilityChecks_ok_iff fe_tria fe_quad).mp hc).2.2.2

theorem edge_count_mismatch_rejected_witness :
    triaQuadratic.NumRefShapeFunctionsAt 1 0 ≠ quadBilinear.NumRefShapeFunctionsAt 1 0 ∧
      ∃ e, LocCompLagrFEPreprocessor.ctor vertexRules triaQuadratic quadBilinear 0
          = ⟨[], Except.error e⟩ ∧ IncompatibleSpaceError e :=
  ⟨by decide, edge_count_mismatch_rejected vertexRules triaQuadratic quadBilinear 0 (by decide)⟩

/-- Claim C4 as stated fails: for the triangle element reporting polynomial
order `2 ^ 31` and no preselected order, construction succeeds, and both rules
are requested with order 0, while twice the maximal polynomial order is
`2 ^ 32`; this holds for `quadOrder_t` of 8 bits and of 32 bits. -/
theorem quad_order_wraps :
    2 * max triaHugeOrder.order quadBilinear.order = 4294967296 ∧
      (LocCompLagrFEPreprocessor.ctor vertexRules triaHugeOrder quadBilinear 0).succeeded
        = true ∧
      (LocCompLagrFEPreprocessor.ctor vertexRules triaHugeOrder quadBilinear 0).calls =
        [Call.make_QuadRule RefEl.kTria 0, Call.EvalReferenceShapeFunctions Block.tria,
          Call.GradientsReferenceShapeFunctions Block.tria,
          Call.make_QuadRule RefEl.kQuad 0, Call.EvalReferenceShapeFunctions Block.quad,
          Call.GradientsReferenceShapeFunctions Block.quad] ∧
      (LocCompLagrFEPreprocessor.ctor vertexRules32 triaHugeOrder quadBilinear 0).succeeded
        = true ∧
      (LocCompLagrFEPreprocessor.ctor vertexRules32 triaHugeOrder quadBilinear 0).calls =
        [Call.make_QuadRule RefEl.kTria 0, Call.EvalReferenceShapeFunctions Block.tria,
          Call.GradientsReferenceShapeFunctions Block.tria,
          Call.make_QuadRule RefEl.kQuad 0, Call.EvalReferenceShapeFunctions Block.quad,
          Call.GradientsReferenceShapeFunctions Block.quad] := by
  decide

/-- Claim C4, amended: on every successful construction the collaborator calls
are exactly: fetch the triangle rule with order `q`, evaluate and differentiate
the triangle element, fetch the quadrilateral rule with the same order `q`,
evaluate and differentiate the quadrilateral element; the stored rules are the
fetched ones.  Here `q` is `loc_quad_order` when that is not zero, and
otherwise twice the maximal polynomial order reduced modulo `2 ^ 32` and then
to the width of `quadOrder_t`, which is twice the maximal polynomial order
whenever that number is below `2 ^ 32` and fits `quadOrder_t`.  In particular,
with `loc_quad_order = 0` and `quadOrder_t` of at least 8 bits, polynomial
orders (1,1) give 2 and polynomial orders (2,1) give 4. -/
theorem quad_order_selection {R : Type} (ext : Externals R)
    (fe_tria fe_quad : ScalarReferenceFiniteElement R) (loc_quad_order : Nat)
    (P : LocCompLagrFEPreprocessor R)
    (h : (LocCompLagrFEPreprocessor.ctor ext fe_tria fe_quad loc_quad_order).result
      = Except.ok P) :
    ∃ q,
      (LocCompLagrFEPreprocessor.ctor ext fe_tria fe_quad loc_quad_order).calls =
        [Call.make_QuadRule RefEl.kTria q, Call.EvalReferenceShapeFunctions Block.tria,
          Call.GradientsReferenceShapeFunctions Block.tria,
          Call.make_QuadRule RefEl.kQuad q, Call.EvalReferenceShapeFunctions Block.quad,
          Call.GradientsReferenceShapeFunctions Block.quad] ∧
      P.qr_tria_ = ext.make_QuadRule RefEl.kTria q ∧
      P.qr_quad_ = ext.make_QuadRule RefEl.kQuad q ∧
      (loc_quad_order ≠ 0 → q = loc_quad_order) ∧
      (loc_quad_order = 0 →
        q = 2 * max fe_tria.order fe_quad.order % 2 ^ 32 % 2 ^ ext.quadOrderBits) ∧
      (loc_quad_order = 0 → 2 * max fe_tria.order fe_quad.order < 2 ^ 32 →
        2 * max fe_tria.order fe_quad.order < 2 ^ ext.quadOrderBits →
        q = 2 * max fe_tria.order fe_quad.order) ∧
      (loc_quad_order = 0 → 8 ≤ ext.quadOrderBits → fe_tria.order = 1 → fe_quad.order = 1 →
        q = 2) ∧
      (loc_quad_order = 0 → 8 ≤ ext.quadOrderBits → fe_tria.order = 2 → fe_quad.order = 1 →
        q = 4) := by
  obtain ⟨_, t, q, ht, hq, hcalls, _, _, _, hqt, _, _, _, _, hqq, _, _, _⟩ :=
    ctor_result_ok ext fe_tria fe_quad loc_quad_order P h
  obtain ⟨hct, _, ht2, _⟩ := preprocessTria_result_ok ext fe_tria _ t ht
  obtain ⟨hcq, _, hq2, _⟩ := preprocessQuad_result_ok ext fe_quad _ q hq
  have hbits : 8 ≤ ext.quadOrderBits → (256 : Nat) ≤ 2 ^ ext.quadOrderBits := by
    intro h8
    calc (256 : Nat) = 2 ^ 8 := by norm_num
      _ ≤ 2 ^ ext.quadOrderBits := Nat.pow_le_pow_right (by norm_num) h8
  refine ⟨selectQuadOrder ext fe_tria fe_quad loc_quad_order, ?_, ?_, ?_, ?_, ?_, ?_, ?_, ?_⟩
  · rw [hcalls, hct, hcq]
    rfl
  · rw [hqt, ht2]
  · rw [hqq, hq2]
  · intro hne
    simp [selectQuadOrder, hne]
  · intro h0
    subst h0
    rfl
  · intro h0 h32 hw
    subst h0
    show 2 * max fe_tria.order fe_quad.order % 2 ^ 32 % 2 ^ ext.quadOrderBits = _
    rw [Nat.mod_eq_of_lt h32, Nat.mod_eq_of_lt hw]
  · intro h0 h8 h1 h2
    have hw := hbits h8
    have e : 2 % 2 ^ ext.quadOrderBits = 2 := Nat.mod_eq_of_lt (by omega)
    simp [selectQuadOrder, h0, h1, h2, e]
  · intro h0 h8 h1 h2
    have hw := hbits h8
    have e : 4 % 2 ^ ext.quadOrderBits = 4 := Nat.mod_eq_of_lt (by omega)
    simp [selectQuadOrder, h0, h1, h2, e]

theorem quad_order_selection_witness :
    (LocCompLagrFEPreprocessor.ctor vertexRules triaLinear quadBilinear 0).result
        = Except.ok demoPreprocessor ∧
      ∃ q,
        (LocCompLagrFEPreprocessor.ctor vertexRules triaLinear quadBilinear 0).calls =
          [Call.make_QuadRule RefEl.kTria q, Call.EvalReferenceShapeFunctions Block.tria,
            Call.GradientsReferenceShapeFunctions Block.tria,
            Call.make_QuadRule RefEl.kQuad q, Call.EvalReferenceShapeFunctions Block.quad,
            Call.GradientsReferenceShapeFunctions Block.quad] ∧
        demoPreprocessor.qr_tria_ = vertexRules.make_QuadRule RefEl.kTria q ∧
        demoPreprocessor.qr_quad_ = vertexRules.make_QuadRule RefEl.kQuad q ∧
        ((0 : Nat) ≠ 0 → q = 0) ∧
        ((0 : Nat) = 0 →
          q = 2 * max triaLinear.order quadBilinear.order % 2 ^ 32
            % 2 ^ vertexRules.quadOrderBits) ∧
        ((0 : Nat) = 0 → 2 * max triaLinear.order quadBilinear.order < 2 ^ 32 →
          2 * max triaLinear.order quadBilinear.order < 2 ^ vertexRules.quadOrderBits →
          q = 2 * max triaLinear.order quadBilinear.order) ∧
        ((0 : Nat) = 0 → 8 ≤ vertexRules.quadOrderBits → triaLinear.order = 1 →
          quadBilinear.order = 1 → q = 2) ∧
        ((0 : Nat) = 0 → 8 ≤ vertexRules.quadOrderBits → triaLinear.order = 2 →
          quadBilinear.order = 1 → q = 4) :=
  ⟨rfl, quad_order_selection vertexRules triaLinear quadBilinear 0 demoPreprocessor rfl⟩

theorem ctor_ties {R : Type} (ext : Externals R)
    (fe_tria fe_quad : ScalarReferenceFiniteElement R) (loc_quad_order : Nat)
    (P : LocCompLagrFEPreprocessor R)
    (h : (LocCompLagrFEPreprocessor.ctor ext fe_tria fe_quad loc_quad_order).result
      = Except.ok P) :
    (P.Nrsf_tria_ = fe_tria.NumRefShapeFunctions ∧
      P.qr_tria_ = ext.make_QuadRule RefEl.kTria
        (selectQuadOrder ext fe_tria fe_quad loc_quad_order) ∧
      P.Nqp_tria_ = (ext.make_QuadRule RefEl.kTria
        (selectQuadOrder ext fe_tria fe_quad loc_quad_order)).NumPoints ∧
      P.Nrsf_quad_ = fe_quad.NumRefShapeFunctions ∧
      P.qr_quad_ = ext.make_QuadRule RefEl.kQuad
        (selectQuadOrder ext fe_tria fe_quad loc_quad_order) ∧
      P.Nqp_quad_ = (ext.make_QuadRule RefEl.kQuad
        (selectQuadOrder ext fe_tria fe_quad loc_quad_order)).NumPoints) := by
  obtain ⟨_, t, q, ht, hq, _, _, _, e1, e2, e3, _, _, e6, e7, e8, _, _⟩ :=
    ctor_result_ok ext fe_tria fe_quad loc_quad_order P h
  obtain ⟨t1, t2, t3, _, _⟩ := block_facts_tria ext fe_tria _ t ht
  obtain ⟨q1, q2, q3, _, _⟩ := block_facts_quad ext fe_quad _ q hq
  refine ⟨e1.trans t1, e2.trans t2, ?_, e6.trans q1, e7.trans q2, ?_⟩
  · rw [e3, t3, t2]
  · rw [e8, q3, q2]

/-- Claim C5: after a successful construction, for each shape, the stored rule
is the one fetched for that shape and the selected order, and for every
shape-function index `i < Nrsf` and quadrature-point index `j < Nqp` the cached
entry `rsf_quadpoints(i, j)` is entry `j` of row `i` of what
`EvalReferenceShapeFunctions` returns at the points of that rule.  Here `Nrsf`
is the count the element reports, `Nqp` is `NumPoints()` of the fetched rule. -/
theorem value_cache_round_trip {R : Type} (ext : Externals R)
    (fe_tria fe_quad : ScalarReferenceFiniteElement R) (loc_quad_order : Nat)
    (P : LocCompLagrFEPreprocessor R)
    (h : (LocCompLagrFEPreprocessor.ctor ext fe_tria fe_quad loc_quad_order).result
      = Except.ok P) :
    ((P.qr_tria_ = ext.make_QuadRule RefEl.kTria
        (selectQuadOrder ext fe_tria fe_quad loc_quad_order) ∧
      ∀ i j, i < P.Nrsf_tria_ → j < P.Nqp_tria_ →
        ∃ row, (fe_tria.EvalReferenceShapeFunctions P.qr_tria_.Points)[i]? = some row ∧
          row[j]? = some (P.rsf_quadpoints_tria_.coeff i j)) ∧
    (P.qr_quad_ = ext.make_QuadRule RefEl.kQuad
        (selectQuadOrder ext fe_tria fe_quad loc_quad_order) ∧
      ∀ i j, i < P.Nrsf_quad_ → j < P.Nqp_quad_ →
        ∃ row, (fe_quad.EvalReferenceShapeFunctions P.qr_quad_.Points)[i]? = some row ∧
          row[j]? = some (P.rsf_quadpoints_quad_.coeff i j))) ∧
    (P.Nrsf_tria_ = fe_tria.NumRefShapeFunctions ∧
      P.qr_tria_ = ext.make_QuadRule RefEl.kTria
        (selectQuadOrder ext fe_tria fe_quad loc_quad_order) ∧
      P.Nqp_tria_ = (ext.make_QuadRule RefEl.kTria
        (selectQuadOrder ext fe_tria fe_quad loc_quad_order)).NumPoints ∧
      P.Nrsf_quad_ = fe_quad.NumRefShapeFunctions ∧
      P.qr_quad_ = ext.make_QuadRule RefEl.kQuad
        (selectQuadOrder ext fe_tria fe_quad loc_quad_order) ∧
      P.Nqp_quad_ = (ext.make_QuadRule RefEl.kQuad
        (selectQuadOrder ext fe_tria fe_quad loc_quad_order)).NumPoints) := by
  refine ⟨?_, ctor_ties ext fe_tria fe_quad loc_quad_order P h⟩
  obtain ⟨_, t, q, ht, hq, _, _, _, e1, e2, e3, e4, _, e6, e7, e8, e9, _⟩ :=
    ctor_result_ok ext fe_tria fe_quad loc_quad_order P h
  obtain ⟨_, t2, _, ⟨_, _, tv⟩, _⟩ := block_facts_tria ext fe_tria _ t ht
  obtain ⟨_, q2, _, ⟨_, _, qv⟩, _⟩ := block_facts_quad ext fe_quad _ q hq
  rw [e1, e2, e3, e4, e6, e7, e8, e9]
  exact ⟨⟨t2, tv⟩, ⟨q2, qv⟩⟩

theorem value_cache_round_trip_witness :
    (LocCompLagrFEPreprocessor.ctor vertexRules triaLinear quadBilinear 0).result
        = Except.ok demoPreprocessor ∧
      (((demoPreprocessor.qr_tria_ = vertexRules.make_QuadRule RefEl.kTria
          (selectQuadOrder vertexRules triaLinear quadBilinear 0) ∧
        ∀ i j, i < demoPreprocessor.Nrsf_tria_ → j < demoPreprocessor.Nqp_tria_ →
          ∃ row, (triaLinear.EvalReferenceShapeFunctions demoPreprocessor.qr_tria_.Points)[i]?
              = some row ∧
            row[j]? = some (demoPreprocessor.rsf_quadpoints_tria_.coeff i j)) ∧
      (demoPreprocessor.qr_quad_ = vertexRules.make_QuadRule RefEl.kQuad
          (selectQuadOrder vertexRules triaLinear quadBilinear 0) ∧
        ∀ i j, i < demoPreprocessor.Nrsf_quad_ → j < demoPreprocessor.Nqp_quad_ →
          ∃ row, (quadBilinear.EvalReferenceShapeFunctions demoPreprocessor.qr_quad_.Points)[i]?
              = some row ∧
            row[j]? = some (demoPreprocessor.rsf_quadpoints_quad_.coeff i j))) ∧
      (demoPreprocessor.Nrsf_tria_ = triaLinear.NumRefShapeFunctions ∧
        demoPreprocessor.qr_tria_ = vertexRules.make_QuadRule RefEl.kTria
          (selectQuadOrder vertexRules triaLinear quadBilinear 0) ∧
        demoPreprocessor.Nqp_tria_ = (vertexRules.make_QuadRule RefEl.kTria
          (selectQuadOrder vertexRules triaLinear quadBilinear 0)).NumPoints ∧
        demoPreprocessor.Nrsf_quad_ = quadBilinear.NumRefShapeFunctions ∧
        demoPreprocessor.qr_quad_ = vertexRules.make_QuadRule RefEl.kQuad
          (selectQuadOrder vertexRules triaLinear quadBilinear 0) ∧
        demoPreprocessor.Nqp_quad_ = (vertexRules.make_QuadRule RefEl.kQuad
          (selectQuadOrder vertexRules triaLinear quadBilinear 0)).NumPoints)) :=
  ⟨rfl, value_cache_round_trip vertexRules triaLinear quadBilinear 0 demoPreprocessor rfl⟩

/-- Claim C6: after a successful construction, for each shape, every
quadrature-point index `i < Nqp` and every shape-function index `j < Nrsf`,
column `j` of the cached matrix `grad_quadpoint[i]` is column `i` of the
`j`-th matrix that `GradientsReferenceShapeFunctions` returns at the points of
the stored rule (both columns exist and are the same vector `v`).  Here `Nrsf`
is the count the element reports, the stored rule is the one fetched for the
shape and the selected order, and `Nqp` is its `NumPoints()`. -/
theorem gradient_cache_layout {R : Type} (ext : Externals R)
    (fe_tria fe_quad : ScalarReferenceFiniteElement R) (loc_quad_order : Nat)
    (P : LocCompLagrFEPreprocessor R)
    (h : (LocCompLagrFEPreprocessor.ctor ext fe_tria fe_quad loc_quad_order).result
      = Except.ok P) :
    ((∀ i j, i < P.Nqp_tria_ → j < P.Nrsf_tria_ →
        ∃ src dst v,
          (fe_tria.GradientsReferenceShapeFunctions P.qr_tria_.Points)[j]? = some src ∧
          P.grad_quadpoint_tria_[i]? = some dst ∧ src.col i = some v ∧ dst.col j = some v) ∧
    (∀ i j, i < P.Nqp_quad_ → j < P.Nrsf_quad_ →
        ∃ src dst v,
          (fe_quad.GradientsReferenceShapeFunctions P.qr_quad_.Points)[j]? = some src ∧
          P.grad_quadpoint_quad_[i]? = some dst ∧ src.col i = some v ∧ dst.col j = some v)) ∧
    (P.Nrsf_tria_ = fe_tria.NumRefShapeFunctions ∧
      P.qr_tria_ = ext.make_QuadRule RefEl.kTria
        (selectQuadOrder ext fe_tria fe_quad loc_quad_order) ∧
      P.Nqp_tria_ = (ext.make_QuadRule RefEl.kTria
        (selectQuadOrder ext fe_tria fe_quad loc_quad_order)).NumPoints ∧
      P.Nrsf_quad_ = fe_quad.NumRefShapeFunctions ∧
      P.qr_quad_ = ext.make_QuadRule RefEl.kQuad
        (selectQuadOrder ext fe_tria fe_quad loc_quad_order) ∧
      P.Nqp_quad_ = (ext.make_QuadRule RefEl.kQuad
        (selectQuadOrder ext fe_tria fe_quad loc_quad_order)).NumPoints) := by
  refine ⟨?_, ctor_ties ext fe_tria fe_quad loc_quad_order P h⟩
  obtain ⟨_, t, q, ht, hq, _, _, _, e1, e2, e3, _, e5, e6, e7, e8, _, e10⟩ :=
    ctor_result_ok ext fe_tria fe_quad loc_quad_order P h
  obtain ⟨_, _, _, _, ⟨_, _, tg⟩⟩ := block_facts_tria ext fe_tria _ t ht
  obtain ⟨_, _, _, _, ⟨_, _, qg⟩⟩ := block_facts_quad ext fe_quad _ q hq
  rw [e1, e2, e3, e5, e6, e7, e8, e10]
  exact ⟨tg, qg⟩

theorem gradient_cache_layout_witness :
    (LocCompLagrFEPreprocessor.ctor vertexRules triaLinear quadBilinear 0).result
        = Except.ok demoPreprocessor ∧
      (((∀ i j, i < demoPreprocessor.Nqp_tria_ → j < demoPreprocessor.Nrsf_tria_ →
          ∃ src dst v,
            (triaLinear.GradientsReferenceShapeFunctions demoPreprocessor.qr_tria_.Points)[j]?
              = some src ∧
            demoPreprocessor.grad_quadpoint_tria_[i]? = some dst ∧ src.col i = some v ∧
            dst.col j = some v) ∧
      (∀ i j, i < demoPreprocessor.Nqp_quad_ → j < demoPreprocessor.Nrsf_quad_ →
          ∃ src dst v,
            (quadBilinear.GradientsReferenceShapeFunctions demoPreprocessor.qr_quad_.Points)[j]?
              = some src ∧
            demoPreprocessor.grad_quadpoint_quad_[i]? = some dst ∧ src.col i = some v ∧
            dst.col j = some v)) ∧
      (demoPreprocessor.Nrsf_tria_ = triaLinear.NumRefShapeFunctions ∧
        demoPreprocessor.qr_tria_ = vertexRules.make_QuadRule RefEl.kTria
          (selectQuadOrder vertexRules triaLinear quadBilinear 0) ∧
        demoPreprocessor.Nqp_tria_ = (vertexRules.make_QuadRule RefEl.kTria
          (selectQuadOrder vertexRules triaLinear quadBilinear 0)).NumPoints ∧
        demoPreprocessor.Nrsf_quad_ = quadBilinear.NumRefShapeFunctions ∧
        demoPreprocessor.qr_quad_ = vertexRules.make_QuadRule RefEl.kQuad
          (selectQuadOrder vertexRules triaLinear quadBilinear 0) ∧
        demoPreprocessor.Nqp_quad_ = (vertexRules.make_QuadRule RefEl.kQuad
          (selectQuadOrder vertexRules triaLinear quadBilinear 0)).NumPoints)) :=
  ⟨rfl, gradient_cache_layout vertexRules triaLinear quadBilinear 0 demoPreprocessor rfl⟩

/-- Claim C7: after every successful construction, for each shape, the value
matrix has exactly `Nrsf` rows and `Nqp` columns, `Nqp` is `NumPoints()` of the
stored rule, the gradient cache holds exactly `Nqp` matrices, and each of them
has exactly 2 rows and `Nrsf` columns.  Here `Nrsf` is the count the element
reports and the stored rule is the one fetched for the shape and the selected
order. -/
theorem cache_shape_invariant {R : Type} (ext : Externals R)
    (fe_tria fe_quad : ScalarReferenceFiniteElement R) (loc_quad_order : Nat)
    (P : LocCompLagrFEPreprocessor R)
    (h : (LocCompLagrFEPreprocessor.ctor ext fe_tria fe_quad loc_quad_order).result
      = Except.ok P) :
    ((P.rsf_quadpoints_tria_.rows = P.Nrsf_tria_ ∧ P.rsf_quadpoints_tria_.cols = P.Nqp_tria_ ∧
      P.Nqp_tria_ = P.qr_tria_.NumPoints ∧ P.grad_quadpoint_tria_.length = P.Nqp_tria_ ∧
      ∀ d ∈ P.grad_quadpoint_tria_, d.rows = 2 ∧ d.cols = P.Nrsf_tria_) ∧
    (P.rsf_quadpoints_quad_.rows = P.Nrsf_quad_ ∧ P.rsf_quadpoints_quad_.cols = P.Nqp_quad_ ∧
      P.Nqp_quad_ = P.qr_quad_.NumPoints ∧ P.grad_quadpoint_quad_.length = P.Nqp_quad_ ∧
      ∀ d ∈ P.grad_quadpoint_quad_, d.rows = 2 ∧ d.cols = P.Nrsf_quad_)) ∧
    (P.Nrsf_tria_ = fe_tria.NumRefShapeFunctions ∧
      P.qr_tria_ = ext.make_QuadRule RefEl.kTria
        (selectQuadOrder ext fe_tria fe_quad loc_quad_order) ∧
      P.Nqp_tria_ = (ext.make_QuadRule RefEl.kTria
        (selectQuadOrder ext fe_tria fe_quad loc_quad_order)).NumPoints ∧
      P.Nrsf_quad_ = fe_quad.NumRefShapeFunctions ∧
      P.qr_quad_ = ext.make_QuadRule RefEl.kQuad
        (selectQuadOrder ext fe_tria fe_quad loc_quad_order) ∧
      P.Nqp_quad_ = (ext.make_QuadRule RefEl.kQuad
        (selectQuadOrder ext fe_tria fe_quad loc_quad_order)).NumPoints) := by
  refine ⟨?_, ctor_ties ext fe_tria fe_quad loc_quad_order P h⟩
  obtain ⟨_, t, q, ht, hq, _, _, _, e1, e2, e3, e4, e5, e6, e7, e8, e9, e10⟩ :=
    ctor_result_ok ext fe_tria fe_quad loc_quad_order P h
  obtain ⟨_, _, t3, ⟨t4, t5, _⟩, ⟨t6, t7, _⟩⟩ := block_facts_tria ext fe_tria _ t ht
  obtain ⟨_, _, q3, ⟨q4, q5, _⟩, ⟨q6, q7, _⟩⟩ := block_facts_quad ext fe_quad _ q hq
  rw [e1, e2, e3, e4, e5, e6, e7, e8, e9, e10]
  exact ⟨⟨t4, t5, t3, t6, t7⟩, ⟨q4, q5, q3, q6, q7⟩⟩

theorem cache_shape_invariant_witness :
    (LocCompLagrFEPreprocessor.ctor vertexRules triaLinear quadBilinear 0).result
        = Except.ok demoPreprocessor ∧
      (((demoPreprocessor.rsf_quadpoints_tria_.rows = demoPreprocessor.Nrsf_tria_ ∧
        demoPreprocessor.rsf_quadpoints_tria_.cols = demoPreprocessor.Nqp_tria_ ∧
        demoPreprocessor.Nqp_tria_ = demoPreprocessor.qr_tria_.NumPoints ∧
        demoPreprocessor.grad_quadpoint_tria_.length = demoPreprocessor.Nqp_tria_ ∧
        ∀ d ∈ demoPreprocessor.grad_quadpoint_tria_,
          d.rows = 2 ∧ d.cols = demoPreprocessor.Nrsf_tria_) ∧
      (demoPreprocessor.rsf_quadpoints_quad_.rows = demoPreprocessor.Nrsf_quad_ ∧
        demoPreprocessor.rsf_quadpoints_quad_.cols = demoPreprocessor.Nqp_quad_ ∧
        demoPreprocessor.Nqp_quad_ = demoPreprocessor.qr_quad_.NumPoints ∧
        demoPreprocessor.grad_quadpoint_quad_.length = demoPreprocessor.Nqp_quad_ ∧
        ∀ d ∈ demoPreprocessor.grad_quadpoint_quad_,
          d.rows = 2 ∧ d.cols = demoPreprocessor.Nrsf_quad_)) ∧
      (demoPreprocessor.Nrsf_tria_ = triaLinear.NumRefShapeFunctions ∧
        demoPreprocessor.qr_tria_ = vertexRules.make_QuadRule RefEl.kTria
          (selectQuadOrder vertexRules triaLinear quadBilinear 0) ∧
        demoPreprocessor.Nqp_tria_ = (vertexRules.make_QuadRule RefEl.kTria
          (selectQuadOrder vertexRules triaLinear quadBilinear 0)).NumPoints ∧
        demoPreprocessor.Nrsf_quad_ = quadBilinear.NumRefShapeFunctions ∧
        demoPreprocessor.qr_quad_ = vertexRules.make_QuadRule RefEl.kQuad
          (selectQuadOrder vertexRules triaLinear quadBilinear 0) ∧
        demoPreprocessor.Nqp_quad_ = (vertexRules.make_QuadRule RefEl.kQuad
          (selectQuadOrder vertexRules triaLinear quadBilinear 0)).NumPoints)) :=
  ⟨rfl, cache_shape_invariant vertexRules triaLinear quadBilinear 0 demoPreprocessor rfl⟩

/-- Claim C8: for every pair in which at least one element reports a
`Dimension()` different from 2, construction fails at the first assertion,
with the diagnostic "Implemented only in 2D!", and the log of collaborator
calls is empty: no quadrature rule has been fetched and no shape function has
been evaluated. -/
theorem dimension_mismatch_rejected {R : Type} (ext : Externals R)
    (fe_tria fe_quad : ScalarReferenceFiniteElement R) (loc_quad_order : Nat)
    (h : fe_tria.Dimension ≠ 2 ∨ fe_quad.Dimension ≠ 2) :
    LocCompLagrFEPreprocessor.ctor ext fe_tria fe_quad loc_quad_order =
      ⟨[], Except.error ⟨Site.dimension, [MsgItem.text "Implemented only in 2D!"]⟩⟩ := by
  apply ctor_of_checks_error
  have c1 : ((fe_tria.Dimension == 2) && (fe_quad.Dimension == 2)) = false := by
    rcases h with h | h <;> simp [h]
  unfold compatibilityChecks
  simp only [LF_ASSERT_MSG, c1, bind, Except.bind, Bool.false_eq_true, if_false]

theorem dimension_mismatch_rejected_witness :
    (segmentLinear.Dimension ≠ 2 ∨ quadBilinear.Dimension ≠ 2) ∧
      LocCompLagrFEPreprocessor.ctor vertexRules segmentLinear quadBilinear 0 =
        ⟨[], Except.error ⟨Site.dimension, [MsgItem.text "Implemented only in 2D!"]⟩⟩ :=
  ⟨by decide, dimension_mismatch_rejected vertexRules segmentLinear quadBilinear 0 (by decide)⟩

/-- Claim C9: for every pair in which at least one element reports a number
of shape functions assigned to a vertex, `NumRefShapeFunctions(2, 0)`,
different from 1 (0 included), construction fails, with an incompatible-space
error and before any collaborator is called. -/
theorem vertex_count_rejected {R : Type} (ext : Externals R)
    (fe_tria fe_quad : ScalarReferenceFiniteElement R) (loc_quad_order : Nat)
    (h : fe_tria.NumRefShapeFunctionsAt 2 0 ≠ 1 ∨ fe_quad.NumRefShapeFunctionsAt 2 0 ≠ 1) :
    ∃ e, LocCompLagrFEPreprocessor.ctor ext fe_tria fe_quad loc_quad_order
        = ⟨[], Except.error e⟩ ∧ IncompatibleSpaceError e := by
  apply checks_fail_of_not_ok
  intro hc
  have hv := ((compatibilityChecks_ok_iff fe_tria fe_quad).mp hc).2.2.1
  rcases h with h | h
  · exact h hv.1
  · exact h hv.2

theorem vertex_count_rejected_witness :
    (triaDiscontinuous.NumRefShapeFunctionsAt 2 0 ≠ 1 ∨
        quadBilinear.NumRefShapeFunctionsAt 2 0 ≠ 1) ∧
      ∃ e, LocCompLagrFEPreprocessor.ctor vertexRules triaDiscontinuous quadBilinear 0
          = ⟨[], Except.error e⟩ ∧ IncompatibleSpaceError e :=
  ⟨by decide, vertex_count_rejected vertexRules triaDiscontinuous quadBilinear 0 (by decide)⟩

/-- Claim C10: for either shape, if the number of value rows returned by
`EvalReferenceShapeFunctions`, or the number of gradient matrices returned by
`GradientsReferenceShapeFunctions`, at the points of the rule fetched for the
selected order, differs from the element's `NumRefShapeFunctions()`, then
construction fails: it does not produce an object. -/
theorem length_mismatch_rejected {R : Type} (ext : Externals R)
    (fe_tria fe_quad : ScalarReferenceFiniteElement R) (loc_quad_order : Nat)
    (h : (fe_tria.EvalReferenceShapeFunctions (ext.make_QuadRule RefEl.kTria
          (selectQuadOrder ext fe_tria fe_quad loc_quad_order)).Points).length
        ≠ fe_tria.NumRefShapeFunctions ∨
      (fe_tria.GradientsReferenceShapeFunctions (ext.make_QuadRule RefEl.kTria
          (selectQuadOrder ext fe_tria fe_quad loc_quad_order)).Points).length
        ≠ fe_tria.NumRefShapeFunctions ∨
      (fe_quad.EvalReferenceShapeFunctions (ext.make_QuadRule RefEl.kQuad
          (selectQuadOrder ext fe_tria fe_quad loc_quad_order)).Points).length
        ≠ fe_quad.NumRefShapeFunctions ∨
      (fe_quad.GradientsReferenceShapeFunctions (ext.make_QuadRule RefEl.kQuad
          (selectQuadOrder ext fe_tria fe_quad loc_quad_order)).Points).length
        ≠ fe_quad.NumRefShapeFunctions) :
    ∃ e, (LocCompLagrFEPreprocessor.ctor ext fe_tria fe_quad loc_quad_order).result
      = Except.error e := by
  rcases ctor_result_cases ext fe_tria fe_quad loc_quad_order with he | ⟨P, hP⟩
  · exact he
  · exfalso
    obtain ⟨_, t, q, ht, hq, _⟩ := ctor_result_ok ext fe_tria fe_quad loc_quad_order P hP
    obtain ⟨_, _, _, _, t1, t2, _, _⟩ := preprocessTria_result_ok ext fe_tria _ t ht
    obtain ⟨_, _, _, _, q1, q2, _, _⟩ := preprocessQuad_result_ok ext fe_quad _ q hq
    rcases h with h | h | h | h
    · exact h t1
    · exact h t2
    · exact h q1
    · exact h q2

theorem length_mismatch_rejected_witness :
    ((triaMiscounted.EvalReferenceShapeFunctions (vertexRules.make_QuadRule RefEl.kTria
          (selectQuadOrder vertexRules triaMiscounted quadBilinear 0)).Points).length
        ≠ triaMiscounted.NumRefShapeFunctions ∨
      (triaMiscounted.GradientsReferenceShapeFunctions (vertexRules.make_QuadRule RefEl.kTria
          (selectQuadOrder vertexRules triaMiscounted quadBilinear 0)).Points).length
        ≠ triaMiscounted.NumRefShapeFunctions ∨
      (quadBilinear.EvalReferenceShapeFunctions (vertexRules.make_QuadRule RefEl.kQuad
          (selectQuadOrder vertexRules triaMiscounted quadBilinear 0)).Points).length
        ≠ quadBilinear.NumRefShapeFunctions ∨
      (quadBilinear.GradientsReferenceShapeFunctions (vertexRules.make_QuadRule RefEl.kQuad
          (selectQuadOrder vertexRules triaMiscounted quadBilinear 0)).Points).length
        ≠ quadBilinear.NumRefShapeFunctions) ∧
      ∃ e, (LocCompLagrFEPreprocessor.ctor vertexRules triaMiscounted quadBilinear 0).result
        = Except.error e :=
  ⟨by decide, length_mismatch_rejected vertexRules triaMiscounted quadBilinear 0 (by decide)⟩

/-! ## Where a run can fail -/

theorem forFrom_error {σ ε : Type} (body : Nat → σ → Except ε σ) :
    ∀ (count start : Nat) (s : σ) (e : ε), forFrom body count start s = Except.error e →
      ∃ k t, body k t = Except.error e := by
  intro count
  induction count with
  | zero =>
    intro start s e h
    simp only [forFrom] at h
    cases h
  | succ n ih =>
    intro start s e h
    simp only [forFrom] at h
    cases hb : body start s with
    | error e' =>
      rw [hb] at h
      simp only [Except.error.injEq] at h
      subst h
      exact ⟨start, s, hb⟩
    | ok t =>
      rw [hb] at h
      exact ih (start + 1) t e h

theorem bind_error_iff {ε α β : Type} (x : Except ε α) (f : α → Except ε β) (e : ε) :
    (x >>= f) = Except.error e ↔
      x = Except.error e ∨ ∃ a, x = Except.ok a ∧ f a = Except.error e := by
  cases x <;> simp [bind, Except.bind]

theorem readAt_error {α : Type} (b : Block) (xs : List α) (i : Nat) (e : Abort)
    (h : readAt b xs i = Except.error e) : e = ⟨Site.indexRange b, []⟩ := by
  unfold readAt at h
  cases hx : xs[i]? with
  | none => rw [hx] at h; simp only [Except.error.injEq] at h; exact h.symm
  | some x => rw [hx] at h; cases h

theorem checked_error {α : Type} (b : Block) (r : Option α) (e : Abort)
    (h : checked b r = Except.error e) : e = ⟨Site.indexRange b, []⟩ := by
  unfold checked at h
  cases r with
  | none => simp only [Except.error.injEq] at h; exact h.symm
  | some x => cases h

theorem storeRow_error {R : Type} (b : Block) (row : List R) (i Nqp : Nat) (m : Mat R)
    (e : Abort) (h : storeRow b row i Nqp m = Except.error e) :
    e = ⟨Site.indexRange b, []⟩ := by
  obtain ⟨k, t, hb⟩ := forFrom_error _ Nqp 0 m e h
  rw [bind_error_iff] at hb
  rcases hb with hb | ⟨v, _, hb⟩
  · exact readAt_error b row k e hb
  · cases hb

theorem storeValues_error {R : Type} (b : Block) (rsf_val : List (List R)) (Nrsf Nqp : Nat)
    (m : Mat R) (e : Abort) (h : storeValues b rsf_val Nrsf Nqp m = Except.error e) :
    e.site = Site.rowLength b ∨ e.site = Site.indexRange b := by
  obtain ⟨k, t, hb⟩ := forFrom_error _ Nrsf 0 m e h
  rw [bind_error_iff] at hb
  rcases hb with hb | ⟨row, _, hb⟩
  · rw [readAt_error b rsf_val k e hb]
    exact Or.inr rfl
  · rw [bind_error_iff] at hb
    rcases hb with hb | ⟨u, _, hb⟩
    · rw [LF_ASSERT_MSG_error_iff] at hb
      rw [hb.2]
      exact Or.inl rfl
    · rw [storeRow_error b row k Nqp t e hb]
      exact Or.inr rfl

theorem storeGradientsAt_error {R : Type} (b : Block) (rsf_grad : List (Mat R)) (Nrsf i : Nat)
    (g : List (Mat R)) (e : Abort) (h : storeGradientsAt b rsf_grad Nrsf i g = Except.error e) :
    e = ⟨Site.indexRange b, []⟩ := by
  obtain ⟨k, t, hb⟩ := forFrom_error _ Nrsf 0 g e h
  rw [bind_error_iff] at hb
  rcases hb with hb | ⟨src, _, hb⟩
  · exact readAt_error b _ _ e hb
  · rw [bind_error_iff] at hb
    rcases hb with hb | ⟨v, _, hb⟩
    · exact checked_error b _ e hb
    · rw [bind_error_iff] at hb
      rcases hb with hb | ⟨dst, _, hb⟩
      · exact readAt_error b _ _ e hb
      · rw [bind_error_iff] at hb
        rcases hb with hb | ⟨dst', _, hb⟩
        · exact checked_error b _ e hb
        · cases hb

theorem storeGradients_error {R : Type} (b : Block) (rsf_grad : List (Mat R)) (Nrsf Nqp : Nat)
    (g : List (Mat R)) (e : Abort) (h : storeGradients b rsf_grad Nrsf Nqp g = Except.error e) :
    e = ⟨Site.indexRange b, []⟩ := by
  obtain ⟨k, t, hb⟩ := forFrom_error _ Nqp 0 g e h
  exact storeGradientsAt_error b rsf_grad Nrsf k t e hb

theorem preprocessTria_result_error {R : Type} (ext : Externals R)
    (fe : ScalarReferenceFiniteElement R) (q : Nat) (e : Abort)
    (h : (preprocessTria ext fe q).result = Except.error e) :
    e.site = Site.valueLength Block.tria ∨ e.site = Site.rowLength Block.tria ∨
      e.site = Site.gradLength Block.tria ∨ e.site = Site.indexRange Block.tria := by
  unfold preprocessTria at h
  simp only at h
  split at h
  · rename_i e1 h1
    simp only [Except.error.injEq] at h
    subst h
    rw [bind_error_iff] at h1
    rcases h1 with h1 | ⟨u, _, h1⟩
    · rw [LF_ASSERT_MSG_error_iff] at h1
      rw [h1.2]
      exact Or.inl rfl
    · rcases storeValues_error _ _ _ _ _ _ h1 with h2 | h2
      · exact Or.inr (Or.inl h2)
      · exact Or.inr (Or.inr (Or.inr h2))
  · split at h
    · rename_i e2 h2
      simp only [Except.error.injEq] at h
      subst h
      rw [bind_error_iff] at h2
      rcases h2 with h2 | ⟨u, _, h2⟩
      · rw [LF_ASSERT_MSG_error_iff] at h2
        rw [h2.2]
        exact Or.inr (Or.inr (Or.inl rfl))
      · rw [storeGradients_error _ _ _ _ _ _ h2]
        exact Or.inr (Or.inr (Or.inr rfl))
    · cases h

theorem preprocessQuad_result_error {R : Type} (ext : Externals R)
    (fe : ScalarReferenceFiniteElement R) (q : Nat) (e : Abort)
    (h : (preprocessQuad ext fe q).result = Except.error e) :
    e.site = Site.valueLength Block.quad ∨ e.site = Site.rowLength Block.quad ∨
      e.site = Site.gradLength Block.quad ∨ e.site = Site.indexRange Block.quad := by
  unfold preprocessQuad at h
  simp only at h
  split at h
  · rename_i e1 h1
    simp only [Except.error.injEq] at h
    subst h
    rw [bind_error_iff] at h1
    rcases h1 with h1 | ⟨u, _, h1⟩
    · rw [LF_ASSERT_MSG_error_iff] at h1
      rw [h1.2]
      exact Or.inl rfl
    · rcases storeValues_error _ _ _ _ _ _ h1 with h2 | h2
      · exact Or.inr (Or.inl h2)
      · exact Or.inr (Or.inr (Or.inr h2))
  · split at h
    · rename_i e2 h2
      simp only [Except.error.injEq] at h
      subst h
      rw [bind_error_iff] at h2
      rcases h2 with h2 | ⟨u, _, h2⟩
      · rw [LF_ASSERT_MSG_error_iff] at h2
        rw [h2.2]
        exact Or.inr (Or.inr (Or.inl rfl))
      · rw [storeGradients_error _ _ _ _ _ _ h2]
        exact Or.inr (Or.inr (Or.inr rfl))
    · cases h

theorem ctor_result_error {R : Type} (ext : Externals R)
    (ft fq : ScalarReferenceFiniteElement R) (loc : Nat) (e : Abort)
    (h : (LocCompLagrFEPreprocessor.ctor ext ft fq loc).result = Except.error e) :
    compatibilityChecks ft fq = Except.error e ∨
      (compatibilityChecks ft fq = Except.ok () ∧
        ((preprocessTria ext ft (selectQuadOrder ext ft fq loc)).result = Except.error e ∨
          ((∃ t, (preprocessTria ext ft (selectQuadOrder ext ft fq loc)).result = Except.ok t) ∧
            (preprocessQuad ext fq (selectQuadOrder ext ft fq loc)).result
              = Except.error e))) := by
  cases hc : compatibilityChecks ft fq with
  | error e' =>
    rw [ctor_of_checks_error ext ft fq loc e' hc] at h
    simp only [Except.error.injEq] at h
    subst h
    exact Or.inl rfl
  | ok u =>
    refine Or.inr ⟨rfl, ?_⟩
    cases ht : preprocessTria ext ft (selectQuadOrder ext ft fq loc) with
    | mk c1 r1 =>
      cases r1 with
      | error e' =>
        rw [ctor_of_tria_error ext ft fq loc c1 e' hc ht] at h
        simp only [Except.error.injEq] at h
        subst h
        exact Or.inl rfl
      | ok t =>
        cases hq : preprocessQuad ext fq (selectQuadOrder ext ft fq loc) with
        | mk c2 r2 =>
          cases r2 with
          | error e' =>
            rw [ctor_of_quad_error ext ft fq loc c1 c2 t e' hc ht hq] at h
            simp only [Except.error.injEq] at h
            subst h
            exact Or.inr ⟨⟨t, rfl⟩, rfl⟩
          | ok q =>
            rw [ctor_of_blocks_ok ext ft fq loc c1 c2 t q hc ht hq] at h
            cases h

theorem blockFailure_not_incompatible (e : Abort) (h : BlockFailure e) :
    ¬ IncompatibleSpaceError e := by
  obtain ⟨b, hb⟩ := h
  unfold IncompatibleSpaceError
  rcases hb with hb | hb | hb | hb <;> rw [hb] <;> simp

theorem ctor_error_cases {R : Type} (ext : Externals R)
    (ft fq : ScalarReferenceFiniteElement R) (loc : Nat) (e : Abort)
    (h : (LocCompLagrFEPreprocessor.ctor ext ft fq loc).result = Except.error e) :
    (compatibilityChecks ft fq = Except.error e ∧ IncompatibleSpaceError e) ∨
      (compatibilityChecks ft fq = Except.ok () ∧ BlockFailure e) := by
  rcases ctor_result_error ext ft fq loc e h with hc | ⟨hc, ht | ⟨_, hq⟩⟩
  · exact Or.inl ⟨hc, compatibilityChecks_error ft fq e hc⟩
  · exact Or.inr ⟨hc, Block.tria, preprocessTria_result_error ext ft _ e ht⟩
  · exact Or.inr ⟨hc, Block.quad, preprocessQuad_result_error ext fq _ e hq⟩

theorem compatibilityChecks_error_msg {R : Type} (ft fq : ScalarReferenceFiniteElement R)
    (e : Abort) (h : compatibilityChecks ft fq = Except.error e) :
    e = ⟨Site.dimension, [MsgItem.text "Implemented only in 2D!"]⟩ ∨
      e = ⟨Site.refEl, [MsgItem.text "Unexpected type of reference cell"]⟩ ∨
      e = ⟨Site.vertexCount,
        [MsgItem.text "Exactly one shape function must be assigned to each vertex"]⟩ ∨
      e = ⟨Site.edgeCount,
        [MsgItem.text "#RSF mismatch on edges ", MsgItem.num (ft.NumRefShapeFunctionsAt 1 0),
          MsgItem.text " <-> ", MsgItem.num (fq.NumRefShapeFunctionsAt 1 0)]⟩ := by
  unfold compatibilityChecks at h
  cases c1 : ((ft.Dimension == 2) && (fq.Dimension == 2)) <;>
    cases c2 : ((ft.RefEl == RefEl.kTria) || (fq.RefEl == RefEl.kQuad)) <;>
    cases c3 : ((ft.NumRefShapeFunctionsAt 2 0 == 1) && (fq.NumRefShapeFunctionsAt 2 0 == 1)) <;>
    cases c4 : (ft.NumRefShapeFunctionsAt 1 0 == fq.NumRefShapeFunctionsAt 1 0) <;>
    simp only [LF_ASSERT_MSG, bind, Except.bind, c1, c2, c3, c4, if_true, if_false,
      Bool.false_eq_true, Except.error.injEq] at h <;>
    first
      | (subst h; simp)
      | cases h

/-- Claim C13 as stated fails: the dimension failure of the pair
(`segmentLinear`, `quadBilinear`) carries the fixed text "Implemented only in
2D!", which contains neither of the two dimensions 1 and 2; the vertex-count
failure of the pair (`triaDiscontinuous`, `quadBilinear`) carries a fixed text
that contains neither of the two vertex counts 0 and 1. -/
theorem diagnostics_without_values :
    (LocCompLagrFEPreprocessor.ctor vertexRules segmentLinear quadBilinear 0).failure? =
        some ⟨Site.dimension, [MsgItem.text "Implemented only in 2D!"]⟩ ∧
      segmentLinear.Dimension = 1 ∧ quadBilinear.Dimension = 2 ∧
      ¬ (Abort.mk Site.dimension [MsgItem.text "Implemented only in 2D!"]).mentions 1 ∧
      ¬ (Abort.mk Site.dimension [MsgItem.text "Implemented only in 2D!"]).mentions 2 ∧
      (LocCompLagrFEPreprocessor.ctor vertexRules triaDiscontinuous quadBilinear 0).failure? =
        some ⟨Site.vertexCount,
          [MsgItem.text "Exactly one shape function must be assigned to each vertex"]⟩ ∧
      triaDiscontinuous.NumRefShapeFunctionsAt 2 0 = 0 ∧
      quadBilinear.NumRefShapeFunctionsAt 2 0 = 1 ∧
      ¬ (Abort.mk Site.vertexCount
        [MsgItem.text "Exactly one shape function must be assigned to each vertex"]).mentions 0 ∧
      ¬ (Abort.mk Site.vertexCount
        [MsgItem.text "Exactly one shape function must be assigned to each vertex"]).mentions 1 := by
  decide

/-- Claim C13, amended: an incompatible-space failure at the edge-count
assertion carries the diagnostic "#RSF mismatch on edges a <-> b" that contains
the two edge counts `a` and `b`; an incompatible-space failure at the
dimension, the reference-shape or the vertex-count assertion carries the fixed
text of that assertion, which contains no value. -/
theorem incompatible_space_diagnostics {R : Type} (ext : Externals R)
    (fe_tria fe_quad : ScalarReferenceFiniteElement R) (loc_quad_order : Nat) (e : Abort)
    (h : (LocCompLagrFEPreprocessor.ctor ext fe_tria fe_quad loc_quad_order).result
      = Except.error e)
    (hi : IncompatibleSpaceError e) :
    (e.site = Site.edgeCount →
      e.msg = [MsgItem.text "#RSF mismatch on edges ",
        MsgItem.num (fe_tria.NumRefShapeFunctionsAt 1 0), MsgItem.text " <-> ",
        MsgItem.num (fe_quad.NumRefShapeFunctionsAt 1 0)] ∧
      e.mentions (fe_tria.NumRefShapeFunctionsAt 1 0) ∧
      e.mentions (fe_quad.NumRefShapeFunctionsAt 1 0)) ∧
    (e.site = Site.dimension → e.msg = [MsgItem.text "Implemented only in 2D!"]) ∧
    (e.site = Site.refEl → e.msg = [MsgItem.text "Unexpected type of reference cell"]) ∧
    (e.site = Site.vertexCount →
      e.msg = [MsgItem.text "Exactly one shape function must be assigned to each vertex"]) ∧
    (e.site ≠ Site.edgeCount → ∀ n, ¬ e.mentions n) := by
  have hc : compatibilityChecks fe_tria fe_quad = Except.error e := by
    rcases ctor_error_cases ext fe_tria fe_quad loc_quad_order e h with ⟨hc, _⟩ | ⟨_, hb⟩
    · exact hc
    · exact absurd hi (blockFailure_not_incompatible e hb)
  rcases compatibilityChecks_error_msg fe_tria fe_quad e hc with he | he | he | he <;>
    subst he <;> simp [Abort.mentions]

theorem incompatible_space_diagnostics_witness :
    (LocCompLagrFEPreprocessor.ctor vertexRules triaQuadratic quadBilinear 0).result
        = Except.error ⟨Site.edgeCount, [MsgItem.text "#RSF mismatch on edges ", MsgItem.num 1,
          MsgItem.text " <-> ", MsgItem.num 0]⟩ ∧
      IncompatibleSpaceError ⟨Site.edgeCount, [MsgItem.text "#RSF mismatch on edges ",
        MsgItem.num 1, MsgItem.text " <-> ", MsgItem.num 0]⟩ ∧
      (Abort.mk Site.edgeCount [MsgItem.text "#RSF mismatch on edges ", MsgItem.num 1,
          MsgItem.text " <-> ", MsgItem.num 0]).mentions
        (triaQuadratic.NumRefShapeFunctionsAt 1 0) ∧
      (Abort.mk Site.edgeCount [MsgItem.text "#RSF mismatch on edges ", MsgItem.num 1,
          MsgItem.text " <-> ", MsgItem.num 0]).mentions
        (quadBilinear.NumRefShapeFunctionsAt 1 0) :=
  ⟨rfl, by decide,
    ((incompatible_space_diagnostics vertexRules triaQuadratic quadBilinear 0
      ⟨Site.edgeCount, [MsgItem.text "#RSF mismatch on edges ", MsgItem.num 1,
        MsgItem.text " <-> ", MsgItem.num 0]⟩ rfl (by decide)).1 rfl).2⟩

theorem forFrom_rel {σ τ ε : Type} (body : Nat → σ → Except ε σ) (body' : Nat → τ → Except ε τ)
    (Rel : σ → τ → Prop)
    (hstep : ∀ k s s', Rel s s' → ExceptRel Rel (body k s) (body' k s')) :
    ∀ (count start : Nat) (s : σ) (s' : τ), Rel s s' →
      ExceptRel Rel (forFrom body count start s) (forFrom body' count start s') := by
  intro count
  induction count with
  | zero =>
    intro start s s' h
    exact h
  | succ n ih =>
    intro start s s' h
    have hk := hstep start s s' h
    simp only [forFrom]
    cases hb : body start s with
    | error e =>
      cases hb' : body' start s' with
      | error e' =>
        rw [hb, hb'] at hk
        exact hk
      | ok t' =>
        rw [hb, hb'] at hk
        exact hk.elim
    | ok t =>
      cases hb' : body' start s' with
      | error e' =>
        rw [hb, hb'] at hk
        exact hk.elim
      | ok t' =>
        rw [hb, hb'] at hk
        exact ih (start + 1) t t' hk

theorem exceptRel_bind {ε α γ δ : Type} (Rel : γ → δ → Prop) (x : Except ε α)
    (f : α → Except ε γ) (f' : α → Except ε δ)
    (h : ∀ a, x = Except.ok a → ExceptRel Rel (f a) (f' a)) :
    ExceptRel Rel (x >>= f) (x >>= f') := by
  cases x with
  | error e => exact rfl
  | ok a => exact h a rfl

theorem storeRow_rel {R : Type} (b : Block) (row : List R) (i Nqp : Nat) (m m' : Mat R) :
    ExceptRel (fun _ _ => True) (storeRow b row i Nqp m) (storeRow b row i Nqp m') := by
  apply forFrom_rel _ _ (fun _ _ => True)
  · intro k s s' _
    refine exceptRel_bind _ _ _ _ ?_
    intro v _
    trivial
  · trivial

theorem storeValues_rel {R : Type} (b : Block) (rsf_val : List (List R)) (Nrsf Nqp : Nat)
    (m m' : Mat R) :
    ExceptRel (fun _ _ => True) (storeValues b rsf_val Nrsf Nqp m)
      (storeValues b rsf_val Nrsf Nqp m') := by
  apply forFrom_rel _ _ (fun _ _ => True)
  · intro k s s' _
    refine exceptRel_bind _ _ _ _ ?_
    intro row _
    refine exceptRel_bind _ _ _ _ ?_
    intro u _
    exact storeRow_rel b row k Nqp s s'
  · trivial

theorem assignCol_rel {R : Type} (d d' : Mat R) (j : Nat) (v : List R)
    (hr : d'.rows = d.rows) (hc : d'.cols = d.cols) :
    (d.assignCol j v = none ∧ d'.assignCol j v = none) ∨
      ∃ x x', d.assignCol j v = some x ∧ d'.assignCol j v = some x' ∧
        x.dims = d.dims ∧ x'.dims = d'.dims := by
  by_cases hcond : j < d.cols ∧ v.length = d.rows
  · have hcond' : j < d'.cols ∧ v.length = d'.rows := by rw [hr, hc]; exact hcond
    right
    unfold Mat.assignCol
    rw [if_pos hcond, if_pos hcond']
    exact ⟨_, _, rfl, rfl, rfl, rfl⟩
  · have hcond' : ¬ (j < d'.cols ∧ v.length = d'.rows) := by rw [hr, hc]; exact hcond
    left
    unfold Mat.assignCol
    rw [if_neg hcond, if_neg hcond']
    exact ⟨rfl, rfl⟩

theorem getElem?_none_of_map_dims {R : Type} {g g' : List (Mat R)}
    (h : g.map Mat.dims = g'.map Mat.dims) (i : Nat) (hi : g[i]? = none) : g'[i]? = none := by
  have hlen : g.length = g'.length := by
    have := congrArg List.length h
    simpa using this
  rw [List.getElem?_eq_none_iff] at hi ⊢
  omega

theorem storeGradientsAt_rel {R : Type} (b : Block) (rsf_grad : List (Mat R)) (Nrsf i : Nat)
    (g g' : List (Mat R)) (h : g.map Mat.dims = g'.map Mat.dims) :
    ExceptRel (fun x x' => x.map Mat.dims = x'.map Mat.dims)
      (storeGradientsAt b rsf_grad Nrsf i g) (storeGradientsAt b rsf_grad Nrsf i g') := by
  refine forFrom_rel _ _ (fun (x x' : List (Mat R)) => x.map Mat.dims = x'.map Mat.dims) ?_
    Nrsf 0 g g' h
  · intro k s s' hrel
    refine exceptRel_bind _ _ _ _ ?_
    intro src _
    refine exceptRel_bind _ _ _ _ ?_
    intro v _
    cases hs : s[i]? with
    | none =>
      have hs' := getElem?_none_of_map_dims hrel i hs
      simp only [readAt, hs, hs', bind, Except.bind, ExceptRel]
    | some d =>
      obtain ⟨d', hd', hr, hc⟩ := dims_at hrel.symm i d hs
      rcases assignCol_rel d d' k v hr hc with ⟨h1, h2⟩ | ⟨x, x', h1, h2, h3, h4⟩
      · simp only [readAt, hs, hd', bind, Except.bind, checked, h1, h2, ExceptRel]
      · simp only [readAt, hs, hd', bind, Except.bind, checked, h1, h2, ExceptRel, pure,
          Except.pure]
        rw [map_dims_set s i d x hs h3, map_dims_set s' i d' x' hd' h4]
        exact hrel

theorem storeGradients_rel {R : Type} (b : Block) (rsf_grad : List (Mat R)) (Nrsf Nqp : Nat)
    (g g' : List (Mat R)) (h : g.map Mat.dims = g'.map Mat.dims) :
    ExceptRel (fun x x' => x.map Mat.dims = x'.map Mat.dims)
      (storeGradients b rsf_grad Nrsf Nqp g) (storeGradients b rsf_grad Nrsf Nqp g') := by
  refine forFrom_rel _ _ (fun (x x' : List (Mat R)) => x.map Mat.dims = x'.map Mat.dims) ?_
    Nqp 0 g g' h
  intro k s s' hrel
  exact storeGradientsAt_rel b rsf_grad Nrsf k s s' hrel

theorem cacheFor_of_value_error {R : Type} (ext : Externals R)
    (fe : ScalarReferenceFiniteElement R) (shape : Block) (q : Nat) (e : Abort)
    (h : valueStage shape ext.uninit fe (ext.make_QuadRule shape.refEl q) = Except.error e) :
    cacheFor ext fe shape q =
      ⟨[Call.make_QuadRule shape.refEl q, Call.EvalReferenceShapeFunctions shape],
        Except.error e⟩ := by
  unfold valueStage at h
  unfold cacheFor
  simp only [h]
  rfl

theorem cacheFor_of_gradient_error {R : Type} (ext : Externals R)
    (fe : ScalarReferenceFiniteElement R) (shape : Block) (q : Nat) (m : Mat R) (e : Abort)
    (hm : valueStage shape ext.uninit fe (ext.make_QuadRule shape.refEl q) = Except.ok m)
    (hg : gradientStage shape ext.uninit fe (ext.make_QuadRule shape.refEl q)
      = Except.error e) :
    cacheFor ext fe shape q =
      ⟨[Call.make_QuadRule shape.refEl q, Call.EvalReferenceShapeFunctions shape,
        Call.GradientsReferenceShapeFunctions shape], Except.error e⟩ := by
  unfold valueStage at hm
  unfold gradientStage at hg
  unfold cacheFor
  simp only [hm, hg]
  rfl

theorem cacheFor_of_stages_ok {R : Type} (ext : Externals R)
    (fe : ScalarReferenceFiniteElement R) (shape : Block) (q : Nat) (m : Mat R)
    (g : List (Mat R))
    (hm : valueStage shape ext.uninit fe (ext.make_QuadRule shape.refEl q) = Except.ok m)
    (hg : gradientStage shape ext.uninit fe (ext.make_QuadRule shape.refEl q) = Except.ok g) :
    cacheFor ext fe shape q =
      ⟨[Call.make_QuadRule shape.refEl q, Call.EvalReferenceShapeFunctions shape,
        Call.GradientsReferenceShapeFunctions shape],
        Except.ok ⟨fe.NumRefShapeFunctions, ext.make_QuadRule shape.refEl q,
          (ext.make_QuadRule shape.refEl q).NumPoints, m, g⟩⟩ := by
  unfold valueStage at hm
  unfold gradientStage at hg
  unfold cacheFor
  simp only [hm, hg]
  rfl

theorem valueStage_rel {R : Type} (b : Block) (u u' : Nat → Nat → R)
    (fe : ScalarReferenceFiniteElement R) (qr : QuadRule R) :
    ExceptRel (fun _ _ => True) (valueStage b u fe qr) (valueStage b u' fe qr) := by
  unfold valueStage
  refine exceptRel_bind _ _ _ _ ?_
  intro _ _
  exact storeValues_rel b _ _ _ _ _

theorem gradientStage_rel {R : Type} (b : Block) (u u' : Nat → Nat → R)
    (fe : ScalarReferenceFiniteElement R) (qr : QuadRule R) :
    ExceptRel (fun (x x' : List (Mat R)) => x.map Mat.dims = x'.map Mat.dims)
      (gradientStage b u fe qr) (gradientStage b u' fe qr) := by
  unfold gradientStage
  refine exceptRel_bind _ _ _ _ ?_
  intro _ _
  apply storeGradients_rel
  simp [Mat.resize, Mat.dims]

theorem col_eq_coeff {R : Type} (m m' : Mat R) (j : Nat) (v : List R)
    (h : m.col j = some v) (h' : m'.col j = some v) :
    ∀ r, r < m.rows → m.coeff r j = m'.coeff r j := by
  intro r hr
  have hl := (col_length m j v h).1
  have hl' := (col_length m' j v h').1
  unfold Mat.col at h h'
  split at h
  · split at h'
    · simp only [Option.some.injEq] at h h'
      have e1 : v[r]? = some (m.coeff r j) := by
        rw [← h]
        simp [List.getElem?_map, List.getElem?_range hr]
      have hr' : r < m'.rows := by omega
      have e2 : v[r]? = some (m'.coeff r j) := by
        rw [← h']
        simp [List.getElem?_map, List.getElem?_range hr']
      rw [e1] at e2
      simpa using e2
    · cases h'
  · cases h

theorem stages_same {R : Type} (b : Block) (u u' : Nat → Nat → R)
    (fe : ScalarReferenceFiniteElement R) (qr : QuadRule R) (m m' : Mat R)
    (g g' : List (Mat R))
    (hm : valueStage b u fe qr = Except.ok m) (hm' : valueStage b u' fe qr = Except.ok m')
    (hg : gradientStage b u fe qr = Except.ok g)
    (hg' : gradientStage b u' fe qr = Except.ok g') :
    m.agrees m' ∧ sameMatrices g g' := by
  unfold valueStage at hm hm'
  unfold gradientStage at hg hg'
  rw [bind_ok_iff] at hm hm' hg hg'
  obtain ⟨_, _, hm⟩ := hm
  obtain ⟨_, _, hm'⟩ := hm'
  obtain ⟨_, _, hg⟩ := hg
  obtain ⟨_, _, hg'⟩ := hg'
  obtain ⟨⟨r1, c1, v1⟩, ⟨l1, s1, g1⟩⟩ := cache_facts b u fe qr m g hm hg
  obtain ⟨⟨r2, c2, v2⟩, ⟨l2, s2, g2⟩⟩ := cache_facts b u' fe qr m' g' hm' hg'
  refine ⟨⟨r1.trans r2.symm, c1.trans c2.symm, ?_⟩, ⟨l1.trans l2.symm, ?_⟩⟩
  · intro i j hi hj
    obtain ⟨row, h1, h2⟩ := v1 i j (by omega) (by omega)
    obtain ⟨row', h1', h2'⟩ := v2 i j (by omega) (by omega)
    rw [h1] at h1'
    simp only [Option.some.injEq] at h1'
    subst h1'
    rw [h2] at h2'
    simpa using h2'
  · intro i d d' hd hd'
    have hmem : d ∈ g := List.getElem?_mem hd
    have hmem' : d' ∈ g' := List.getElem?_mem hd'
    obtain ⟨dr, dc⟩ := s1 d hmem
    obtain ⟨dr', dc'⟩ := s2 d' hmem'
    refine ⟨dr.trans dr'.symm, dc.trans dc'.symm, ?_⟩
    intro r j hr hj
    have hi : i < qr.NumPoints := by
      rcases Nat.lt_or_ge i g.length with hlt | hge
      · omega
      · rw [List.getElem?_eq_none hge] at hd; cases hd
    obtain ⟨src, dst, v, a1, a2, a3, a4⟩ := g1 i j hi (by omega)
    obtain ⟨src', dst', v', b1, b2, b3, b4⟩ := g2 i j hi (by omega)
    rw [hd] at a2
    rw [hd'] at b2
    simp only [Option.some.injEq] at a2 b2
    subst a2
    subst b2
    rw [a1] at b1
    simp only [Option.some.injEq] at b1
    subst b1
    rw [a3] at b3
    simp only [Option.some.injEq] at b3
    subst b3
    exact col_eq_coeff d d' j v a4 b4 r hr

theorem cacheFor_rel {R : Type} (ext ext' : Externals R)
    (hmk : ext'.make_QuadRule = ext.make_QuadRule) (fe : ScalarReferenceFiniteElement R)
    (shape : Block) (q : Nat) :
    (cacheFor ext fe shape q).calls = (cacheFor ext' fe shape q).calls ∧
      ExceptRel ShapeFunctionCache.same (cacheFor ext fe shape q).result
        (cacheFor ext' fe shape q).result := by
  have hv := valueStage_rel shape ext.uninit ext'.uninit fe (ext.make_QuadRule shape.refEl q)
  have hg := gradientStage_rel shape ext.uninit ext'.uninit fe
    (ext.make_QuadRule shape.refEl q)
  cases hm : valueStage shape ext.uninit fe (ext.make_QuadRule shape.refEl q) with
  | error e =>
    cases hm' : valueStage shape ext'.uninit fe (ext.make_QuadRule shape.refEl q) with
    | ok m' => rw [hm, hm'] at hv; exact hv.elim
    | error e' =>
      rw [hm, hm'] at hv
      have hm'' : valueStage shape ext'.uninit fe (ext'.make_QuadRule shape.refEl q)
          = Except.error e' := by rw [hmk]; exact hm'
      rw [cacheFor_of_value_error ext fe shape q e hm,
        cacheFor_of_value_error ext' fe shape q e' hm'']
      exact ⟨rfl, hv⟩
  | ok m =>
    cases hm' : valueStage shape ext'.uninit fe (ext.make_QuadRule shape.refEl q) with
    | error e' => rw [hm, hm'] at hv; exact hv.elim
    | ok m' =>
      have hm'' : valueStage shape ext'.uninit fe (ext'.make_QuadRule shape.refEl q)
          = Except.ok m' := by rw [hmk]; exact hm'
      cases hgr : gradientStage shape ext.uninit fe (ext.make_QuadRule shape.refEl q) with
      | error e =>
        cases hgr' : gradientStage shape ext'.uninit fe (ext.make_QuadRule shape.refEl q) with
        | ok g' => rw [hgr, hgr'] at hg; exact hg.elim
        | error e' =>
          rw [hgr, hgr'] at hg
          have hgr'' : gradientStage shape ext'.uninit fe (ext'.make_QuadRule shape.refEl q)
              = Except.error e' := by rw [hmk]; exact hgr'
          rw [cacheFor_of_gradient_error ext fe shape q m e hm hgr,
            cacheFor_of_gradient_error ext' fe shape q m' e' hm'' hgr'']
          exact ⟨rfl, hg⟩
      | ok g =>
        cases hgr' : gradientStage shape ext'.uninit fe (ext.make_QuadRule shape.refEl q) with
        | error e' => rw [hgr, hgr'] at hg; exact hg.elim
        | ok g' =>
          have hgr'' : gradientStage shape ext'.uninit fe (ext'.make_QuadRule shape.refEl q)
              = Except.ok g' := by rw [hmk]; exact hgr'
          rw [cacheFor_of_stages_ok ext fe shape q m g hm hgr,
            cacheFor_of_stages_ok ext' fe shape q m' g' hm'' hgr'']
          obtain ⟨h1, h2⟩ := stages_same shape ext.uninit ext'.uninit fe _ m m' g g' hm hm'
            hgr hgr'
          refine ⟨rfl, rfl, ?_, ?_, h1, h2⟩
          · show ext.make_QuadRule shape.refEl q = ext'.make_QuadRule shape.refEl q
            rw [hmk]
          · show (ext.make_QuadRule shape.refEl q).NumPoints
              = (ext'.make_QuadRule shape.refEl q).NumPoints
            rw [hmk]

theorem cacheFor_congr {R : Type} (ext : Externals R) (fe fe' : ScalarReferenceFiniteElement R)
    (shape : Block) (q : Nat)
    (h : AgreeOn fe fe' (ext.make_QuadRule shape.refEl q).Points) :
    cacheFor ext fe' shape q = cacheFor ext fe shape q := by
  obtain ⟨_, _, _, h4, _, _, h7, h8⟩ := h
  unfold cacheFor
  simp only [h4, h7, h8]

theorem compatibilityChecks_congr {R : Type} (ft fq ft' fq' : ScalarReferenceFiniteElement R)
    (pt pq : List (List R)) (ht : AgreeOn ft ft' pt) (hq : AgreeOn fq fq' pq) :
    compatibilityChecks ft' fq' = compatibilityChecks ft fq := by
  obtain ⟨t1, t2, _, _, t5, t6, _, _⟩ := ht
  obtain ⟨q1, q2, _, _, q5, q6, _, _⟩ := hq
  unfold compatibilityChecks
  simp only [t1, t2, t5, t6, q1, q2, q5, q6]

theorem selectQuadOrder_congr {R : Type} (ext ext' : Externals R)
    (hbits : ext'.quadOrderBits = ext.quadOrderBits)
    (ft fq ft' fq' : ScalarReferenceFiniteElement R) (loc : Nat)
    (pt pq : List (List R)) (ht : AgreeOn ft ft' pt) (hq : AgreeOn fq fq' pq) :
    selectQuadOrder ext' ft' fq' loc = selectQuadOrder ext ft fq loc := by
  obtain ⟨_, _, t3, _⟩ := ht
  obtain ⟨_, _, q3, _⟩ := hq
  unfold selectQuadOrder
  simp only [t3, q3, hbits]

theorem ctor_rel {R : Type} (ext ext' : Externals R)
    (hmk : ext'.make_QuadRule = ext.make_QuadRule)
    (hbits : ext'.quadOrderBits = ext.quadOrderBits)
    (ft fq ft' fq' : ScalarReferenceFiniteElement R) (loc : Nat)
    (ht : AgreeOn ft ft'
      (ext.make_QuadRule RefEl.kTria (selectQuadOrder ext ft fq loc)).Points)
    (hq : AgreeOn fq fq'
      (ext.make_QuadRule RefEl.kQuad (selectQuadOrder ext ft fq loc)).Points) :
    (LocCompLagrFEPreprocessor.ctor ext ft fq loc).calls =
        (LocCompLagrFEPreprocessor.ctor ext' ft' fq' loc).calls ∧
      ExceptRel SameCaches (LocCompLagrFEPreprocessor.ctor ext ft fq loc).result
        (LocCompLagrFEPreprocessor.ctor ext' ft' fq' loc).result := by
  have hc := compatibilityChecks_congr ft fq ft' fq' _ _ ht hq
  have hs := selectQuadOrder_congr ext ext' hbits ft fq ft' fq' loc _ _ ht hq
  have hT : (preprocessTria ext ft (selectQuadOrder ext ft fq loc)).calls =
        (preprocessTria ext' ft' (selectQuadOrder ext' ft' fq' loc)).calls ∧
      ExceptRel ShapeFunctionCache.same
        (preprocessTria ext ft (selectQuadOrder ext ft fq loc)).result
        (preprocessTria ext' ft' (selectQuadOrder ext' ft' fq' loc)).result := by
    rw [hs]
    have h1 := cacheFor_rel ext ext' hmk ft Block.tria (selectQuadOrder ext ft fq loc)
    have h2 : cacheFor ext' ft' Block.tria (selectQuadOrder ext ft fq loc) =
        cacheFor ext' ft Block.tria (selectQuadOrder ext ft fq loc) :=
      cacheFor_congr ext' ft ft' Block.tria _ (by rw [hmk]; exact ht)
    show (cacheFor ext ft Block.tria _).calls = (cacheFor ext' ft' Block.tria _).calls ∧
      ExceptRel ShapeFunctionCache.same (cacheFor ext ft Block.tria _).result
        (cacheFor ext' ft' Block.tria _).result
    rw [h2]
    exact h1
  have hQ : (preprocessQuad ext fq (selectQuadOrder ext ft fq loc)).calls =
        (preprocessQuad ext' fq' (selectQuadOrder ext' ft' fq' loc)).calls ∧
      ExceptRel ShapeFunctionCache.same
        (preprocessQuad ext fq (selectQuadOrder ext ft fq loc)).result
        (preprocessQuad ext' fq' (selectQuadOrder ext' ft' fq' loc)).result := by
    rw [hs]
    have h1 := cacheFor_rel ext ext' hmk fq Block.quad (selectQuadOrder ext ft fq loc)
    have h2 : cacheFor ext' fq' Block.quad (selectQuadOrder ext ft fq loc) =
        cacheFor ext' fq Block.quad (selectQuadOrder ext ft fq loc) :=
      cacheFor_congr ext' fq fq' Block.quad _ (by rw [hmk]; exact hq)
    show (cacheFor ext fq Block.quad _).calls = (cacheFor ext' fq' Block.quad _).calls ∧
      ExceptRel ShapeFunctionCache.same (cacheFor ext fq Block.quad _).result
        (cacheFor ext' fq' Block.quad _).result
    rw [h2]
    exact h1
  cases hck : compatibilityChecks ft fq with
  | error e =>
    rw [ctor_of_checks_error ext ft fq loc e hck,
      ctor_of_checks_error ext' ft' fq' loc e (hc.trans hck)]
    exact ⟨rfl, rfl⟩
  | ok u =>
    have hck' : compatibilityChecks ft' fq' = Except.ok () := hc.trans hck
    cases h1 : preprocessTria ext ft (selectQuadOrder ext ft fq loc) with
    | mk c1 r1 =>
      cases h1' : preprocessTria ext' ft' (selectQuadOrder ext' ft' fq' loc) with
      | mk c1' r1' =>
        rw [h1, h1'] at hT
        obtain ⟨hTc, hTr⟩ := hT
        simp only at hTc hTr
        subst hTc
        cases r1 with
        | error e =>
          cases r1' with
          | ok t' => exact hTr.elim
          | error e' =>
            rw [ctor_of_tria_error ext ft fq loc c1 e hck h1,
              ctor_of_tria_error ext' ft' fq' loc c1 e' hck' h1']
            exact ⟨rfl, hTr⟩
        | ok t =>
          cases r1' with
          | error e' => exact hTr.elim
          | ok t' =>
            cases h2 : preprocessQuad ext fq (selectQuadOrder ext ft fq loc) with
            | mk c2 r2 =>
              cases h2' : preprocessQuad ext' fq' (selectQuadOrder ext' ft' fq' loc) with
              | mk c2' r2' =>
                rw [h2, h2'] at hQ
                obtain ⟨hQc, hQr⟩ := hQ
                simp only at hQc hQr
                subst hQc
                cases r2 with
                | error e =>
                  cases r2' with
                  | ok q' => exact hQr.elim
                  | error e' =>
                    rw [ctor_of_quad_error ext ft fq loc c1 c2 t e hck h1 h2,
                      ctor_of_quad_error ext' ft' fq' loc c1 c2 t' e' hck' h1' h2']
                    exact ⟨rfl, hQr⟩
                | ok q =>
                  cases r2' with
                  | error e' => exact hQr.elim
                  | ok q' =>
                    rw [ctor_of_blocks_ok ext ft fq loc c1 c2 t q hck h1 h2,
                      ctor_of_blocks_ok ext' ft' fq' loc c1 c2 t' q' hck' h1' h2']
                    exact ⟨rfl, hTr, hQr⟩

theorem succeeded_eq_of_rel {R : Type} (r r' : Run (LocCompLagrFEPreprocessor R))
    (h : ExceptRel SameCaches r.result r'.result) : r.succeeded = r'.succeeded := by
  unfold Run.succeeded
  cases h1 : r.result <;> cases h2 : r'.result <;> rw [h1, h2] at h <;>
    first
      | rfl
      | exact h.elim

theorem agreeOn_refl {R : Type} (fe : ScalarReferenceFiniteElement R) (pts : List (List R)) :
    AgreeOn fe fe pts :=
  ⟨rfl, rfl, rfl, rfl, rfl, rfl, rfl, rfl⟩

/-- Claim C15: two constructions with the same quadrature provider and the same
quadrature-order argument, from elements that return the same dimension,
reference shape, counts, order and evaluation results at the points of the
fetched rules, and with arbitrary (possibly different) contents of the freshly
resized storage, make the same collaborator calls and either both fail at the
same assertion with the same diagnostic or both succeed with identical `Nrsf`,
rule, `Nqp`, value matrices and gradient matrices for both shapes. -/
theorem construction_reproducible {R : Type} (ext ext' : Externals R)
    (fe_tria fe_quad fe_tria' fe_quad' : ScalarReferenceFiniteElement R)
    (loc_quad_order : Nat)
    (hmk : ext'.make_QuadRule = ext.make_QuadRule)
    (hbits : ext'.quadOrderBits = ext.quadOrderBits)
    (ht : AgreeOn fe_tria fe_tria'
      (ext.make_QuadRule RefEl.kTria
        (selectQuadOrder ext fe_tria fe_quad loc_quad_order)).Points)
    (hq : AgreeOn fe_quad fe_quad'
      (ext.make_QuadRule RefEl.kQuad
        (selectQuadOrder ext fe_tria fe_quad loc_quad_order)).Points) :
    (LocCompLagrFEPreprocessor.ctor ext fe_tria fe_quad loc_quad_order).calls =
        (LocCompLagrFEPreprocessor.ctor ext' fe_tria' fe_quad' loc_quad_order).calls ∧
      ((∃ e, (LocCompLagrFEPreprocessor.ctor ext fe_tria fe_quad loc_quad_order).result
            = Except.error e ∧
          (LocCompLagrFEPreprocessor.ctor ext' fe_tria' fe_quad' loc_quad_order).result
            = Except.error e) ∨
        (∃ P P', (LocCompLagrFEPreprocessor.ctor ext fe_tria fe_quad loc_quad_order).result
            = Except.ok P ∧
          (LocCompLagrFEPreprocessor.ctor ext' fe_tria' fe_quad' loc_quad_order).result
            = Except.ok P' ∧ SameCaches P P')) := by
  obtain ⟨hcalls, hrel⟩ := ctor_rel ext ext' hmk hbits fe_tria fe_quad fe_tria' fe_quad'
    loc_quad_order ht hq
  refine ⟨hcalls, ?_⟩
  cases h1 : (LocCompLagrFEPreprocessor.ctor ext fe_tria fe_quad loc_quad_order).result with
  | error e =>
    cases h2 : (LocCompLagrFEPreprocessor.ctor ext' fe_tria' fe_quad' loc_quad_order).result with
    | error e' =>
      rw [h1, h2] at hrel
      have he : e = e' := hrel
      subst he
      exact Or.inl ⟨e, rfl, rfl⟩
    | ok P' =>
      rw [h1, h2] at hrel
      exact hrel.elim
  | ok P =>
    cases h2 : (LocCompLagrFEPreprocessor.ctor ext' fe_tria' fe_quad' loc_quad_order).result with
    | error e' =>
      rw [h1, h2] at hrel
      exact hrel.elim
    | ok P' =>
      rw [h1, h2] at hrel
      exact Or.inr ⟨P, P', rfl, rfl, hrel⟩

theorem construction_reproducible_witness :
    vertexRulesJunk.make_QuadRule = vertexRules.make_QuadRule ∧
      vertexRulesJunk.quadOrderBits = vertexRules.quadOrderBits ∧
      AgreeOn triaLinear triaLinear
        (vertexRules.make_QuadRule RefEl.kTria
          (selectQuadOrder vertexRules triaLinear quadBilinear 0)).Points ∧
      AgreeOn quadBilinear quadBilinear
        (vertexRules.make_QuadRule RefEl.kQuad
          (selectQuadOrder vertexRules triaLinear quadBilinear 0)).Points ∧
      ((LocCompLagrFEPreprocessor.ctor vertexRules triaLinear quadBilinear 0).calls =
          (LocCompLagrFEPreprocessor.ctor vertexRulesJunk triaLinear quadBilinear 0).calls ∧
        ((∃ e, (LocCompLagrFEPreprocessor.ctor vertexRules triaLinear quadBilinear 0).result
              = Except.error e ∧
            (LocCompLagrFEPreprocessor.ctor vertexRulesJunk triaLinear quadBilinear 0).result
              = Except.error e) ∨
          (∃ P P', (LocCompLagrFEPreprocessor.ctor vertexRules triaLinear quadBilinear 0).result
              = Except.ok P ∧
            (LocCompLagrFEPreprocessor.ctor vertexRulesJunk triaLinear quadBilinear 0).result
              = Except.ok P' ∧ SameCaches P P'))) :=
  ⟨rfl, rfl, agreeOn_refl _ _, agreeOn_refl _ _,
    construction_reproducible vertexRules vertexRulesJunk triaLinear quadBilinear triaLinear
      quadBilinear 0 rfl rfl (agreeOn_refl _ _) (agreeOn_refl _ _)⟩

/-- Claim C16, the code at the failing input: for the pair
(`triaNarrowGradients`, `quadBilinear`) every assertion of the constructor that
is reached passes (the compatibility invariant holds, the value vector and the
gradient vector have the reported length 3, every value row has `Nqp = 3`
entries), yet the run ends at the read `rsf_grad[j].col(i)` of the triangle
block, which is out of range: the gradient matrices have one column and the
rule has three points. -/
theorem gradient_read_out_of_range :
    CompatibilityInvariant triaNarrowGradients quadBilinear ∧
      (vertexRules.make_QuadRule RefEl.kTria
        (selectQuadOrder vertexRules triaNarrowGradients quadBilinear 0)).NumPoints = 3 ∧
      (triaNarrowGradients.EvalReferenceShapeFunctions
        (vertexRules.make_QuadRule RefEl.kTria
          (selectQuadOrder vertexRules triaNarrowGradients quadBilinear 0)).Points).length
        = triaNarrowGradients.NumRefShapeFunctions ∧
      (∀ row ∈ triaNarrowGradients.EvalReferenceShapeFunctions
        (vertexRules.make_QuadRule RefEl.kTria
          (selectQuadOrder vertexRules triaNarrowGradients quadBilinear 0)).Points,
        row.length = 3) ∧
      (triaNarrowGradients.GradientsReferenceShapeFunctions
        (vertexRules.make_QuadRule RefEl.kTria
          (selectQuadOrder vertexRules triaNarrowGradients quadBilinear 0)).Points).length
        = triaNarrowGradients.NumRefShapeFunctions ∧
      ((triaNarrowGradients.GradientsReferenceShapeFunctions
        (vertexRules.make_QuadRule RefEl.kTria
          (selectQuadOrder vertexRules triaNarrowGradients quadBilinear 0)).Points).map
        Mat.dims) = [(2, 1), (2, 1), (2, 1)] ∧
      (LocCompLagrFEPreprocessor.ctor vertexRules triaNarrowGradients quadBilinear 0).failure? =
        some ⟨Site.indexRange Block.tria, []⟩ := by
  decide

/-- Claim C17: the compatibility assertions consult only sub-entity index 0.
Two element pairs that agree on `Dimension()`, `RefEl()`, `order()`,
`NumRefShapeFunctions()`, `NumRefShapeFunctions(2,0)`, `NumRefShapeFunctions(1,0)`
and on the evaluation results at the points of the fetched rules are both
accepted or both rejected by the constructor, whatever counts they report for
other sub-entities.  Hence replacing the per-entity counts of a pair by any
counts that keep the values at `(2,0)` and `(1,0)` does not change whether the
pair is accepted. -/
theorem only_index_zero_consulted {R : Type} (ext : Externals R)
    (fe_tria fe_quad fe_tria' fe_quad' : ScalarReferenceFiniteElement R)
    (loc_quad_order : Nat)
    (ht : AgreeOn fe_tria fe_tria'
      (ext.make_QuadRule RefEl.kTria
        (selectQuadOrder ext fe_tria fe_quad loc_quad_order)).Points)
    (hq : AgreeOn fe_quad fe_quad'
      (ext.make_QuadRule RefEl.kQuad
        (selectQuadOrder ext fe_tria fe_quad loc_quad_order)).Points) :
    (LocCompLagrFEPreprocessor.ctor ext fe_tria' fe_quad' loc_quad_order).succeeded =
        (LocCompLagrFEPreprocessor.ctor ext fe_tria fe_quad loc_quad_order).succeeded ∧
      ∀ nt nq : Nat → Nat → Nat,
        nt 2 0 = fe_tria.NumRefShapeFunctionsAt 2 0 →
        nt 1 0 = fe_tria.NumRefShapeFunctionsAt 1 0 →
        nq 2 0 = fe_quad.NumRefShapeFunctionsAt 2 0 →
        nq 1 0 = fe_quad.NumRefShapeFunctionsAt 1 0 →
        (LocCompLagrFEPreprocessor.ctor ext
            { fe_tria with NumRefShapeFunctionsAt := nt }
            { fe_quad with NumRefShapeFunctionsAt := nq } loc_quad_order).succeeded =
          (LocCompLagrFEPreprocessor.ctor ext fe_tria fe_quad loc_quad_order).succeeded := by
  constructor
  · exact (succeeded_eq_of_rel _ _
      (ctor_rel ext ext rfl rfl fe_tria fe_quad fe_tria' fe_quad' loc_quad_order ht hq).2).symm
  · intro nt nq h1 h2 h3 h4
    have hrel := ctor_rel ext ext rfl rfl fe_tria fe_quad
      { fe_tria with NumRefShapeFunctionsAt := nt }
      { fe_quad with NumRefShapeFunctionsAt := nq } loc_quad_order
      ⟨rfl, rfl, rfl, rfl, h1, h2, rfl, rfl⟩ ⟨rfl, rfl, rfl, rfl, h3, h4, rfl, rfl⟩
    exact (succeeded_eq_of_rel _ _ hrel.2).symm

theorem only_index_zero_consulted_witness :
    AgreeOn triaLinear triaUnevenCounts
        (vertexRules.make_QuadRule RefEl.kTria
          (selectQuadOrder vertexRules triaLinear quadBilinear 0)).Points ∧
      AgreeOn quadBilinear quadBilinear
        (vertexRules.make_QuadRule RefEl.kQuad
          (selectQuadOrder vertexRules triaLinear quadBilinear 0)).Points ∧
      triaUnevenCounts.NumRefShapeFunctionsAt 1 1 ≠ quadBilinear.NumRefShapeFunctionsAt 1 1 ∧
      triaUnevenCounts.NumRefShapeFunctionsAt 2 1 ≠ 1 ∧
      (LocCompLagrFEPreprocessor.ctor vertexRules triaLinear quadBilinear 0).succeeded = true ∧
      (LocCompLagrFEPreprocessor.ctor vertexRules triaUnevenCounts quadBilinear 0).succeeded =
        (LocCompLagrFEPreprocessor.ctor vertexRules triaLinear quadBilinear 0).succeeded :=
  ⟨⟨rfl, rfl, rfl, rfl, rfl, rfl, rfl, rfl⟩, agreeOn_refl _ _, by decide, by decide, by decide,
    (only_index_zero_consulted vertexRules triaLinear quadBilinear triaUnevenCounts quadBilinear 0
      ⟨rfl, rfl, rfl, rfl, rfl, rfl, rfl, rfl⟩ (agreeOn_refl _ _)).1⟩

/-- Claim C18 as stated fails: when `dim_t` has 8 bits, the point constructed
from a coordinate vector with 300 entries reports `DimGlobal() = 44`, which is
not the number of entries. -/
theorem dimGlobal_wraps :
    longCoordinates.length = 300 ∧
      (Point.mk longCoordinates).DimGlobal 8 = 44 ∧
      (Point.mk longCoordinates).DimGlobal 8 ≠ longCoordinates.length := by
  have h1 : longCoordinates.length = 300 := by
    simp only [longCoordinates, List.length_replicate]
  have h2 : (Point.mk longCoordinates).DimGlobal 8 = 44 := by
    simp only [Point.DimGlobal, h1]
    norm_num
  refine ⟨h1, h2, ?_⟩
  rw [h2, h1]
  norm_num

/-- Claim C18, amended: for every coordinate vector `c` and every width of
`dim_t`, the point constructed from `c` reports `DimLocal() = 0`,
`DimGlobal() =` the number of entries of `c` reduced modulo `2 ^ width`, which
is the number of entries of `c` whenever that number is below `2 ^ width`, and
`RefEl() =` the point reference shape; two points whose coordinate vectors have
the same number of entries report the same three results, whatever the values
of the coordinates. -/
theorem point_geometry {R : Type} (dimBits : Nat) (c : List R) :
    (Point.mk c).DimLocal = 0 ∧
      (Point.mk c).DimGlobal dimBits = c.length % 2 ^ dimBits ∧
      (c.length < 2 ^ dimBits → (Point.mk c).DimGlobal dimBits = c.length) ∧
      (Point.mk c).RefEl = RefEl.kPoint ∧
      ∀ c' : List R, c'.length = c.length →
        (Point.mk c').DimLocal = (Point.mk c).DimLocal ∧
        (Point.mk c').DimGlobal dimBits = (Point.mk c).DimGlobal dimBits ∧
        (Point.mk c').RefEl = (Point.mk c).RefEl := by
  refine ⟨rfl, rfl, ?_, rfl, ?_⟩
  · intro h
    exact Nat.mod_eq_of_lt h
  · intro c' h
    refine ⟨rfl, ?_, rfl⟩
    show c'.length % 2 ^ dimBits = c.length % 2 ^ dimBits
    rw [h]

theorem point_geometry_witness :
    ([1, 2, 3] : List Int).length < 2 ^ 8 ∧
      (Point.mk ([1, 2, 3] : List Int)).DimLocal = 0 ∧
      (Point.mk ([1, 2, 3] : List Int)).DimGlobal 8 = 3 ∧
      (Point.mk ([1, 2, 3] : List Int)).RefEl = RefEl.kPoint :=
  ⟨by decide, (point_geometry 8 ([1, 2, 3] : List Int)).1,
    (point_geometry 8 ([1, 2, 3] : List Int)).2.2.1 (by decide),
    (point_geometry 8 ([1, 2, 3] : List Int)).2.2.2.1⟩

/-! ## The element matrix assembler -/

/-- Claim C11: for every cell geometry whose integration element is zero or
negative at some quadrature point of the cached rule of the cell's shape, the
per-cell computation of the Element Matrix Assembler reports the
degenerate-geometry failure; it returns no stiffness matrix, mass matrix or
load vector. -/
theorem degenerate_geometry_reported {R : Type} [LinearOrderedCommRing R]
    (P : LocCompLagrFEPreprocessor R) (shape : Block) (geo : Geometry R)
    (alpha : List R → Mat R) (gamma f : List R → R)
    (h : ∃ d ∈ geo.IntegrationElement (P.cacheOf shape).qr.Points, d ≤ 0) :
    assembleElementMatrices P shape geo alpha gamma f =
      Except.error AssemblyFailure.degenerateGeometry := by
  have hany : (geo.IntegrationElement (P.cacheOf shape).qr.Points).any
      (fun d => decide (d ≤ 0)) = true := by
    rw [List.any_eq_true]
    obtain ⟨d, hd, hle⟩ := h
    exact ⟨d, hd, by simpa using hle⟩
  unfold assembleElementMatrices
  simp only [hany, if_true]

theorem degenerate_geometry_reported_witness :
    (∃ d ∈ invertedCell.IntegrationElement (demoPreprocessor.cacheOf Block.tria).qr.Points,
        d ≤ 0) ∧
      assembleElementMatrices demoPreprocessor Block.tria invertedCell (fun _ => identity2)
          (fun _ => 0) (fun _ => 0) =
        Except.error AssemblyFailure.degenerateGeometry :=
  ⟨by decide,
    degenerate_geometry_reported demoPreprocessor Block.tria invertedCell (fun _ => identity2)
      (fun _ => 0) (fun _ => 0) (by decide)⟩

theorem sumBelow_congr {R : Type} [AddCommMonoid R] (n : Nat) (f g : Nat → R)
    (h : ∀ q, q < n → f q = g q) : sumBelow n f = sumBelow n g := by
  unfold sumBelow
  congr 1
  apply List.map_congr_left
  intro q hq
  exact h q (List.mem_range.mp hq)

theorem sumBelow_two {R : Type} [AddCommMonoid R] (f : Nat → R) :
    sumBelow 2 f = f 0 + f 1 := by
  have h : List.range 2 = [0, 1] := by decide
  simp [sumBelow, h]

theorem sumBelow_weights {R : Type} [CommSemiring R] (ws : List R) (c : R) :
    sumBelow ws.length (fun q => ws.getD q 0 * c) = ws.sum * c := by
  unfold sumBelow
  have h : (List.range ws.length).map (fun q => ws.getD q 0 * c) = ws.map (fun w => w * c) := by
    apply List.ext_getElem
    · simp
    · intro n h1 h2
      have hn : n < ws.length := by simpa using h1
      simp [List.getD, List.getElem?_eq_getElem hn]
  rw [h, List.sum_map_mul_right]
  simp

theorem col_coeff {R : Type} (m : Mat R) (j : Nat) (v : List R) (h : m.col j = some v) :
    ∀ r, r < m.rows → v[r]? = some (m.coeff r j) := by
  intro r hr
  unfold Mat.col at h
  split at h
  · simp only [Option.some.injEq] at h
    rw [← h]
    simp [List.getElem?_map, List.getElem?_range hr]
  · cases h

theorem stored_gradient_coeff {R : Type} (src dst : Mat R) (i j : Nat) (v : List R)
    (hs : src.col i = some v) (hd : dst.col j = some v) :
    ∀ r, r < dst.rows → dst.coeff r j = src.coeff r i := by
  intro r hr
  have h1 := col_coeff dst j v hd r hr
  have hl := (col_length dst j v hd).1
  have hl' := (col_length src i v hs).1
  have h2 := col_coeff src i v hs r (by omega)
  rw [h1] at h2
  simpa using h2

theorem consistent_triaLinearRat (qr : QuadRule ℚ) : ConsistentEvaluation triaLinearRat qr := by
  simp [ConsistentEvaluation, triaLinearRat, QuadRule.Points, QuadRule.NumPoints, Mat.ofFn]

theorem consistent_quadBilinearRat (qr : QuadRule ℚ) :
    ConsistentEvaluation quadBilinearRat qr := by
  simp [ConsistentEvaluation, quadBilinearRat, QuadRule.Points, QuadRule.NumPoints, Mat.ofFn]

theorem p1_gradient_source (pts : List (List ℚ)) (j : Nat) (src : Mat ℚ) (hj : j < 3)
    (h : (triaLinearRat.GradientsReferenceShapeFunctions pts)[j]? = some src) :
    ∀ r q, r < 2 → src.coeff r q = p1Gradient r j := by
  intro r q hr
  interval_cases j <;> simp [triaLinearRat, Mat.ofFn] at h <;> subst h <;>
    interval_cases r <;> simp [p1Gradient]

theorem stiffness_term (dst : Mat ℚ)
    (h : ∀ r j, r < 2 → j < 3 → dst.coeff r j = p1Gradient r j) (i j : Nat) (hi : i < 3)
    (hj : j < 3) :
    (stiffnessIntegrand (identity2.mul dst) identity2).coeff i j = 2 * p1Stiffness i j := by
  have h00 := h 0 0 (by omega) (by omega)
  have h01 := h 0 1 (by omega) (by omega)
  have h02 := h 0 2 (by omega) (by omega)
  have h10 := h 1 0 (by omega) (by omega)
  have h11 := h 1 1 (by omega) (by omega)
  have h12 := h 1 2 (by omega) (by omega)
  simp only [p1Gradient] at h00 h01 h02 h10 h11 h12
  norm_num at h00 h01 h02 h10 h11 h12
  interval_cases i <;> interval_cases j <;>
    simp [stiffnessIntegrand, Mat.mul, Mat.transpose, identity2, Mat.ofFn, sumBelow_two,
      p1Stiffness, h00, h01, h02, h10, h11, h12] <;> norm_num

theorem selectQuadOrder_linear (ext : Externals ℚ) (hbits : 8 ≤ ext.quadOrderBits) :
    selectQuadOrder ext triaLinearRat quadBilinearRat 0 = 2 := by
  have hw : (256 : Nat) ≤ 2 ^ ext.quadOrderBits := by
    calc (256 : Nat) = 2 ^ 8 := by norm_num
      _ ≤ 2 ^ ext.quadOrderBits := Nat.pow_le_pow_right (by norm_num) hbits
  have e : 2 % 2 ^ ext.quadOrderBits = 2 := Nat.mod_eq_of_lt (by omega)
  simp [selectQuadOrder, triaLinearRat, quadBilinearRat, e]

theorem reference_weight_terms (pts : List (List ℚ)) (q : Nat) (hq : q < pts.length) :
    (referenceTriangle.IntegrationElement pts).getD q 0 = 1 ∧
      (referenceTriangle.JacobianInverseGramian pts).getD q Mat.empty = identity2 ∧
      (referenceTriangle.IntegrationElement pts).any (fun d => decide (d ≤ 0)) = false := by
  refine ⟨?_, ?_, ?_⟩
  · simp [referenceTriangle, List.getD, List.getElem?_replicate, hq]
  · simp [referenceTriangle, List.getD, List.getElem?_replicate, hq]
  · simp [referenceTriangle]

theorem stored_p1_gradients (ext : Externals ℚ) (q0 : Nat) (t : ShapeFunctionCache ℚ)
    (ht : (preprocessTria ext triaLinearRat q0).result = Except.ok t) :
    t.Nrsf = 3 ∧ t.qr = ext.make_QuadRule RefEl.kTria q0 ∧ t.Nqp = t.qr.nodes.length ∧
      ∀ q, q < t.Nqp → ∃ dst, t.grad_quadpoint[q]? = some dst ∧
        ∀ r j, r < 2 → j < 3 → dst.coeff r j = p1Gradient r j := by
  obtain ⟨h1, h2, h3, _, ⟨hlen, hshape, hcol⟩⟩ := block_facts_tria ext triaLinearRat q0 t ht
  have hN : t.Nrsf = 3 := h1
  refine ⟨hN, h2, h3, ?_⟩
  intro q hq
  have hq' : q < t.grad_quadpoint.length := by omega
  refine ⟨t.grad_quadpoint[q], List.getElem?_eq_getElem hq', ?_⟩
  intro r j hr hj
  obtain ⟨src, dst, v, a1, a2, a3, a4⟩ := hcol q j hq (by omega)
  rw [List.getElem?_eq_getElem hq'] at a2
  simp only [Option.some.injEq] at a2
  subst a2
  have hrows := (hshape _ (List.getElem_mem hq')).1
  rw [stored_gradient_coeff src _ q j v a3 a4 r (by omega)]
  exact p1_gradient_source _ j src hj a1 r q hr

theorem assemble_reference_stiffness (P : LocCompLagrFEPreprocessor ℚ) :
    ∃ E, assembleElementMatrices P Block.tria referenceTriangle (fun _ => identity2)
        (fun _ => 0) (fun _ => 0) = Except.ok E ∧
      E.S.rows = P.Nrsf_tria_ ∧ E.S.cols = P.Nrsf_tria_ ∧
      ∀ i j, E.S.coeff i j = sumBelow P.Nqp_tria_ (fun q =>
        (P.qr_tria_.Weights.getD q 0 *
            (referenceTriangle.IntegrationElement P.qr_tria_.Points).getD q 0) *
          (stiffnessIntegrand
            (((referenceTriangle.JacobianInverseGramian P.qr_tria_.Points).getD q Mat.empty).mul
              (P.grad_quadpoint_tria_.getD q Mat.empty)) identity2).coeff i j) := by
  have hno : (referenceTriangle.IntegrationElement (P.cacheOf Block.tria).qr.Points).any
      (fun d => decide (d ≤ 0)) = false := by simp [referenceTriangle]
  unfold assembleElementMatrices
  simp only [hno, Bool.false_eq_true, if_false]
  exact ⟨_, rfl, rfl, rfl, fun _ _ => rfl⟩

theorem reference_stiffness_entries (ext : Externals ℚ) (hbits : 8 ≤ ext.quadOrderBits)
    (hw : (ext.make_QuadRule RefEl.kTria 2).Weights.sum = 1 / 2) :
    ∃ P E, (LocCompLagrFEPreprocessor.ctor ext triaLinearRat quadBilinearRat 0).result
        = Except.ok P ∧
      P.qr_tria_ = ext.make_QuadRule RefEl.kTria 2 ∧
      assembleElementMatrices P Block.tria referenceTriangle (fun _ => identity2)
        (fun _ => 0) (fun _ => 0) = Except.ok E ∧
      E.S.rows = 3 ∧ E.S.cols = 3 ∧
      ∀ i j, i < 3 → j < 3 → E.S.coeff i j = p1Stiffness i j := by
  have hsel := selectQuadOrder_linear ext hbits
  have hc : compatibilityChecks triaLinearRat quadBilinearRat = Except.ok () :=
    (compatibilityChecks_ok_iff _ _).mpr ⟨⟨rfl, rfl⟩, Or.inl rfl, ⟨rfl, rfl⟩, rfl⟩
  obtain ⟨t0, ht0⟩ := preprocessTria_succeeds ext triaLinearRat 2 (consistent_triaLinearRat _)
  obtain ⟨u0, hu0⟩ := preprocessQuad_succeeds ext quadBilinearRat 2
    (consistent_quadBilinearRat _)
  obtain ⟨P, hP, _, _⟩ := ctor_succeeds ext triaLinearRat quadBilinearRat 0 t0 u0 hc
    (by rw [hsel]; exact ht0) (by rw [hsel]; exact hu0)
  obtain ⟨_, t, u, ht, hu, _, _, _, e1, e2, e3, e4, e5, _⟩ :=
    ctor_result_ok ext triaLinearRat quadBilinearRat 0 P hP
  rw [hsel] at ht
  obtain ⟨g1, g2, g3, g4⟩ := stored_p1_gradients ext 2 t ht
  obtain ⟨E, hE1, hE2, hE3, hE4⟩ := assemble_reference_stiffness P
  refine ⟨P, E, hP, ?_, hE1, ?_, ?_, ?_⟩
  · rw [e2, g2]
  · rw [hE2, e1, g1]
  · rw [hE3, e1, g1]
  · intro i j hi hj
    rw [hE4 i j]
    have hNqp : P.Nqp_tria_ = P.qr_tria_.Weights.length := by
      rw [e3, g3, e2]
      simp [QuadRule.Weights]
    have hterm : ∀ q, q < P.Nqp_tria_ →
        (P.qr_tria_.Weights.getD q 0 *
            (referenceTriangle.IntegrationElement P.qr_tria_.Points).getD q 0) *
          (stiffnessIntegrand
            (((referenceTriangle.JacobianInverseGramian P.qr_tria_.Points).getD q Mat.empty).mul
              (P.grad_quadpoint_tria_.getD q Mat.empty)) identity2).coeff i j
          = P.qr_tria_.Weights.getD q 0 * (2 * p1Stiffness i j) := by
      intro q hq
      have hqp : q < P.qr_tria_.Points.length := by
        rw [hNqp] at hq
        simpa [QuadRule.Weights, QuadRule.Points] using hq
      obtain ⟨w1, w2, _⟩ := reference_weight_terms P.qr_tria_.Points q hqp
      obtain ⟨dst, d1, d2⟩ := g4 q (by rw [← e3]; exact hq)
      have hget : P.grad_quadpoint_tria_.getD q Mat.empty = dst := by
        rw [e5]
        simp [List.getD, d1]
      rw [w1, w2, hget, stiffness_term dst d2 i j hi hj]
      ring
    rw [sumBelow_congr _ _ _ hterm, hNqp, sumBelow_weights, e2, g2, hw]
    ring
/-- Claim C12: with the order-1 Lagrange elements on both shapes and the
quadrature-order argument 0, construction succeeds and the triangle rule is
the one fetched for order 2; for the unit reference triangle with the identity
geometry, the identity diffusion tensor, zero reaction coefficient and zero
source, the assembled local stiffness matrix is the 3 x 3 matrix
`[[1,-1/2,-1/2],[-1/2,1/2,0],[-1/2,0,1/2]]`, exactly over the rationals.  This
holds for every quadrature provider whose order-2 triangle rule has weights
that sum to the area 1/2 of the reference triangle (and `quadOrder_t` of at
least 8 bits). -/
theorem p1_reference_stiffness (ext : Externals ℚ) (hbits : 8 ≤ ext.quadOrderBits)
    (hw : (ext.make_QuadRule RefEl.kTria 2).Weights.sum = 1 / 2) :
    ∃ P E, (LocCompLagrFEPreprocessor.ctor ext triaLinearRat quadBilinearRat 0).result
        = Except.ok P ∧
      P.qr_tria_ = ext.make_QuadRule RefEl.kTria 2 ∧
      assembleElementMatrices P Block.tria referenceTriangle (fun _ => identity2)
        (fun _ => 0) (fun _ => 0) = Except.ok E ∧
      E.S.rows = 3 ∧ E.S.cols = 3 ∧
      E.S.coeff 0 0 = 1 ∧ E.S.coeff 0 1 = -1 / 2 ∧ E.S.coeff 0 2 = -1 / 2 ∧
      E.S.coeff 1 0 = -1 / 2 ∧ E.S.coeff 1 1 = 1 / 2 ∧ E.S.coeff 1 2 = 0 ∧
      E.S.coeff 2 0 = -1 / 2 ∧ E.S.coeff 2 1 = 0 ∧ E.S.coeff 2 2 = 1 / 2 := by
  obtain ⟨P, E, h1, h2, h3, h4, h5, h6⟩ := reference_stiffness_entries ext hbits hw
  have e00 := h6 0 0 (by omega) (by omega)
  have e01 := h6 0 1 (by omega) (by omega)
  have e02 := h6 0 2 (by omega) (by omega)
  have e10 := h6 1 0 (by omega) (by omega)
  have e11 := h6 1 1 (by omega) (by omega)
  have e12 := h6 1 2 (by omega) (by omega)
  have e20 := h6 2 0 (by omega) (by omega)
  have e21 := h6 2 1 (by omega) (by omega)
  have e22 := h6 2 2 (by omega) (by omega)
  simp only [p1Stiffness, List.getD_cons_zero, List.getD_cons_succ] at e00 e01 e02 e10 e11 e12
  simp only [p1Stiffness, List.getD_cons_zero, List.getD_cons_succ] at e20 e21 e22
  exact ⟨P, E, h1, h2, h3, h4, h5, e00, e01, e02, e10, e11, e12, e20, e21, e22⟩

theorem p1_reference_stiffness_witness :
    8 ≤ midpointRules.quadOrderBits ∧
      (midpointRules.make_QuadRule RefEl.kTria 2).Weights.sum = 1 / 2 ∧
      ∃ P E, (LocCompLagrFEPreprocessor.ctor midpointRules triaLinearRat quadBilinearRat 0).result
          = Except.ok P ∧
        P.qr_tria_ = midpointRules.make_QuadRule RefEl.kTria 2 ∧
        assembleElementMatrices P Block.tria referenceTriangle (fun _ => identity2)
          (fun _ => 0) (fun _ => 0) = Except.ok E ∧
        E.S.rows = 3 ∧ E.S.cols = 3 ∧
        E.S.coeff 0 0 = 1 ∧ E.S.coeff 0 1 = -1 / 2 ∧ E.S.coeff 0 2 = -1 / 2 ∧
        E.S.coeff 1 0 = -1 / 2 ∧ E.S.coeff 1 1 = 1 / 2 ∧ E.S.coeff 1 2 = 0 ∧
        E.S.coeff 2 0 = -1 / 2 ∧ E.S.coeff 2 1 = 0 ∧ E.S.coeff 2 2 = 1 / 2 :=
  ⟨by decide, by norm_num [midpointRules, QuadRule.Weights],
    p1_reference_stiffness midpointRules (by decide)
      (by norm_num [midpointRules, QuadRule.Weights])⟩

end lf.fe
